import Mathlib

/-! # Zeiss AxioVision import filter: embedding and checked properties

A shallow embedding of `ZeissImportFilter.cpp` (the `_meta.xml` tag-section
parser, the per-tile document walk, the two sub-filter steps and `dataCheck`),
of the adapter `itk::InPlaceDream3DDataToImageFilter` and of the tile grid of
`ImportZenInfoMontage`, followed by the properties established about them.

Conventions of the embedding:

* `qint32`/`int` values are `Int`; `size_t` values are `Nat` reduced modulo `2 ^ 64`.
* A `boost::shared_ptr` that may be null is an `Option`; dereferencing a null
  pointer and a failed `Q_ASSERT_X` end the run with a `Fault`.
* Data containers, attribute matrices and arrays are reached by name, as the
  source's own lookups do.
* Everything the filter reports or asks of a sub-filter is appended, in order,
  to the `trace` field of the filter state.
-/

set_option autoImplicit false
set_option maxRecDepth 20000

namespace ZeissImport

/-! ## Qt text helpers -/

/-- Characters skipped by Qt's number parser on both ends of the text. -/
def isSpace (c : Char) : Bool :=
  c.toNat = 32 || (9 ≤ c.toNat && c.toNat ≤ 13)

/-- Decimal digit test on the code point. -/
def isDigit (c : Char) : Bool :=
  48 ≤ c.toNat && c.toNat ≤ 57

/-- Value of a run of decimal digits, most significant first. -/
def digitsValue (ds : List Char) : Nat :=
  ds.foldl (fun a c => 10 * a + (c.toNat - 48)) 0

/-- Strips white space from both ends. -/
def trimmed (cs : List Char) : List Char :=
  ((cs.dropWhile isSpace).reverse.dropWhile isSpace).reverse

/-- Sign and magnitude part of a trimmed numeral. -/
def splitSign : List Char → Bool × List Char
  | '-' :: r => (true, r)
  | '+' :: r => (false, r)
  | r => (false, r)

/-- `QString::toInt(&ok, 10)`: `some v` when `ok` is set, `none` when the
conversion fails (the C++ call then returns 0).  The text may carry surrounding
white space and one sign; the value has to fit a 32-bit `int`. -/
def toInt (s : String) : Option Int :=
  let p := splitSign (trimmed s.data)
  if p.2.isEmpty || !(p.2.all isDigit) then none
  else
    let v : Int := if p.1 then -(digitsValue p.2 : Int) else (digitsValue p.2 : Int)
    if -2147483648 ≤ v ∧ v ≤ 2147483647 then some v else none

/-- The `int` returned by `toInt` when the `ok` flag is ignored. -/
def toIntValue (s : String) : Int :=
  (toInt s).getD 0

/-- Decimal text of an `int`, as `QString::arg(int)` and `QTextStream << int` print it. -/
def intText (i : Int) : String :=
  toString i

/-- `QTextStream` output of `text` with field width `width`, right alignment and
pad character `pad`: shorter text is filled on the left, longer text is kept whole. -/
def rightAligned (width : Nat) (pad : Char) (text : String) : String :=
  String.mk (List.replicate (width - text.length) pad) ++ text

/-- File name part of a path (`QFileInfo::fileName`). -/
def fileName (path : String) : String :=
  String.mk ((path.data.reverse.takeWhile (fun c => c != '/')).reverse)

/-- `QFileInfo::completeBaseName`: the file name up to, not including, its last dot. -/
def completeBaseName (path : String) : String :=
  let rev := (fileName path).data.reverse
  if rev.contains '.' then String.mk ((rev.dropWhile (fun c => c != '.')).drop 1).reverse
  else fileName path

/-- `QFileInfo::suffix`: what follows the last dot of the file name. -/
def fileSuffix (path : String) : String :=
  let rev := (fileName path).data.reverse
  if rev.contains '.' then String.mk (rev.takeWhile (fun c => c != '.')).reverse
  else ""

/-- Conversion of an `int` to `size_t` (64-bit). -/
def sizeT (v : Int) : Nat :=
  (v % (2 : Int) ^ 64).toNat

/-! ## XML elements -/

/-- A DOM element: tag name, text content and child elements. -/
inductive QDomElement where
  | mk (tagName : String) (text : String) (children : List QDomElement)

namespace QDomElement

/-- Tag name of an element. -/
def tagName : QDomElement → String
  | mk n _ _ => n

/-- Child elements of an element. -/
def children : QDomElement → List QDomElement
  | mk _ _ cs => cs

/-- Text of an element. -/
def ownText : QDomElement → String
  | mk _ t _ => t

end QDomElement

/-- First element of `es` with tag name `name`. -/
def firstNamed (name : String) : List QDomElement → Option QDomElement
  | [] => none
  | e :: rest => if e.tagName = name then some e else firstNamed name rest

/-- `QDomElement::firstChildElement(name)`; `none` is the null element. -/
def firstChildElement (e : QDomElement) (name : String) : Option QDomElement :=
  firstNamed name e.children

/-- `QDomElement::text()`; the null element has empty text. -/
def text : Option QDomElement → String
  | some e => e.ownText
  | none => ""

/-! ## Meta-data entries and tag sections -/

/-- Decoded value of a meta-data entry. -/
inductive ZeissValue where
  | int32 (v : Int)
  | float32 (raw : String)
  | string (s : String)
  deriving DecidableEq, Repr

/-- One decoded tag: its Zeiss id and its value. -/
structure AbstractZeissMetaData where
  zeissIdTag : Int
  value : ZeissValue
  deriving DecidableEq, Repr

/-- `ZeissMetaEntry::convert<Int32ZeissMetaEntry>`: the value of an `int32` entry,
`none` (a null pointer) for a null pointer or an entry of another type. -/
def convertInt32 : Option AbstractZeissMetaData → Option Int
  | some ⟨_, .int32 v⟩ => some v
  | _ => none

/-- `boost::dynamic_pointer_cast<StringZeissMetaEntry>`: the value of a string entry. -/
def castString : Option AbstractZeissMetaData → Option String
  | some ⟨_, .string v⟩ => some v
  | _ => none

/-- Modelled from the spec: the tag section (`ZeissTagsXmlSection`, whose source is
not part of the files at hand), a mapping from numeric id to entry with unique keys.
The entries are kept in ascending id order, the order in which a `QMap` is iterated. -/
abbrev ZeissTagsXmlSection := List (Int × AbstractZeissMetaData)

namespace ZeissTagsXmlSection

/-- Insertion keyed by `k`; an entry already stored under `k` is replaced. -/
def insertKey (k : Int) (v : AbstractZeissMetaData) : ZeissTagsXmlSection → ZeissTagsXmlSection
  | [] => [(k, v)]
  | (k1, v1) :: rest =>
    if k = k1 then (k, v) :: rest
    else if k < k1 then (k, v) :: (k1, v1) :: rest
    else (k1, v1) :: insertKey k v rest

/-- `addMetaDataEntry(ptr)`: stores the entry under its own id. -/
def addMetaDataEntry (sec : ZeissTagsXmlSection) (ptr : AbstractZeissMetaData) :
    ZeissTagsXmlSection :=
  insertKey ptr.zeissIdTag ptr sec

/-- `getEntry(id)`: the entry stored under `id`, a null pointer when there is none. -/
def getEntry : ZeissTagsXmlSection → Int → Option AbstractZeissMetaData
  | [], _ => none
  | (k1, v1) :: rest, k => if k1 = k then some v1 else getEntry rest k

/-- Removal of the entry stored under `k`. -/
def eraseKey (k : Int) : ZeissTagsXmlSection → ZeissTagsXmlSection
  | [] => []
  | (k1, v1) :: rest => if k1 = k then eraseKey k rest else (k1, v1) :: eraseKey k rest

end ZeissTagsXmlSection

/-! ## The destination store -/

/-- A data array of the destination store, as far as the filter can tell arrays apart. -/
structure IDataArray where
  name : String
  numberOfTuples : Nat
  allocated : Bool
  typeName : String
  deriving DecidableEq, Repr

/-- An attribute matrix: tuple dimensions and arrays keyed by name.  The order of the
list carries no meaning; an array is found by its key. -/
structure AttributeMatrix where
  name : String
  tupleDims : List Nat
  arrays : List (String × IDataArray)
  deriving DecidableEq, Repr

/-- A data container: attribute matrices keyed by name. -/
structure DataContainer where
  name : String
  matrices : List (String × AttributeMatrix)
  deriving DecidableEq, Repr

/-- The data container array shared by the filter and its sub-filters. -/
abbrev DataContainerArray := List DataContainer

/-- Value stored under key `k` of a name-keyed map. -/
def findKey {α : Type} (k : String) : List (String × α) → Option α
  | [] => none
  | (k1, v1) :: rest => if k1 = k then some v1 else findKey k rest

/-- Map assignment `m[k] = v`: replaces the value under `k`, or adds the key. -/
def assignKey {α : Type} (k : String) (v : α) : List (String × α) → List (String × α)
  | [] => [(k, v)]
  | (k1, v1) :: rest => if k1 = k then (k, v) :: rest else (k1, v1) :: assignKey k v rest

/-- Map removal of key `k`. -/
def removeKey {α : Type} (k : String) : List (String × α) → List (String × α)
  | [] => []
  | (k1, v1) :: rest => if k1 = k then removeKey k rest else (k1, v1) :: removeKey k rest

/-- `AttributeMatrix::addAttributeArray(name, data)`. -/
def AttributeMatrix.addAttributeArray (am : AttributeMatrix) (name : String)
    (data : IDataArray) : AttributeMatrix :=
  { am with arrays := assignKey name data am.arrays }

/-- `AttributeMatrix::removeAttributeArray(name)`: the removed array (null when the
matrix has none of that name) and the matrix without it. -/
def AttributeMatrix.removeAttributeArray (am : AttributeMatrix) (name : String) :
    Option IDataArray × AttributeMatrix :=
  (findKey name am.arrays, { am with arrays := removeKey name am.arrays })

/-- `DataContainer::getAttributeMatrix(name)`. -/
def DataContainer.getAttributeMatrix (dc : DataContainer) (name : String) :
    Option AttributeMatrix :=
  findKey name dc.matrices

/-- Stores `am` under `name` in the container. -/
def DataContainer.setAttributeMatrix (dc : DataContainer) (name : String)
    (am : AttributeMatrix) : DataContainer :=
  { dc with matrices := assignKey name am dc.matrices }

/-- `DataContainer::createAndAddAttributeMatrix(dims, name, type)`: a new, empty
matrix of the given tuple dimensions stored under `name`. -/
def DataContainer.createAndAddAttributeMatrix (dc : DataContainer) (dims : List Nat)
    (name : String) : DataContainer :=
  dc.setAttributeMatrix name { name := name, tupleDims := dims, arrays := [] }

/-- `DataContainerArray::getDataContainer(name)`. -/
def getDataContainer : DataContainerArray → String → Option DataContainer
  | [], _ => none
  | dc :: rest, name => if dc.name = name then some dc else getDataContainer rest name

/-- Writes back the container reached under `name`. -/
def setDataContainer : DataContainerArray → String → DataContainer → DataContainerArray
  | [], _, _ => []
  | dc :: rest, name, new =>
    if dc.name = name then new :: rest else dc :: setDataContainer rest name new

/-! ## Sub-filters, environment and filter state -/

/-- The weights handed to the gray-scale converter; carried, never computed with. -/
structure FloatVec3 where
  x : Rat
  y : Rat
  z : Rat
  deriving DecidableEq, Repr

/-- A `QVariant` as the filter builds them. -/
inductive QVariant where
  | string (s : String)
  | dataArrayPath (dataContainer attributeMatrix dataArray : String)
  | floatVec3 (w : FloatVec3)
  deriving DecidableEq, Repr

/-- A sub-filter produced by a factory of the filter manager: which property
assignments it accepts, and what running it (in preflight or execute mode, with the
properties it accepted) does to the shared data container array. -/
structure SubFilter where
  setProperty : String → QVariant → Bool
  run : Bool → List (String × QVariant) → DataContainerArray → DataContainerArray

/-- What the filter reports and what it asks of its sub-filters, in order. -/
inductive Event where
  | errorMessage (label text : String) (code : Int)
  | statusMessage (label text : String)
  | propertySet (filter property : String) (value : QVariant) (wasSet : Bool)
  | preflighted (filter : String) (properties : List (String × QVariant))
  | executed (filter : String) (properties : List (String × QVariant))
  deriving DecidableEq, Repr

/-- Outcome of parsing the XML device (`QDomDocument::setContent`). -/
inductive XmlContent where
  | parseError (errorStr : String) (errorLine errorColumn : Int)
  | document (root : QDomElement)

/-- The parts of the program and of its host that are not in the files at hand:
the tag mapping registry and its well-known ids, a string constant, the filter
manager, the file system, and whether `Q_ASSERT_X` is compiled in. -/
structure Env where
  metaDataForId : Int → String → Option AbstractZeissMetaData
  nameForId : Int → String
  imageCountRawId : Int
  filenameId : Int
  imageWidthPixelId : Int
  imageHeightPixelId : Int
  imageTileIndexId : Int
  metaDataSuffix : String
  getFactoryForFilter : String → Option SubFilter
  absoluteDirPath : String → String
  fileExists : String → Bool
  readXml : String → XmlContent
  assertsEnabled : Bool

/-- Abnormal ends of a run. -/
inductive Fault where
  | nullPointerDereference
  | assertionFailed
  deriving DecidableEq, Repr

/-- State of a `ZeissImportFilter`: its parameters, its error condition, the data
container array it works on (possibly null) and the trace of what it emitted. -/
structure ZeissImportFilter where
  inputFile : String
  dataContainerName : String
  imageAttributeMatrixName : String
  convertToGrayScale : Bool
  colorWeights : FloatVec3
  inPreflight : Bool
  errorCondition : Int
  dataContainerArray : Option DataContainerArray
  trace : List Event
  deriving DecidableEq

deriving instance DecidableEq for Except

namespace ZeissImportFilter

/-- `getHumanLabel()`. -/
def humanLabel : String := "Zeiss AxioVision Import"

/-- `setErrorCondition(code)`. -/
def setErrorCondition (s : ZeissImportFilter) (code : Int) : ZeissImportFilter :=
  { s with errorCondition := code }

/-- `notifyErrorMessage(getHumanLabel(), ss, getErrorCondition())`. -/
def notifyErrorMessage (s : ZeissImportFilter) (ss : String) : ZeissImportFilter :=
  { s with trace := s.trace ++ [Event.errorMessage humanLabel ss s.errorCondition] }

/-- `notifyStatusMessage(getHumanLabel(), msg)`. -/
def notifyStatusMessage (s : ZeissImportFilter) (msg : String) : ZeissImportFilter :=
  { s with trace := s.trace ++ [Event.statusMessage humanLabel msg] }

/-- The pair `setErrorCondition(code); notifyErrorMessage(...)`. -/
def reportError (s : ZeissImportFilter) (code : Int) (ss : String) : ZeissImportFilter :=
  (s.setErrorCondition code).notifyErrorMessage ss

end ZeissImportFilter

/-- Dereference of a pointer. -/
def deref {α : Type} : Option α → Except Fault α
  | some a => .ok a
  | none => .error Fault.nullPointerDereference

/-- `Q_ASSERT_X(cond, ...)`: ends the run when asserts are compiled in and `cond` is false. -/
def qAssert (env : Env) (cond : Bool) : Except Fault Unit :=
  if env.assertsEnabled && !cond then .error Fault.assertionFailed else .ok ()

/-! ## Constants -/

/-- Modelled from the spec: the element name `ZeissImport::Xml::Tags` (its header is not
part of the files at hand); the spec and the error texts name the element `<Tags>`. -/
def Xml.Tags : String := "Tags"

/-- Modelled from the spec: the element name `ZeissImport::Xml::Count`; the spec and the
error text name the child `Count`. -/
def Xml.Count : String := "Count"

/-- The constant `k_GrayScaleTempArrayName`. -/
def k_GrayScaleTempArrayName : String := "gray_scale_temp"

/-! ## `parseTagsSection` -/

/-- Body of the `for` loop of `parseTagsSection` at index `c`. -/
def parseTagsStep (env : Env) (tags : QDomElement) (c : Nat)
    (rootTagsSection : ZeissTagsXmlSection) : ZeissTagsXmlSection :=
  let Vx := "V" ++ intText c
  let Ix := "I" ++ intText c
  let vxEle := firstChildElement tags Vx
  let ixEle := firstChildElement tags Ix
  let idValue := toIntValue (text ixEle)
  let ptr := env.metaDataForId idValue (text vxEle)
  match ptr with
  | some entry =>
    if (text vxEle).length > 0 then ZeissTagsXmlSection.addMetaDataEntry rootTagsSection entry
    else rootTagsSection
  | none => rootTagsSection

/-- The loop `for (int c = 0; c < count; c++)` from index `c` with `n` passes left. -/
def parseTagsLoop (env : Env) (tags : QDomElement) :
    Nat → Nat → ZeissTagsXmlSection → ZeissTagsXmlSection
  | _, 0, sec => sec
  | c, n + 1, sec => parseTagsLoop env tags (c + 1) n (parseTagsStep env tags c sec)

/-- `ZeissImportFilter::parseTagsSection`: the section (null on failure) and the
filter state afterwards. -/
def parseTagsSection (env : Env) (tags : QDomElement) (s : ZeissImportFilter) :
    Option ZeissTagsXmlSection × ZeissImportFilter :=
  let countEle := firstChildElement tags Xml.Count
  match toInt (text countEle) with
  | none =>
    (none, s.reportError (-70001) "Error Parsing 'Count' Tag in Root 'Tags' DOM element")
  | some count =>
    (some (parseTagsLoop env tags 0 count.toNat []), s)

/-! ## `parseImages` and its steps -/

/-- The padding width computed at the head of `parseImages`. -/
def zeroPadding (imageCount : Int) : Nat :=
  let z := 0
  let z := if imageCount > 0 then z + 1 else z
  let z := if imageCount > 9 then z + 1 else z
  let z := if imageCount > 99 then z + 1 else z
  let z := if imageCount > 999 then z + 1 else z
  let z := if imageCount > 9999 then z + 1 else z
  z

/-- The element name built for tile `p`: `"p"`, then `p` right-aligned in a field of
`zeroPadding` characters filled with `'0'`. -/
def tileTag (zeroPadding p : Nat) : String :=
  "p" ++ rightAligned zeroPadding '0' (intText p)

/-- `ZeissImportFilter::getImageDimensions`. -/
def getImageDimensions (env : Env) (photoTagsSection : ZeissTagsXmlSection) :
    Except Fault (List Nat) := do
  let ptr := ZeissTagsXmlSection.getEntry photoTagsSection env.imageWidthPixelId
  let int32Entry := convertInt32 ptr
  qAssert env int32Entry.isSome
  let width ← deref int32Entry
  let ptr := ZeissTagsXmlSection.getEntry photoTagsSection env.imageHeightPixelId
  let int32Entry := convertInt32 ptr
  qAssert env int32Entry.isSome
  let height ← deref int32Entry
  pure [sizeT width, sizeT height, 1]

/-- Modelled from the spec: `createDataArray(allocate)` of a meta-data entry ("an empty,
correctly-typed array to be filled later"), named after the entry's tag. -/
def createDataArray (env : Env) (entry : AbstractZeissMetaData) (allocate : Bool) :
    IDataArray :=
  { name := env.nameForId entry.zeissIdTag
    numberOfTuples := 0
    allocated := allocate
    typeName := match entry.value with
      | .int32 _ => "int32_t"
      | .float32 _ => "float"
      | .string _ => "QString" }

/-- The `while (iter.hasNext())` loop of `parseImages`: one array per entry of the
section, resized to `imageCount` and added to the meta-data matrix. -/
def addMetaDataArrays (env : Env) (imageCount : Int) (allocate : Bool) :
    ZeissTagsXmlSection → AttributeMatrix → AttributeMatrix
  | [], metaAm => metaAm
  | (_, entry) :: rest, metaAm =>
    let dataArray := createDataArray env entry allocate
    let dataArray := { dataArray with numberOfTuples := sizeT imageCount }
    addMetaDataArrays env imageCount allocate rest
      (metaAm.addAttributeArray dataArray.name dataArray)

/-- `ZeissImportFilter::addMetaData`: the body is empty. -/
def addMetaData (_metaName : String) (_photoTagsSection : ZeissTagsXmlSection) (_index : Nat)
    (s : ZeissImportFilter) : ZeissImportFilter :=
  s

/-- Text of the report made when a sub-filter rejects a property. -/
def propertyErrorText (property filtName : String) : String :=
  "Error Setting Property '" ++ property ++ "' into filter '" ++ filtName ++
  "' which is a subfilter called by " ++ ZeissImportFilter.humanLabel ++
  ". The property was not set which could mean the property was not exposed with a Q_PROPERTY macro. Please notify the developers."

/-- One `filter->setProperty(property, value)` with the report that follows a refusal;
`reported` is the name the report puts in its text.  The second component collects
the assignments the sub-filter accepted. -/
def assignProperty (filter : SubFilter) (filtName property reported : String) (code : Int)
    (value : QVariant) (st : ZeissImportFilter × List (String × QVariant)) :
    ZeissImportFilter × List (String × QVariant) :=
  let propWasSet := filter.setProperty property value
  let s := { st.1 with
    trace := st.1.trace ++ [Event.propertySet filtName property value propWasSet] }
  if propWasSet = false then (s.reportError code (propertyErrorText reported filtName), st.2)
  else (s, st.2 ++ [(property, value)])

/-- The `if(getInPreflight() == true) filter->preflight(); else filter->execute();` step. -/
def runSubFilter (filter : SubFilter) (filtName : String) (props : List (String × QVariant))
    (s : ZeissImportFilter) : ZeissImportFilter :=
  if s.inPreflight = true then
    { s with
      trace := s.trace ++ [Event.preflighted filtName props]
      dataContainerArray := s.dataContainerArray.map (filter.run true props) }
  else
    { s with
      trace := s.trace ++ [Event.executed filtName props]
      dataContainerArray := s.dataContainerArray.map (filter.run false props) }

/-- Text of the report made by both steps when the factory is missing. -/
def missingFactoryText : String :=
  "Error trying to instantiate the 'ReadImage' filter which is typically included in the 'ImageProcessing' plugin."

/-- `ZeissImportFilter::importImage`. -/
def importImage (env : Env) (imageName pTag dcName : String) (s : ZeissImportFilter) :
    ZeissImportFilter :=
  let imagePath := completeBaseName imageName ++ "_" ++ pTag ++ "." ++ fileSuffix imageName
  let dataArrayName := completeBaseName imageName ++ "_" ++ pTag
  let imagePath := env.absoluteDirPath s.inputFile ++ "/" ++ imagePath
  let filtName := "ReadImage"
  match env.getFactoryForFilter filtName with
  | some filter =>
    let st := (s, [])
    let st := assignProperty filter filtName "InputFileName" "InputFileName" (-70005)
      (.string imagePath) st
    let st := assignProperty filter filtName "DataContainerName" "DataContainerName" (-70006)
      (.string dcName) st
    let st := assignProperty filter filtName "CellAttributeMatrixName"
      "CellAttributeMatrixName" (-70007) (.string st.1.imageAttributeMatrixName) st
    let st := assignProperty filter filtName "ImageDataArrayName" "ImageDataArrayName" (-70008)
      (.string dataArrayName) st
    runSubFilter filter filtName st.2 st.1
  | none => s.reportError (-70009) missingFactoryText

/-- `ZeissImportFilter::convertToGrayScale`. -/
def convertToGrayScale (env : Env) (imageName pTag _dcName : String) (s : ZeissImportFilter) :
    Except Fault ZeissImportFilter :=
  let dataArrayName := completeBaseName imageName ++ "_" ++ pTag
  let filtName := "RGBToGray"
  match env.getFactoryForFilter filtName with
  | some filter => do
    let dap := QVariant.dataArrayPath s.dataContainerName s.imageAttributeMatrixName
      dataArrayName
    let st := (s, [])
    let st := assignProperty filter filtName "SelectedCellArrayArrayPath" "InputFileName"
      (-70005) dap st
    let st := assignProperty filter filtName "ColorWeights" "DataContainerName" (-70006)
      (.floatVec3 st.1.colorWeights) st
    let st := assignProperty filter filtName "NewCellArrayName" "CellAttributeMatrixName"
      (-70007) (.string k_GrayScaleTempArrayName) st
    let s := runSubFilter filter filtName st.2 st.1
    let dca ← deref s.dataContainerArray
    let dc ← deref (getDataContainer dca s.dataContainerName)
    let am ← deref (dc.getAttributeMatrix s.imageAttributeMatrixName)
    let r := am.removeAttributeArray dataArrayName
    let g := r.2.removeAttributeArray k_GrayScaleTempArrayName
    let gray ← deref g.1
    let rgb ← deref r.1
    let gray := { gray with name := rgb.name }
    let am := g.2.addAttributeArray gray.name gray
    pure { s with
      dataContainerArray := some (setDataContainer dca s.dataContainerName
        (dc.setAttributeMatrix s.imageAttributeMatrixName am)) }
  | none => pure (s.reportError (-70009) missingFactoryText)

/-- The block `if(p == 0) \x7b ... \x7d` of `parseImages`: the tile matrix with the
dimensions of the first tile, and the meta-data matrix with one array per entry. -/
def createTileMatrices (env : Env) (imageCount : Int) (dc : Option DataContainer)
    (photoTagsSection : ZeissTagsXmlSection) (s : ZeissImportFilter) :
    Except Fault ZeissImportFilter := do
  let dims ← getImageDimensions env photoTagsSection
  let dc ← deref dc
  let dc := dc.createAndAddAttributeMatrix dims s.imageAttributeMatrixName
  let dims := [sizeT imageCount]
  let metaName := s.imageAttributeMatrixName ++ env.metaDataSuffix
  let dc := dc.createAndAddAttributeMatrix dims metaName
  let metaAm := addMetaDataArrays env imageCount (!s.inPreflight) photoTagsSection
    { name := metaName, tupleDims := dims, arrays := [] }
  let dc := dc.setAttributeMatrix metaName metaAm
  pure { s with
    dataContainerArray := s.dataContainerArray.map (fun dca => setDataContainer dca dc.name dc) }

/-- The two collaborator steps that end the loop body of `parseImages`: the image
reader and, when asked for, the gray-scale converter. -/
def importAndConvert (env : Env) (imageName : String) (dc : Option DataContainer)
    (pTag : String) (s : ZeissImportFilter) : Except Fault (Bool × ZeissImportFilter) := do
  let d ← deref dc
  let s := importImage env imageName pTag d.name s
  if s.convertToGrayScale then
    let d ← deref dc
    let s ← convertToGrayScale env imageName pTag d.name s
    pure (true, s)
  else pure (true, s)

/-- The part of the loop body of `parseImages` that follows the parse of the tile's
`<Tags>` section.  The flag of the result tells whether the loop goes on. -/
def processTile (env : Env) (imageCount : Int) (imageName : String)
    (dc : Option DataContainer) (p : Nat) (pTag : String)
    (photoTagsSection : ZeissTagsXmlSection) (s : ZeissImportFilter) :
    Except Fault (Bool × ZeissImportFilter) := do
  let ptr := ZeissTagsXmlSection.getEntry photoTagsSection env.imageTileIndexId
  let int32Entry := convertInt32 ptr
  qAssert env int32Entry.isSome
  let s ← if p = 0 then createTileMatrices env imageCount dc photoTagsSection s else pure s
  let s := addMetaData (s.imageAttributeMatrixName ++ env.metaDataSuffix) photoTagsSection p s
  importAndConvert env imageName dc pTag s

/-- Text of the status message sent for tile `p`. -/
def importingText (p : Nat) (imageCount : Int) : String :=
  ZeissImportFilter.humanLabel ++ ": Importing file " ++ intText p ++ " of " ++
    intText imageCount

/-- Text of the report made when the element of a tile is not found. -/
def missingTileText (pTag : String) : String :=
  "Could not find the <ROOT><" ++ pTag ++
    "> element. Aborting Parsing. Is the file a Zeiss _meta.xml file"

/-- Text of the report made when the element of a tile has no `<Tags>` child. -/
def missingTileTagsText (pTag : String) : String :=
  "Could not find the <ROOT><" ++ pTag ++
    "><Tags> element. Aborting Parsing. Is the file a Zeiss _meta.xml file"

/-- Text of the report made when the `<Tags>` child of a tile does not parse. -/
def tileTagsErrorText (pTag : String) : String :=
  "Error Parsing the <ROOT><" ++ pTag ++
    "><Tags> element. Aborting Parsing. Is the file a Zeiss _meta.xml file"

/-- Body of the loop `for(int p = 0; p < imageCount; p++)` of `parseImages`.  The flag of
the result is `false` when the body ended in `return`. -/
def parseImagesBody (env : Env) (root : QDomElement) (imageCount : Int) (imageName : String)
    (zeroPadding : Nat) (dc : Option DataContainer) (p : Nat) (s : ZeissImportFilter) :
    Except Fault (Bool × ZeissImportFilter) :=
  let pTag := tileTag zeroPadding p
  let msg := importingText p imageCount
  let s := s.notifyStatusMessage msg
  match firstChildElement root pTag with
  | none => .ok (false, s.reportError (-70002) (missingTileText pTag))
  | some photoEle =>
    match firstChildElement photoEle Xml.Tags with
    | none => .ok (false, s.reportError (-70003) (missingTileTagsText pTag))
    | some tags =>
      match parseTagsSection env tags s with
      | (none, s) => .ok (false, s.reportError (-70004) (tileTagsErrorText pTag))
      | (some photoTagsSection, s) =>
        processTile env imageCount imageName dc p pTag photoTagsSection s

/-- A counted loop whose body may end the enclosing function: from index `p`, with `n`
passes left.  The flag of the result is `false` when a pass returned. -/
def forLoop {σ : Type} (body : Nat → σ → Except Fault (Bool × σ)) :
    Nat → Nat → σ → Except Fault (Bool × σ)
  | _, 0, s => .ok (true, s)
  | p, n + 1, s =>
    match body p s with
    | .error f => .error f
    | .ok (false, s1) => .ok (false, s1)
    | .ok (true, s1) => forLoop body (p + 1) n s1

/-- `ZeissImportFilter::parseImages`. -/
def parseImages (env : Env) (root : QDomElement) (rootTagsSection : ZeissTagsXmlSection)
    (s : ZeissImportFilter) : Except Fault ZeissImportFilter := do
  let ptr := ZeissTagsXmlSection.getEntry rootTagsSection env.imageCountRawId
  let imageCountPtr := convertInt32 ptr
  qAssert env imageCountPtr.isSome
  let imageCount ← deref imageCountPtr
  let ptr := ZeissTagsXmlSection.getEntry rootTagsSection env.filenameId
  let imageNamePtr := castString ptr
  let imageName ← deref imageNamePtr
  let zeroPadding := zeroPadding imageCount
  let dca ← deref s.dataContainerArray
  let dc := getDataContainer dca s.dataContainerName
  let r ← forLoop (parseImagesBody env root imageCount imageName zeroPadding dc) 0
    imageCount.toNat s
  pure r.2

/-- `ZeissImportFilter::readMetaXml`, on the outcome of reading the device: the returned
`int` and the filter state afterwards. -/
def readMetaXml (env : Env) (device : XmlContent) (s : ZeissImportFilter) :
    Except Fault (Int × ZeissImportFilter) :=
  let err : Int := 0
  match device with
  | .parseError errorStr errorLine errorColumn =>
    .ok (-1, s.reportError (-70000) ("Parse error at line " ++ intText errorLine ++
      ", column " ++ intText errorColumn ++ ":\n" ++ errorStr))
  | .document root =>
    match firstChildElement root Xml.Tags with
    | none =>
      .ok (-1, s.reportError (-70001)
        "Could not find the <ROOT><Tags> element. Aborting Parsing. Is the file a Zeiss _meta.xml file")
    | some tags =>
      match parseTagsSection env tags s with
      | (none, s) => .ok (-1, s)
      | (some rootTagsSection, s) =>
        match parseImages env root rootTagsSection s with
        | .error f => .error f
        | .ok s => .ok (err, s)

/-! ## Notions used to state the properties -/

/-- Number of characters of the decimal numeral of `n` (one for `0`). -/
def decimalDigits (n : Nat) : Nat :=
  (Nat.toDigits 10 n).length

/-- The entry that index `c` of a `<Tags>` element contributes, following the spec's words:
the decoded value of `V{c}` under the id of `I{c}` when the value text is non-empty and
the registry has a decoder for the id, nothing otherwise. -/
def specEntryAt (env : Env) (tags : QDomElement) (c : Nat) : Option AbstractZeissMetaData :=
  if text (firstChildElement tags ("V" ++ intText c)) = "" then none
  else env.metaDataForId (toIntValue (text (firstChildElement tags ("I" ++ intText c))))
    (text (firstChildElement tags ("V" ++ intText c)))

/-- Adds to a section what index `c` contributes under `specEntryAt`. -/
def specStore (env : Env) (tags : QDomElement) (sec : ZeissTagsXmlSection) (c : Nat) :
    ZeissTagsXmlSection :=
  match specEntryAt env tags c with
  | some entry => ZeissTagsXmlSection.addMetaDataEntry sec entry
  | none => sec

/-- Whether `name` has the shape of a tile element name: `p` followed by decimal digits. -/
def isTileName (name : String) : Bool :=
  match name.data with
  | 'p' :: ds => !ds.isEmpty && ds.all isDigit
  | _ => false

/-- Number of per-tile sections present under the root. -/
def tileSectionCount (root : QDomElement) : Nat :=
  (root.children.filter (fun e => isTileName e.tagName)).length

/-- The element `root` with the elements `extra` added after its children. -/
def appendChildren (root : QDomElement) (extra : List QDomElement) : QDomElement :=
  .mk root.tagName root.ownText (root.children ++ extra)

/-- What a run of `readMetaXml` shows to its caller: the returned value and the error
condition, or the fault that cut it short. -/
def outcome (r : Except Fault (Int × ZeissImportFilter)) : Except Fault (Int × Int) :=
  r.map (fun x => (x.1, x.2.errorCondition))

/-- What the trace tells about the walk through the tiles: the status message that opens
a tile, and each run of a sub-filter. -/
inductive Step where
  | tile (msg : String)
  | run (filter : String)
  deriving DecidableEq, Repr

/-- The step an event stands for, if any. -/
def stepOf : Event → Option Step
  | .statusMessage _ msg => some (.tile msg)
  | .preflighted f _ => some (.run f)
  | .executed f _ => some (.run f)
  | _ => none

/-- The steps of a trace, in order. -/
def steps (tr : List Event) : List Step :=
  tr.filterMap stepOf

/-- The steps expected for tile `p`: its status message, one run of the image reader and,
when gray-scale conversion is asked for, one run of the converter right after it. -/
def tileSteps (gray : Bool) (imageCount : Int) (p : Nat) : List Step :=
  [Step.tile (importingText p imageCount), Step.run "ReadImage"] ++
    (if gray then [Step.run "RGBToGray"] else [])

/-- The tag section of tile `p`, when the tile element, its `<Tags>` child and the count
of that child are all in order. -/
def tileSection (env : Env) (root : QDomElement) (zeroPadding p : Nat) :
    Option ZeissTagsXmlSection :=
  match firstChildElement root (tileTag zeroPadding p) with
  | none => none
  | some photoEle =>
    match firstChildElement photoEle Xml.Tags with
    | none => none
    | some tags =>
      (toInt (text (firstChildElement tags Xml.Count))).map
        (fun count => parseTagsLoop env tags 0 count.toNat [])

/-- Whether the section holds an `int32` entry under `id`. -/
def hasInt32 (sec : ZeissTagsXmlSection) (id : Int) : Bool :=
  (convertInt32 (ZeissTagsXmlSection.getEntry sec id)).isSome

/-- A well-formed tile: its element has a parseable `<Tags>` block that holds the tile
index and, for the first tile, the pixel width and height. -/
def wellFormedTile (env : Env) (root : QDomElement) (zeroPadding p : Nat) : Bool :=
  match tileSection env root zeroPadding p with
  | none => false
  | some sec =>
    hasInt32 sec env.imageTileIndexId &&
      (p != 0 || (hasInt32 sec env.imageWidthPixelId && hasInt32 sec env.imageHeightPixelId))

/-- Whether matrix `amName` of container `dcName` exists and holds an array under each
of `keys`. -/
def hasArrays (dca : DataContainerArray) (dcName amName : String) (keys : List String) :
    Bool :=
  match getDataContainer dca dcName with
  | none => false
  | some dc =>
    match dc.getAttributeMatrix amName with
    | none => false
    | some am => keys.all (fun k => (findKey k am.arrays).isSome)

/-- What the gray-scale step relies on: both factories are registered, both sub-filters
accept the properties they are given, the reader leaves an array under the name it was
given in the tile matrix, and the converter leaves that array and the new array there. -/
def collaboratorsServeGrayScale (env : Env) (s : ZeissImportFilter) : Prop :=
  ∃ reader conv, env.getFactoryForFilter "ReadImage" = some reader ∧
    env.getFactoryForFilter "RGBToGray" = some conv ∧
    (∀ n v, reader.setProperty n v = true) ∧ (∀ n v, conv.setProperty n v = true) ∧
    (∀ pre path name d,
      hasArrays d s.dataContainerName s.imageAttributeMatrixName [] = true →
      hasArrays (reader.run pre
        [("InputFileName", .string path), ("DataContainerName", .string s.dataContainerName),
         ("CellAttributeMatrixName", .string s.imageAttributeMatrixName),
         ("ImageDataArrayName", .string name)] d)
        s.dataContainerName s.imageAttributeMatrixName [name] = true) ∧
    (∀ pre name d,
      hasArrays d s.dataContainerName s.imageAttributeMatrixName [name] = true →
      hasArrays (conv.run pre
        [("SelectedCellArrayArrayPath",
            .dataArrayPath s.dataContainerName s.imageAttributeMatrixName name),
         ("ColorWeights", .floatVec3 s.colorWeights),
         ("NewCellArrayName", .string k_GrayScaleTempArrayName)] d)
        s.dataContainerName s.imageAttributeMatrixName [name, k_GrayScaleTempArrayName]
          = true)

/-- The settings of the filter are the same in both states. -/
def sameSettings (a b : ZeissImportFilter) : Prop :=
  b.inputFile = a.inputFile ∧ b.dataContainerName = a.dataContainerName ∧
    b.imageAttributeMatrixName = a.imageAttributeMatrixName ∧
    b.convertToGrayScale = a.convertToGrayScale ∧ b.colorWeights = a.colorWeights ∧
    b.inPreflight = a.inPreflight

/-- The first part of `convertToGrayScale` for a factory that exists: the three property
assignments on the sub-filter and its run. -/
def requestGrayScale (filter : SubFilter) (dataArrayName : String) (s : ZeissImportFilter) :
    ZeissImportFilter :=
  let filtName := "RGBToGray"
  let dap := QVariant.dataArrayPath s.dataContainerName s.imageAttributeMatrixName
    dataArrayName
  let st := (s, [])
  let st := assignProperty filter filtName "SelectedCellArrayArrayPath" "InputFileName"
    (-70005) dap st
  let st := assignProperty filter filtName "ColorWeights" "DataContainerName" (-70006)
    (.floatVec3 st.1.colorWeights) st
  let st := assignProperty filter filtName "NewCellArrayName" "CellAttributeMatrixName"
    (-70007) (.string k_GrayScaleTempArrayName) st
  runSubFilter filter filtName st.2 st.1

/-- The last part of `convertToGrayScale`: the image array and the temporary array are
taken out of the tile matrix, and the temporary array is put back under the name of the
image array. -/
def replaceByGrayScale (dataArrayName : String) (s : ZeissImportFilter) :
    Except Fault ZeissImportFilter := do
  let dca ← deref s.dataContainerArray
  let dc ← deref (getDataContainer dca s.dataContainerName)
  let am ← deref (dc.getAttributeMatrix s.imageAttributeMatrixName)
  let r := am.removeAttributeArray dataArrayName
  let g := r.2.removeAttributeArray k_GrayScaleTempArrayName
  let gray ← deref g.1
  let rgb ← deref r.1
  let gray := { gray with name := rgb.name }
  let am := g.2.addAttributeArray gray.name gray
  pure { s with
    dataContainerArray := some (setDataContainer dca s.dataContainerName
      (dc.setAttributeMatrix s.imageAttributeMatrixName am)) }

/-- What the filter asks of a sub-filter: a property assignment or a run. -/
inductive Request where
  | assign (filter property : String)
  | run (filter : String)
  deriving DecidableEq, Repr

/-- The request an event stands for, if any. -/
def requestOf : Event → Option Request
  | .propertySet f p _ _ => some (.assign f p)
  | .preflighted f _ => some (.run f)
  | .executed f _ => some (.run f)
  | _ => none

/-- The requests of a trace, in order. -/
def requests (tr : List Event) : List Request :=
  tr.filterMap requestOf

/-! ## `dataCheck` -/

/-- Modelled from the spec: the class name `ClassName()` gives (it comes from a macro of
the filter's header, which is not part of the files at hand). -/
def className : String := "ZeissImportFilter"

/-- What the host's `createNonPrereqDataContainer` answers: the array with the new
container in it, or the error it recorded on the filter. -/
inductive ContainerOutcome where
  | created (dca : DataContainerArray)
  | refused (code : Int) (message : String)

/-- The host framework as far as `dataCheck` calls into it. -/
structure Host where
  createNonPrereqDataContainer : DataContainerArray → String → ContainerOutcome

/-- `ZeissImportFilter::dataCheck`. -/
def dataCheck (env : Env) (host : Host) (s : ZeissImportFilter) :
    Except Fault ZeissImportFilter :=
  let s := s.setErrorCondition 0
  let s :=
    if s.inputFile = "" then
      s.reportError (-387) (className ++ " needs the Input File Set and it was not.")
    else if env.fileExists s.inputFile = false then
      s.reportError (-388) "The input file does not exist."
    else s
  if s.errorCondition < 0 then .ok s
  else
    match s.dataContainerArray with
    | none => .ok (s.reportError (-390) (className ++ " needs a valid DataContainerArray"))
    | some dca =>
      let s :=
        match host.createNonPrereqDataContainer dca s.dataContainerName with
        | .created dca1 => { s with dataContainerArray := some dca1 }
        | .refused code message => s.reportError code message
      if s.errorCondition < 0 then .ok s
      else
        match readMetaXml env (env.readXml s.inputFile) s with
        | .error f => .error f
        | .ok (success, s) =>
          if success < 0 then .ok (s.reportError (-389) "Could not parse Zeiss XML file")
          else .ok s

/-! ## Calls, reports and the head of the document -/

/-- What is called on a sub-filter: `setProperty`, `preflight()` or `execute()`. -/
inductive Call where
  | setProperty (filter property : String) (value : QVariant)
  | preflight (filter : String)
  | execute (filter : String)
  deriving DecidableEq

/-- The call on a sub-filter an event stands for, if any. -/
def callOf : Event → Option Call
  | .propertySet f p v _ => some (.setProperty f p v)
  | .preflighted f _ => some (.preflight f)
  | .executed f _ => some (.execute f)
  | _ => none

/-- The calls on sub-filters of a trace, in order. -/
def calls (tr : List Event) : List Call :=
  tr.filterMap callOf

/-- The run of the sub-filter `filter` in the mode `inPreflight`. -/
def runCall (inPreflight : Bool) (filter : String) : Call :=
  if inPreflight = true then .preflight filter else .execute filter

/-- Whether the head of the XML content stops `readMetaXml` before the tiles: the content
does not parse, the root has no `<Tags>` child, or the `Count` of the root `<Tags>` is not
an integer. -/
def headerFails (device : XmlContent) : Bool :=
  match device with
  | .parseError _ _ _ => true
  | .document root =>
    match firstChildElement root Xml.Tags with
    | none => true
    | some tags => (toInt (text (firstChildElement tags Xml.Count))).isNone

/-- The error reports of a trace, in order: text and code. -/
def errorTexts (tr : List Event) : List (String × Int) :=
  tr.filterMap (fun e =>
    match e with
    | .errorMessage _ text code => some (text, code)
    | _ => none)

/-- The error report an assignment of `property` leaves: none when the sub-filter accepts
the value, otherwise the one report with the text for `reported` and `code`. -/
def rejectionReport (filter : SubFilter) (filtName property reported : String) (code : Int)
    (value : QVariant) : List (String × Int) :=
  if filter.setProperty property value = false then
    [(propertyErrorText reported filtName, code)]
  else []

/-- Whether `part` occurs in `text`. -/
def mentions (text part : String) : Bool :=
  text.data.tails.any (fun t => part.data.isPrefixOf t)

/-! ## The adapter `itk::InPlaceDream3DDataToImageFilter` -/

namespace itk

/-- The geometry of a data container, as far as the adapter looks at it. -/
structure IGeometry where
  geometryTypeAsString : String
  deriving DecidableEq

/-- The object a `DataContainer::Pointer` points to, as the adapter uses it: the geometry
(a null pointer until one is set) and the attribute matrices. -/
structure DataContainerObject where
  geometry : Option IGeometry
  container : DataContainer
  deriving DecidableEq

/-- A `DataArrayPath`: the names of a container, of a matrix and of an array. -/
structure DataArrayPath where
  dataContainerName : String
  attributeMatrixName : String
  dataArrayName : String
  deriving DecidableEq

/-- The members of the adapter this part of the source reads and writes.  The container
pointer is kept as the address it holds (`none` is the null pointer); `m_MTime` counts the
calls of `Modified()`. -/
structure InPlaceDream3DDataToImageFilter where
  m_DataContainer : Option Nat
  m_AttributeMatrixArrayName : String
  m_DataArrayName : String
  m_InPlace : Bool
  m_MTime : Nat
  deriving DecidableEq

/-- The constructor: a null container pointer, empty names, in-place operation. -/
def InPlaceDream3DDataToImageFilter.new : InPlaceDream3DDataToImageFilter where
  m_DataContainer := none
  m_AttributeMatrixArrayName := ""
  m_DataArrayName := ""
  m_InPlace := true
  m_MTime := 0

/-- `this->Modified()`. -/
def Modified (f : InPlaceDream3DDataToImageFilter) : InPlaceDream3DDataToImageFilter :=
  { f with m_MTime := f.m_MTime + 1 }

/-- `InPlaceDream3DDataToImageFilter::SetDataArrayPath`. -/
def SetDataArrayPath (f : InPlaceDream3DDataToImageFilter) (dataArrayPath : DataArrayPath) :
    InPlaceDream3DDataToImageFilter :=
  if f.m_AttributeMatrixArrayName ≠ dataArrayPath.attributeMatrixName
      ∨ f.m_DataArrayName ≠ dataArrayPath.dataArrayName then
    Modified { f with
      m_AttributeMatrixArrayName := dataArrayPath.attributeMatrixName
      m_DataArrayName := dataArrayPath.dataArrayName }
  else f

/-- `InPlaceDream3DDataToImageFilter::SetInput`; the pointers are compared, not the
objects they point to. -/
def SetInput (f : InPlaceDream3DDataToImageFilter) (dc : Option Nat) :
    InPlaceDream3DDataToImageFilter :=
  if ¬ (dc = f.m_DataContainer) then Modified { f with m_DataContainer := dc }
  else f

/-- The text a `QString` gets from `s.c_str()`: the characters before the first NUL. -/
def cStr (s : String) : String :=
  String.mk (s.data.takeWhile (fun c => c.toNat != 0))

/-- `DataContainer::doesAttributeMatrixExist(name)`. -/
def doesAttributeMatrixExist (dc : DataContainer) (name : String) : Bool :=
  (findKey name dc.matrices).isSome

/-- `AttributeMatrix::doesAttributeArrayExist(name)`. -/
def doesAttributeArrayExist (am : AttributeMatrix) (name : String) : Bool :=
  (findKey name am.arrays).isSome

/-- How `VerifyPreconditions` ends: with the exception of `itkExceptionMacro`, of which
the text handed to the macro is kept, in the dereference of a null pointer, or in the
call of `Superclass::VerifyPreconditions()`. -/
inductive Outcome where
  | exception (message : String)
  | nullPointerDereference
  | superclass
  deriving DecidableEq

/-- `InPlaceDream3DDataToImageFilter::VerifyPreconditions`; `heap` gives the object at an
address. -/
def VerifyPreconditions (heap : Nat → DataContainerObject)
    (f : InPlaceDream3DDataToImageFilter) : Outcome :=
  match f.m_DataContainer with
  | none => .exception "DataContainer not set!"
  | some address =>
    let geom := (heap address).geometry
    match geom with
    | none => .nullPointerDereference
    | some geom =>
      let geomTypeName := geom.geometryTypeAsString
      if geomTypeName ≠ "ImageGeometry" then
        .exception ("DataContainer geometry is not ImageGeometry. It is " ++ geomTypeName)
      else if ¬ (doesAttributeMatrixExist (heap address).container
          (cStr f.m_AttributeMatrixArrayName) = true) then
        .exception ("Matrix array (" ++ f.m_AttributeMatrixArrayName ++ ") does not exist")
      else
        match (heap address).container.getAttributeMatrix (cStr f.m_AttributeMatrixArrayName) with
        | none => .nullPointerDereference
        | some ma =>
          if ¬ (doesAttributeArrayExist ma (cStr f.m_DataArrayName) = true) then
            .exception ("Attribute array (" ++ f.m_DataArrayName ++ ") does not exist")
          else .superclass

/-- The type name of the geometry of the container the adapter holds, if it holds a
container that has a geometry. -/
def geometryTypeName (heap : Nat → DataContainerObject)
    (f : InPlaceDream3DDataToImageFilter) : Option String :=
  f.m_DataContainer.bind (fun a => (heap a).geometry.map (fun g => g.geometryTypeAsString))

/-- The attribute matrix of the adapter's container under the adapter's matrix name. -/
def namedMatrix (heap : Nat → DataContainerObject)
    (f : InPlaceDream3DDataToImageFilter) : Option AttributeMatrix :=
  f.m_DataContainer.bind (fun a =>
    (heap a).container.getAttributeMatrix (cStr f.m_AttributeMatrixArrayName))

/-- The data array of the named matrix under the adapter's array name. -/
def namedArray (heap : Nat → DataContainerObject)
    (f : InPlaceDream3DDataToImageFilter) : Option IDataArray :=
  (namedMatrix heap f).bind (fun ma => findKey (cStr f.m_DataArrayName) ma.arrays)

/-- The exception of the first check that fails, in the order container, geometry,
matrix, array; `none` when all four pass. -/
def firstFailure (heap : Nat → DataContainerObject)
    (f : InPlaceDream3DDataToImageFilter) : Option String :=
  if f.m_DataContainer = none then some "DataContainer not set!"
  else if geometryTypeName heap f ≠ some "ImageGeometry" then
    some ("DataContainer geometry is not ImageGeometry. It is " ++
      (geometryTypeName heap f).getD "")
  else if namedMatrix heap f = none then
    some ("Matrix array (" ++ f.m_AttributeMatrixArrayName ++ ") does not exist")
  else if namedArray heap f = none then
    some ("Attribute array (" ++ f.m_DataArrayName ++ ") does not exist")
  else none

end itk

/-! ## The tile grid of `ImportZenInfoMontage` -/

/-- The `BoundsType` record of `ImportZenInfoMontage.h`, one per tile. -/
structure BoundsType where
  Filename : String
  StartX : Int
  SizeX : Int
  StartY : Int
  SizeY : Int
  StartC : Int
  StartS : Int
  StartB : Int
  StartM : Int
  Row : Int
  Col : Int
  SpacingX : Rat
  SpacingY : Rat
  ImageDataProxy : Option IDataArray
  deriving DecidableEq

/-- Modelled from the spec: the distinct start values of an axis in ascending order. -/
def sortedDistinct (values : List Int) : List Int :=
  values.dedup.insertionSort (fun a b => a ≤ b)

/-- Modelled from the spec: the cluster a start value joins, if any: of the clusters whose
representative is within the tolerance of the value, the one whose representative is
numerically closest.  Clusters are given by their representatives, in the order of their
indices. -/
def closestCluster (tolerance : Int) (representatives : List Int) (v : Int) : Option Nat :=
  ((representatives.enum.filter (fun c => decide (|v - c.2| ≤ tolerance))).foldl
    (fun best c =>
      match best with
      | none => some c
      | some b => if |v - c.2| < |v - b.2| then some c else some b)
    (none : Option (Nat × Int))).map Prod.fst

/-- Modelled from the spec: one step of the greedy pass over the sorted values.  The value
joins the closest cluster within the tolerance, or founds the next cluster and is its
representative.  The state holds the representatives and the index given to each value. -/
def placeValue (tolerance : Int) (st : List Int × List (Int × Nat)) (v : Int) :
    List Int × List (Int × Nat) :=
  match closestCluster tolerance st.1 v with
  | some i => (st.1, st.2 ++ [(v, i)])
  | none => (st.1 ++ [v], st.2 ++ [(v, st.1.length)])

/-- Modelled from the spec: the clustering of the start values of one axis: the
representatives of the clusters, in ascending order of index, and the index of each
distinct value. -/
def clusterValues (tolerance : Int) (values : List Int) : List Int × List (Int × Nat) :=
  (sortedDistinct values).foldl (placeValue tolerance) ([], [])

/-- Modelled from the spec: the index of the cluster of the start value `v`. -/
def clusterIndex (tolerance : Int) (values : List Int) (v : Int) : Int :=
  match (clusterValues tolerance values).2.lookup v with
  | some i => (i : Int)
  | none => -1

/-- Modelled from the spec: the column index `findTileIndices` gives to a tile that starts
at `x`. -/
def columnIndex (tolerance : Int) (bounds : List BoundsType) (x : Int) : Int :=
  clusterIndex tolerance (bounds.map (fun b => b.StartX)) x

/-- Modelled from the spec: the row index `findTileIndices` gives to a tile that starts at
`y`. -/
def rowIndex (tolerance : Int) (bounds : List BoundsType) (y : Int) : Int :=
  clusterIndex tolerance (bounds.map (fun b => b.StartY)) y

/-- What `findTileIndices` leaves: the tiles with their indices, and the two counts. -/
structure TileIndices where
  bounds : List BoundsType
  rowCount : Int
  columnCount : Int
  deriving DecidableEq

/-- Modelled from the spec: `ImportZenInfoMontage::findTileIndices(tolerance, bounds)`, of
which the header declares the signature only.  The start values are clustered along each
axis on its own; each tile gets the index of the cluster of its X start as column and of
its Y start as row, and the counts are the numbers of clusters. -/
def findTileIndices (tolerance : Int) (bounds : List BoundsType) : TileIndices where
  bounds := bounds.map (fun b =>
    { b with
      Row := rowIndex tolerance bounds b.StartY
      Col := columnIndex tolerance bounds b.StartX })
  rowCount := (clusterValues tolerance (bounds.map (fun b => b.StartY))).1.length
  columnCount := (clusterValues tolerance (bounds.map (fun b => b.StartX))).1.length

/-- What the trace tells about the walk when the values are kept: a status message, or a
call on a sub-filter with the value it was given. -/
inductive Action where
  | status (msg : String)
  | call (c : Call)
  deriving DecidableEq

/-- The action an event stands for, if any. -/
def actionOf : Event → Option Action
  | .statusMessage _ msg => some (.status msg)
  | .propertySet f p v _ => some (.call (.setProperty f p v))
  | .preflighted f _ => some (.call (.preflight f))
  | .executed f _ => some (.call (.execute f))
  | _ => none

/-- The actions of a trace, in order. -/
def actions (tr : List Event) : List Action :=
  tr.filterMap actionOf

/-- The calls on the image reader that import the image of the tile with tag `pTag`: the
input path and the array name are those of that tile. -/
def readerActions (env : Env) (s : ZeissImportFilter) (imageName pTag : String) :
    List Action :=
  [.call (.setProperty "ReadImage" "InputFileName"
      (.string (env.absoluteDirPath s.inputFile ++ "/" ++
        (completeBaseName imageName ++ "_" ++ pTag ++ "." ++ fileSuffix imageName)))),
    .call (.setProperty "ReadImage" "DataContainerName" (.string s.dataContainerName)),
    .call (.setProperty "ReadImage" "CellAttributeMatrixName"
      (.string s.imageAttributeMatrixName)),
    .call (.setProperty "ReadImage" "ImageDataArrayName"
      (.string (completeBaseName imageName ++ "_" ++ pTag))),
    .call (runCall s.inPreflight "ReadImage")]

/-- The calls on the converter that turn the image array of the tile with tag `pTag` to
gray scale. -/
def converterActions (s : ZeissImportFilter) (imageName pTag : String) : List Action :=
  [.call (.setProperty "RGBToGray" "SelectedCellArrayArrayPath"
      (.dataArrayPath s.dataContainerName s.imageAttributeMatrixName
        (completeBaseName imageName ++ "_" ++ pTag))),
    .call (.setProperty "RGBToGray" "ColorWeights" (.floatVec3 s.colorWeights)),
    .call (.setProperty "RGBToGray" "NewCellArrayName" (.string k_GrayScaleTempArrayName)),
    .call (runCall s.inPreflight "RGBToGray")]

/-- The actions expected for tile `p` of `imageCount`: its status message, the calls on
the reader for the image of tile `p` and, when gray-scale conversion is asked for, the
calls on the converter for that image right after. -/
def tileActions (env : Env) (s : ZeissImportFilter) (imageCount : Int) (imageName : String)
    (p : Nat) : List Action :=
  Action.status (importingText p imageCount) ::
    (readerActions env s imageName (tileTag (zeroPadding imageCount) p) ++
      (if s.convertToGrayScale then
        converterActions s imageName (tileTag (zeroPadding imageCount) p)
      else []))

/-! ## A sample environment and sample documents

Concrete instances on which the properties below are exercised: a registry that knows
five ids, an image reader and a gray-scale converter that add the array they are asked
for, and small `_meta.xml` documents. -/

namespace Sample

/-- Registry with ids 1 (image count), 2 (file name), 3 (width), 4 (height) and
5 (tile index); every other id is unknown. -/
def metaDataForId (id : Int) (value : String) : Option AbstractZeissMetaData :=
  if id = 2 then some ⟨id, .string value⟩
  else if id = 1 ∨ id = 3 ∨ id = 4 ∨ id = 5 then (toInt value).map (fun v => ⟨id, .int32 v⟩)
  else none

/-- Text carried by a string variant, empty for the other variants. -/
def variantText : Option QVariant → String
  | some (.string t) => t
  | _ => ""

/-- Adds an array named `array` to matrix `am` of container `dc`, when both exist. -/
def addArray (dc am array typeName : String) (dca : DataContainerArray) : DataContainerArray :=
  match getDataContainer dca dc with
  | none => dca
  | some c =>
    match c.getAttributeMatrix am with
    | none => dca
    | some m =>
      setDataContainer dca dc (c.setAttributeMatrix am
        (m.addAttributeArray array ⟨array, 0, false, typeName⟩))

/-- An image reader: accepts every property and adds the array it was asked for. -/
def reader : SubFilter where
  setProperty := fun _ _ => true
  run := fun _ props dca =>
    addArray (variantText (findKey "DataContainerName" props))
      (variantText (findKey "CellAttributeMatrixName" props))
      (variantText (findKey "ImageDataArrayName" props)) "rgb" dca

/-- A gray-scale converter: accepts every property and adds the new array next to the
selected one. -/
def converter : SubFilter where
  setProperty := fun _ _ => true
  run := fun _ props dca =>
    match findKey "SelectedCellArrayArrayPath" props with
    | some (.dataArrayPath dc am _) =>
      addArray dc am (variantText (findKey "NewCellArrayName" props)) "gray" dca
    | _ => dca

/-- The sample environment; `asserts` tells whether `Q_ASSERT_X` is compiled in. -/
def env (asserts : Bool) : Env where
  metaDataForId := metaDataForId
  nameForId := fun id => "Tag" ++ intText id
  imageCountRawId := 1
  filenameId := 2
  imageWidthPixelId := 3
  imageHeightPixelId := 4
  imageTileIndexId := 5
  metaDataSuffix := "_MetaData"
  getFactoryForFilter := fun n =>
    if n = "ReadImage" then some reader else if n = "RGBToGray" then some converter else none
  absoluteDirPath := fun _ => "/data"
  fileExists := fun _ => true
  readXml := fun _ => .parseError "no such file" 0 0
  assertsEnabled := asserts

/-- A filter as `dataCheck` leaves it before the XML is read: error condition 0 and an
empty data container of the configured name. -/
def filter (gray : Bool) : ZeissImportFilter where
  inputFile := "/data/set_meta.xml"
  dataContainerName := "Zeiss Axio Vision Montage"
  imageAttributeMatrixName := "Tile AttributeMatrix"
  convertToGrayScale := gray
  colorWeights := ⟨0, 0, 0⟩
  inPreflight := true
  errorCondition := 0
  dataContainerArray := some [⟨"Zeiss Axio Vision Montage", []⟩]
  trace := []

/-- A `<Tags>` element listing the given `(id, value)` pairs. -/
def tagsElement (entries : List (String × String)) : QDomElement :=
  .mk "Tags" "" (.mk "Count" (intText entries.length) [] ::
    (entries.enum.map (fun e => [QDomElement.mk ("I" ++ intText e.1) e.2.1 [],
      QDomElement.mk ("V" ++ intText e.1) e.2.2 []])).flatten)

/-- A tile element `name` with the given tags. -/
def tileElement (name : String) (entries : List (String × String)) : QDomElement :=
  .mk name "" [tagsElement entries]

/-- A complete tile: width 4, height 3 and the tile index. -/
def fullTile (name index : String) : QDomElement :=
  tileElement name [("3", "4"), ("4", "3"), ("5", index)]

/-- A document announcing two tiles and carrying both. -/
def twoTiles : QDomElement :=
  .mk "ROOT" "" [tagsElement [("1", "2"), ("2", "set.jpg")], fullTile "p0" "0",
    fullTile "p1" "1"]

/-- A `<Tags>` element with a known id, a known id whose value is empty, and an unknown id. -/
def mixedTags : QDomElement :=
  tagsElement [("1", "2"), ("3", ""), ("999", "x")]

/-- A `<Tags>` element that carries only vendor tags: an unknown id and an id that is
not a number. -/
def vendorTags : QDomElement :=
  tagsElement [("999", "x"), ("junk", "y")]

/-- The global `<Tags>` element announcing `n` tiles of the set `set.jpg`. -/
def globalTags (n : String) : QDomElement :=
  tagsElement [("1", n), ("2", "set.jpg")]

/-- The section parsed from `globalTags "2"`. -/
def globalSection : ZeissTagsXmlSection :=
  [(1, ⟨1, .int32 2⟩), (2, ⟨2, .string "set.jpg"⟩)]

/-- A document announcing two tiles and carrying only the first. -/
def missingSecondTile : QDomElement :=
  .mk "ROOT" "" [globalTags "2", fullTile "p0" "0"]

/-- A document announcing two tiles whose second tile element has no `<Tags>` child. -/
def secondTileWithoutTags : QDomElement :=
  .mk "ROOT" "" [globalTags "2", fullTile "p0" "0", .mk "p1" "" []]

/-- The filter state once the loop of `parseImages` has gone through the first tile of
`root`, for a count of two. -/
def afterFirstTile (root : QDomElement) : ZeissImportFilter :=
  match forLoop (parseImagesBody (env false) root 2 "set.jpg" (zeroPadding 2)
      (some ⟨"Zeiss Axio Vision Montage", []⟩)) 0 1 (filter false) with
  | .ok r => r.2
  | .error _ => filter false

/-- A document whose global `<Tags>` element is empty: neither image count nor file name. -/
def noGlobalEntries : QDomElement :=
  .mk "ROOT" "" [tagsElement []]

/-- A document whose global `<Tags>` element has the image count but no file name. -/
def noFileName : QDomElement :=
  .mk "ROOT" "" [tagsElement [("1", "0")]]

/-- A document announcing one tile and carrying two. -/
def extraTile : QDomElement :=
  .mk "ROOT" "" [globalTags "1", fullTile "p0" "0", fullTile "p1" "1"]

/-- A document announcing two tiles whose second tile has neither width nor height. -/
def secondTileWithoutDims : QDomElement :=
  .mk "ROOT" "" [globalTags "2", fullTile "p0" "0", tileElement "p1" [("5", "1")]]

/-- The sample environment with the given factories for `ReadImage` and `RGBToGray`. -/
def envWith (readImage rgbToGray : Option SubFilter) : Env :=
  { env false with
    getFactoryForFilter := fun n =>
      if n = "ReadImage" then readImage else if n = "RGBToGray" then rgbToGray else none }

/-- A document announcing two tiles whose second tile has a `<Tags>` child without a
readable `Count`. -/
def secondTileBadCount : QDomElement :=
  .mk "ROOT" "" [globalTags "2", fullTile "p0" "0",
    .mk "p1" "" [.mk "Tags" "" [.mk "Count" "many" []]]]

/-- The section parsed from the `<Tags>` of `fullTile "p0" "0"`. -/
def firstTileSection : ZeissTagsXmlSection :=
  [(3, ⟨3, .int32 4⟩), (4, ⟨4, .int32 3⟩), (5, ⟨5, .int32 0⟩)]

/-- The arrays of matrix `am` of the sample data container after a run, if it got there. -/
def arraysOf (am : String) (r : Except Fault (Int × ZeissImportFilter)) :
    Option (List (String × IDataArray)) :=
  match r with
  | .ok (_, s) =>
    match s.dataContainerArray with
    | some d =>
      match getDataContainer d "Zeiss Axio Vision Montage" with
      | some c => (c.getAttributeMatrix am).map (fun m => m.arrays)
      | none => none
    | none => none
  | .error _ => none

/-- An image reader that rejects the properties `InputFileName` and
`CellAttributeMatrixName` and leaves the data alone. -/
def pickyReader : SubFilter where
  setProperty := fun n _ => !(n = "InputFileName" || n = "CellAttributeMatrixName")
  run := fun _ _ dca => dca

/-- An image reader that rejects the property `InputFileName` alone and leaves the data
alone. -/
def inputRejectingReader : SubFilter where
  setProperty := fun n _ => !(n = "InputFileName")
  run := fun _ _ dca => dca

/-- A gray-scale converter that rejects the property `ColorWeights` and leaves the data
alone. -/
def pickyConverter : SubFilter where
  setProperty := fun n _ => !(n = "ColorWeights")
  run := fun _ _ dca => dca

/-- The filter after the image reader put the array `set_p0` into the tile matrix, next
to an array `mask` that belongs to neither step. -/
def filterWithImage : ZeissImportFilter :=
  { filter true with
    dataContainerArray := some [⟨"Zeiss Axio Vision Montage",
      [("Tile AttributeMatrix", ⟨"Tile AttributeMatrix", [4, 3, 1],
        [("mask", ⟨"mask", 12, false, "bool"⟩), ("set_p0", ⟨"set_p0", 12, false, "rgb"⟩)]⟩)]⟩] }

/-- The sample environment in which no file exists. -/
def envNoFile : Env :=
  { env false with fileExists := fun _ => false }

/-- A host that adds an empty container under the name it is given. -/
def host : Host where
  createNonPrereqDataContainer := fun dca name => .created (dca ++ [⟨name, []⟩])

/-- A document whose root has no `<Tags>` child, only a tile. -/
def noRootTags : QDomElement :=
  .mk "ROOT" "" [fullTile "p0" "0"]

/-- The sample environment in which the input file holds the document `root`. -/
def envReading (root : QDomElement) : Env :=
  { env false with readXml := fun _ => .document root }

/-- The container array of the sample filter once the sample host added its container. -/
def twoContainers : DataContainerArray :=
  [⟨"Zeiss Axio Vision Montage", []⟩, ⟨"Zeiss Axio Vision Montage", []⟩]

/-- A document whose root `<Tags>` has a `Count` that is not a number. -/
def badRootCount : QDomElement :=
  .mk "ROOT" "" [.mk "Tags" "" [.mk "Count" "many" []], fullTile "p0" "0"]

/-- A gray-scale converter that works as `converter` does and rejects every property. -/
def deafConverter : SubFilter where
  setProperty := fun _ _ => false
  run := fun _ _ dca =>
    addArray "Zeiss Axio Vision Montage" "Tile AttributeMatrix" "gray_scale_temp" "gray" dca

/-- A heap with an image container at address 1, a container with another geometry at
address 2 and containers without geometry elsewhere. -/
def heap (a : Nat) : itk.DataContainerObject :=
  if a = 1 then
    ⟨some ⟨"ImageGeometry"⟩, ⟨"Image", [("Cells", ⟨"Cells", [4, 3, 1],
      [("gray", ⟨"gray", 12, true, "uint8"⟩)]⟩)]⟩⟩
  else if a = 2 then ⟨some ⟨"RectGridGeometry"⟩, ⟨"Grid", []⟩⟩
  else ⟨none, ⟨"Bare", []⟩⟩

/-- The adapter holding the container at `address` with the given names. -/
def adapter (address : Option Nat) (matrix array : String) :
    itk.InPlaceDream3DDataToImageFilter :=
  { itk.InPlaceDream3DDataToImageFilter.new with
    m_DataContainer := address
    m_AttributeMatrixArrayName := matrix
    m_DataArrayName := array }

/-- A tile that starts at `(x, y)`, with no indices yet. -/
def tileAt (x y : Int) : BoundsType where
  Filename := "tile.jpg"
  StartX := x
  SizeX := 1000
  StartY := y
  SizeY := 1000
  StartC := 0
  StartS := 0
  StartB := 0
  StartM := 0
  Row := -1
  Col := -1
  SpacingX := 1
  SpacingY := 1
  ImageDataProxy := none

/-- The mosaic of two by two tiles with starts 0 and 1000 on both axes. -/
def mosaic : List BoundsType :=
  [tileAt 0 0, tileAt 0 1000, tileAt 1000 0, tileAt 1000 1000]

end Sample

/-! ## Decimal numerals -/

theorem toDigitsCore_length_eq (fuel : Nat) : ∀ (n : Nat) (acc : List Char), n < fuel →
    (Nat.toDigitsCore 10 fuel n acc).length = Nat.log 10 n + 1 + acc.length := by
  induction fuel with
  | zero => intro n acc h; omega
  | succ f ih =>
    intro n acc h
    simp only [Nat.toDigitsCore]
    by_cases h0 : n / 10 = 0
    · have hn : n < 10 := by omega
      simp [h0, Nat.log_of_lt hn]; omega
    · have hn : 10 ≤ n := by omega
      have hlt : n / 10 < f := by omega
      simp only [h0, if_false]
      rw [ih (n / 10) _ hlt, List.length_cons, Nat.log_of_one_lt_of_le (by norm_num) hn]
      omega

theorem decimalDigits_eq_log (n : Nat) : decimalDigits n = Nat.log 10 n + 1 := by
  unfold decimalDigits Nat.toDigits
  rw [toDigitsCore_length_eq (n + 1) n [] (by omega)]
  simp

theorem decimalDigits_le_iff (n k : Nat) (hk : 0 < k) : decimalDigits n ≤ k ↔ n < 10 ^ k := by
  rw [decimalDigits_eq_log]
  constructor
  · intro h
    exact Nat.lt_pow_of_log_lt (by norm_num) (by omega)
  · intro h
    rcases Nat.eq_zero_or_pos n with h0 | hpos
    · subst h0; simp; omega
    · have := Nat.log_lt_of_lt_pow (b := 10) (by omega) h
      omega

theorem decimalDigits_pos (n : Nat) : 0 < decimalDigits n := by
  rw [decimalDigits_eq_log]; omega

/-! ## The padding width -/

theorem zeroPadding_of_flags (N : Int) (a b c d e : Bool) (ha : N > 0 ↔ a = true)
    (hb : N > 9 ↔ b = true) (hc : N > 99 ↔ c = true) (hd : N > 999 ↔ d = true)
    (he : N > 9999 ↔ e = true) :
    zeroPadding N = a.toNat + b.toNat + c.toNat + d.toNat + e.toNat := by
  simp only [zeroPadding, ha, hb, hc, hd, he]
  cases a <;> cases b <;> cases c <;> cases d <;> cases e <;> simp

theorem zeroPadding_cases (N : Int) :
    zeroPadding N = if N ≤ 0 then 0 else if N ≤ 9 then 1 else if N ≤ 99 then 2
      else if N ≤ 999 then 3 else if N ≤ 9999 then 4 else 5 := by
  by_cases h1 : N ≤ 0
  · rw [zeroPadding_of_flags N false false false false false (by simp; omega) (by simp; omega)
      (by simp; omega) (by simp; omega) (by simp; omega)]
    simp [h1]
  by_cases h2 : N ≤ 9
  · rw [zeroPadding_of_flags N true false false false false (by simp; omega) (by simp; omega)
      (by simp; omega) (by simp; omega) (by simp; omega)]
    simp [h1, h2]
  by_cases h3 : N ≤ 99
  · rw [zeroPadding_of_flags N true true false false false (by simp; omega) (by simp; omega)
      (by simp; omega) (by simp; omega) (by simp; omega)]
    simp [h1, h2, h3]
  by_cases h4 : N ≤ 999
  · rw [zeroPadding_of_flags N true true true false false (by simp; omega) (by simp; omega)
      (by simp; omega) (by simp; omega) (by simp; omega)]
    simp [h1, h2, h3, h4]
  by_cases h5 : N ≤ 9999
  · rw [zeroPadding_of_flags N true true true true false (by simp; omega) (by simp; omega)
      (by simp; omega) (by simp; omega) (by simp; omega)]
    simp [h1, h2, h3, h4, h5]
  · rw [zeroPadding_of_flags N true true true true true (by simp; omega) (by simp; omega)
      (by simp; omega) (by simp; omega) (by simp; omega)]
    simp [h1, h2, h3, h4, h5]

theorem decimalDigits_ranges (n : Nat) :
    decimalDigits n = if n < 10 then 1 else if n < 100 then 2 else if n < 1000 then 3
      else if n < 10000 then 4 else if n < 100000 then 5 else decimalDigits n := by
  have h1 := decimalDigits_le_iff n 1 (by norm_num)
  have h2 := decimalDigits_le_iff n 2 (by norm_num)
  have h3 := decimalDigits_le_iff n 3 (by norm_num)
  have h4 := decimalDigits_le_iff n 4 (by norm_num)
  have h5 := decimalDigits_le_iff n 5 (by norm_num)
  have hp := decimalDigits_pos n
  norm_num at h1 h2 h3 h4 h5
  split_ifs <;> omega

/-- C1 (as stated, refuted): at `N = 10` the width used by `parseImages` is 2, while
`N - 1 = 9` needs a single decimal digit. -/
theorem zeroPadding_ten_exceeds_digits_of_nine :
    (1 : Int) ≤ 10 ∧ zeroPadding 10 = 2 ∧ decimalDigits ((10 : Int) - 1).toNat = 1 ∧
      zeroPadding 10 ≠ decimalDigits ((10 : Int) - 1).toNat := by
  decide

/-- C1 (amended): for every image count `N` with `1 ≤ N ≤ 100000` the padding width of
`parseImages` is the number of decimal digits of `N - 1`, plus one exactly when `N` is
10, 100, 1000 or 10000; `N = 5` gives width 1 and tags `p0` .. `p4`, `N = 150` gives
width 3 and tags `p000` .. `p149`. -/
theorem zeroPadding_digits_of_pred (N : Int) (h1 : 1 ≤ N) (h2 : N ≤ 100000) :
    zeroPadding N = decimalDigits (N - 1).toNat +
        (if N = 10 ∨ N = 100 ∨ N = 1000 ∨ N = 10000 then 1 else 0) ∧
      zeroPadding 5 = 1 ∧ tileTag (zeroPadding 5) 0 = "p0" ∧ tileTag (zeroPadding 5) 4 = "p4" ∧
      zeroPadding 150 = 3 ∧ tileTag (zeroPadding 150) 0 = "p000" ∧
      tileTag (zeroPadding 150) 149 = "p149" := by
  refine ⟨?_, by decide, by decide, by decide, by decide, by decide, by decide⟩
  obtain ⟨n, rfl⟩ : ∃ n : Nat, N = (n : Int) + 1 := ⟨(N - 1).toNat, by omega⟩
  have e : ((n : Int) + 1 - 1).toNat = n := by omega
  rw [e, zeroPadding_cases, decimalDigits_ranges n]
  split_ifs <;> omega

/-- Witness for C1 (amended): the count 150. -/
theorem zeroPadding_digits_of_pred_witness :
    zeroPadding 150 = decimalDigits ((150 : Int) - 1).toNat +
      (if (150 : Int) = 10 ∨ (150 : Int) = 100 ∨ (150 : Int) = 1000 ∨ (150 : Int) = 10000
        then 1 else 0) :=
  (zeroPadding_digits_of_pred 150 (by decide) (by decide)).1

/-- C2: the padding width is 0 for a count `N ≤ 0`, otherwise the number of decimal digits
of `N` capped at 5: 1 for 1..9, 2 for 10..99, 3 for 100..999, 4 for 1000..9999 and 5 from
10000 on. -/
theorem zeroPadding_capped_digit_count (N : Int) :
    zeroPadding N = (if N ≤ 0 then 0 else min 5 (decimalDigits N.toNat)) ∧
      zeroPadding N = (if N ≤ 0 then 0 else if N ≤ 9 then 1 else if N ≤ 99 then 2
        else if N ≤ 999 then 3 else if N ≤ 9999 then 4 else 5) := by
  refine ⟨?_, zeroPadding_cases N⟩
  rw [zeroPadding_cases]
  by_cases h0 : N ≤ 0
  · simp [h0]
  · simp only [h0, if_false]
    obtain ⟨n, rfl⟩ : ∃ n : Nat, N = n := ⟨N.toNat, by omega⟩
    simp only [Int.toNat_ofNat]
    have h1 := decimalDigits_le_iff n 1 (by norm_num)
    have h2 := decimalDigits_le_iff n 2 (by norm_num)
    have h3 := decimalDigits_le_iff n 3 (by norm_num)
    have h4 := decimalDigits_le_iff n 4 (by norm_num)
    have hp := decimalDigits_pos n
    norm_num at h1 h2 h3 h4
    split_ifs <;> omega

/-! ## The tag-section parser -/

theorem getEntry_insertKey (k : Int) (v : AbstractZeissMetaData) (sec : ZeissTagsXmlSection)
    (k' : Int) :
    ZeissTagsXmlSection.getEntry (ZeissTagsXmlSection.insertKey k v sec) k' =
      if k = k' then some v else ZeissTagsXmlSection.getEntry sec k' := by
  induction sec with
  | nil => simp [ZeissTagsXmlSection.insertKey, ZeissTagsXmlSection.getEntry]
  | cons hd rest ih =>
    obtain ⟨k1, v1⟩ := hd
    simp only [ZeissTagsXmlSection.insertKey]
    by_cases h1 : k = k1
    · subst h1
      simp only [if_true, ZeissTagsXmlSection.getEntry]
      split_ifs <;> rfl
    · by_cases h2 : k < k1
      · simp [h1, h2, ZeissTagsXmlSection.getEntry]
      · simp only [h1, h2, if_false, ZeissTagsXmlSection.getEntry, ih]
        by_cases h3 : k1 = k'
        · subst h3; simp [h1]
        · simp [h3]

theorem length_pos_iff_ne_empty (t : String) : t.length > 0 ↔ t ≠ "" := by
  rw [gt_iff_lt, String.length, List.length_pos]
  constructor
  · intro h e; apply h; rw [e]
  · intro h e; apply h; exact String.ext e

theorem parseTagsStep_eq_specStore (env : Env) (tags : QDomElement) (c : Nat)
    (sec : ZeissTagsXmlSection) : parseTagsStep env tags c sec = specStore env tags sec c := by
  unfold parseTagsStep specStore specEntryAt
  by_cases hv : text (firstChildElement tags ("V" ++ intText c)) = ""
  · simp only [hv, if_true]
    cases env.metaDataForId (toIntValue (text (firstChildElement tags ("I" ++ intText ↑c)))) "" <;> simp
  · have hl := (length_pos_iff_ne_empty _).mpr hv
    simp only [hv, if_false]
    cases env.metaDataForId (toIntValue (text (firstChildElement tags ("I" ++ intText ↑c))))
      (text (firstChildElement tags ("V" ++ intText ↑c))) <;> simp [hl]

theorem parseTagsLoop_eq_foldl (env : Env) (tags : QDomElement) (n : Nat) :
    ∀ (c : Nat) (sec : ZeissTagsXmlSection),
      parseTagsLoop env tags c n sec = (List.range' c n).foldl (specStore env tags) sec := by
  induction n with
  | zero => intro c sec; simp [parseTagsLoop]
  | succ n ih =>
    intro c sec
    simp [parseTagsLoop, List.range'_succ, ih, parseTagsStep_eq_specStore]

theorem getEntry_foldl_specStore (env : Env) (tags : QDomElement) (k : Int) (cs : List Nat) :
    ∀ sec : ZeissTagsXmlSection,
      (ZeissTagsXmlSection.getEntry (cs.foldl (specStore env tags) sec) k).isSome ↔
        (ZeissTagsXmlSection.getEntry sec k).isSome ∨
          ∃ c ∈ cs, ∃ entry, specEntryAt env tags c = some entry ∧ entry.zeissIdTag = k := by
  induction cs with
  | nil => intro sec; simp
  | cons c cs ih =>
    intro sec
    rw [List.foldl_cons, ih]
    unfold specStore
    cases h : specEntryAt env tags c with
    | none => simp [h]
    | some entry =>
      simp only [ZeissTagsXmlSection.addMetaDataEntry, getEntry_insertKey, List.mem_cons,
        exists_eq_or_imp, h, Option.some.injEq, exists_eq_left']
      by_cases hk : entry.zeissIdTag = k
      · simp [hk]
      · simp [hk]

/-- C4: with a valid `Count`, `parseTagsSection` examines exactly the indices
`0 .. Count-1` in order, and at index `c` it stores an entry if and only if the text of
`V{c}` is non-empty and the registry yields an entry for the id read from `I{c}`; so an
id has an entry in the returned section exactly when some such index contributes it. -/
theorem parseTagsSection_stores_iff (env : Env) (tags : QDomElement) (s : ZeissImportFilter)
    (count : Int) (h : toInt (text (firstChildElement tags Xml.Count)) = some count) :
    (parseTagsSection env tags s).1 =
        some ((List.range count.toNat).foldl (specStore env tags) []) ∧
      (∀ (c : Nat) (sec : ZeissTagsXmlSection),
        parseTagsStep env tags c sec =
          if text (firstChildElement tags ("V" ++ intText c)) = "" then sec
          else match env.metaDataForId
              (toIntValue (text (firstChildElement tags ("I" ++ intText c))))
              (text (firstChildElement tags ("V" ++ intText c))) with
            | some entry => ZeissTagsXmlSection.addMetaDataEntry sec entry
            | none => sec) ∧
      ∀ (k : Int) (sec : ZeissTagsXmlSection), (parseTagsSection env tags s).1 = some sec →
        ((ZeissTagsXmlSection.getEntry sec k).isSome ↔
          ∃ c, c < count.toNat ∧ text (firstChildElement tags ("V" ++ intText c)) ≠ "" ∧
            ∃ entry, env.metaDataForId
              (toIntValue (text (firstChildElement tags ("I" ++ intText c))))
              (text (firstChildElement tags ("V" ++ intText c))) = some entry ∧
              entry.zeissIdTag = k) := by
  have hsec : (parseTagsSection env tags s).1 =
      some ((List.range count.toNat).foldl (specStore env tags) []) := by
    simp only [parseTagsSection, h, parseTagsLoop_eq_foldl, List.range_eq_range']
  refine ⟨hsec, ?_, ?_⟩
  · intro c sec
    rw [parseTagsStep_eq_specStore]
    unfold specStore specEntryAt
    split_ifs <;> rfl
  · intro k sec hs
    rw [hsec] at hs
    injection hs with hs
    subst hs
    rw [getEntry_foldl_specStore]
    simp only [ZeissTagsXmlSection.getEntry, Option.isSome_none, Bool.false_eq_true, false_or,
      List.mem_range]
    constructor
    · rintro ⟨c, hc, entry, he, hk⟩
      unfold specEntryAt at he
      split_ifs at he with hv
      exact ⟨c, hc, hv, entry, he, hk⟩
    · rintro ⟨c, hc, hv, entry, he, hk⟩
      refine ⟨c, hc, entry, ?_, hk⟩
      unfold specEntryAt
      rw [if_neg hv, he]

/-- Witness for C4: of three indices, one with a known id and a value, one with a known
id and an empty value, one with an unknown id, only the first is stored. -/
theorem parseTagsSection_stores_iff_witness :
    toInt (text (firstChildElement Sample.mixedTags Xml.Count)) = some 3 ∧
      (parseTagsSection (Sample.env false) Sample.mixedTags (Sample.filter false)).1 =
        some ((List.range (3 : Int).toNat).foldl
          (specStore (Sample.env false) Sample.mixedTags) []) ∧
      (List.range (3 : Int).toNat).foldl (specStore (Sample.env false) Sample.mixedTags) [] =
        [(1, ⟨1, .int32 2⟩)] :=
  ⟨by decide,
    (parseTagsSection_stores_iff (Sample.env false) Sample.mixedTags (Sample.filter false) 3
      (by decide)).1,
    by decide⟩

/-- C5: `parseTagsSection` returns the null section exactly when the text of the `Count`
child does not convert to an `int` (a missing child has empty text, which does not
convert); it then records error code -70001 with its message, and in every other case,
whatever the count, it returns a section and leaves the filter as it was. -/
theorem parseTagsSection_null_iff (env : Env) (tags : QDomElement) (s : ZeissImportFilter) :
    ((parseTagsSection env tags s).1 = none ↔
        toInt (text (firstChildElement tags Xml.Count)) = none) ∧
      toInt (text (none : Option QDomElement)) = none ∧
      (((parseTagsSection env tags s).1 = none ∧
          (parseTagsSection env tags s).2.errorCondition = -70001 ∧
          (parseTagsSection env tags s).2.errorCondition < 0 ∧
          (parseTagsSection env tags s).2.trace = s.trace ++
            [Event.errorMessage ZeissImportFilter.humanLabel
              "Error Parsing 'Count' Tag in Root 'Tags' DOM element" (-70001)]) ∨
        (∃ count, toInt (text (firstChildElement tags Xml.Count)) = some count ∧
          (parseTagsSection env tags s).1 = some (parseTagsLoop env tags 0 count.toNat []) ∧
          (parseTagsSection env tags s).2 = s)) := by
  cases h : toInt (text (firstChildElement tags Xml.Count)) with
  | none =>
    refine ⟨by simp [parseTagsSection, h], by decide, Or.inl ?_⟩
    simp [parseTagsSection, h, ZeissImportFilter.reportError,
      ZeissImportFilter.setErrorCondition, ZeissImportFilter.notifyErrorMessage]
  | some count =>
    refine ⟨by simp [parseTagsSection, h], by decide, Or.inr ⟨count, rfl, ?_, ?_⟩⟩ <;>
      simp [parseTagsSection, h]

/-- C6: when the `Count` of a `<Tags>` element is a valid integer, `parseTagsSection`
returns a section and leaves the filter state, its error condition included, unchanged,
whatever the `I{c}`/`V{c}` children carry. -/
theorem parseTagsSection_unknown_ids_harmless (env : Env) (tags : QDomElement)
    (s : ZeissImportFilter) (count : Int)
    (h : toInt (text (firstChildElement tags Xml.Count)) = some count) :
    (parseTagsSection env tags s).1.isSome = true ∧
      (parseTagsSection env tags s).2.errorCondition = s.errorCondition ∧
      (parseTagsSection env tags s).2 = s := by
  simp [parseTagsSection, h]

/-- Witness for C6: a section made of an unknown id and a non-numeric id. -/
theorem parseTagsSection_unknown_ids_harmless_witness :
    toInt (text (firstChildElement Sample.vendorTags Xml.Count)) = some 2 ∧
      (parseTagsSection (Sample.env false) Sample.vendorTags (Sample.filter false)).1.isSome
        = true ∧
      (parseTagsSection (Sample.env false) Sample.vendorTags
        (Sample.filter false)).2.errorCondition = (Sample.filter false).errorCondition ∧
      (parseTagsSection (Sample.env false) Sample.vendorTags (Sample.filter false)).2 =
        Sample.filter false :=
  ⟨by decide, parseTagsSection_unknown_ids_harmless (Sample.env false) Sample.vendorTags
    (Sample.filter false) 2 (by decide)⟩

/-! ## The tile loop -/

theorem forLoop_add {σ : Type} (body : Nat → σ → Except Fault (Bool × σ)) (m n : Nat) :
    ∀ (p : Nat) (s : σ), forLoop body p (m + n) s =
      match forLoop body p m s with
      | .ok (true, s1) => forLoop body (p + m) n s1
      | r => r := by
  induction m with
  | zero => intro p s; simp [forLoop]
  | succ m ih =>
    intro p s
    rw [Nat.succ_add]
    simp only [forLoop]
    cases hb : body p s with
    | error f => simp
    | ok r =>
      obtain ⟨b, s1⟩ := r
      cases b with
      | false => simp
      | true =>
        simp only []
        rw [ih (p + 1) s1]
        have : p + 1 + m = p + (m + 1) := by omega
        rw [this]

theorem parseImages_of_entries (env : Env) (root : QDomElement) (sec : ZeissTagsXmlSection)
    (s : ZeissImportFilter) (imageCount : Int) (imageName : String) (dca : DataContainerArray)
    (hc : convertInt32 (ZeissTagsXmlSection.getEntry sec env.imageCountRawId) = some imageCount)
    (hn : castString (ZeissTagsXmlSection.getEntry sec env.filenameId) = some imageName)
    (hd : s.dataContainerArray = some dca) :
    parseImages env root sec s =
      (forLoop (parseImagesBody env root imageCount imageName (zeroPadding imageCount)
        (getDataContainer dca s.dataContainerName)) 0 imageCount.toNat s).map Prod.snd := by
  simp only [parseImages, hc, hn, hd, qAssert, deref, Option.isSome_some, Bool.not_true,
    Bool.and_false, Bool.false_eq_true, if_false, bind, Except.bind, pure, Except.pure]
  cases forLoop (parseImagesBody env root imageCount imageName (zeroPadding imageCount)
        (getDataContainer dca s.dataContainerName)) 0 imageCount.toNat s <;> rfl

theorem processTile_flag (env : Env) (imageCount : Int) (imageName : String)
    (dc : Option DataContainer) (p : Nat) (pTag : String) (sec : ZeissTagsXmlSection)
    (s s' : ZeissImportFilter) (b : Bool)
    (h : processTile env imageCount imageName dc p pTag sec s = .ok (b, s')) : b = true := by
  simp only [processTile, importAndConvert, bind, Except.bind, pure, Except.pure] at h
  repeat' split at h
  all_goals (cases h; try rfl)

theorem errorCondition_reportError (s : ZeissImportFilter) (code : Int) (ss : String) :
    (s.reportError code ss).errorCondition = code := rfl

theorem parseImagesBody_false (env : Env) (root : QDomElement) (imageCount : Int)
    (imageName : String) (zp : Nat) (dc : Option DataContainer) (p : Nat)
    (s s' : ZeissImportFilter)
    (h : parseImagesBody env root imageCount imageName zp dc p s = .ok (false, s')) :
    s'.errorCondition = -70002 ∨ s'.errorCondition = -70003 ∨ s'.errorCondition = -70004 := by
  simp only [parseImagesBody] at h
  split at h
  · injection h with h; injection h with _ h; subst h; left; rfl
  · split at h
    · injection h with h; injection h with _ h; subst h; right; left; rfl
    · split at h
      · injection h with h; injection h with _ h; subst h; right; right; rfl
      · have := processTile_flag _ _ _ _ _ _ _ _ _ _ h
        cases this

theorem parseImagesBody_true (env : Env) (root : QDomElement) (imageCount : Int)
    (imageName : String) (zp : Nat) (dc : Option DataContainer) (p : Nat)
    (s s' : ZeissImportFilter)
    (h : parseImagesBody env root imageCount imageName zp dc p s = .ok (true, s')) :
    firstChildElement root (tileTag zp p) ≠ none := by
  intro hn
  simp [parseImagesBody, hn] at h

theorem forLoop_true_passes {σ : Type} (body : Nat → σ → Except Fault (Bool × σ)) (n : Nat) :
    ∀ (a : Nat) (s s' : σ), forLoop body a n s = .ok (true, s') →
      ∀ p, a ≤ p → p < a + n → ∃ s1 s2, body p s1 = .ok (true, s2) := by
  induction n with
  | zero => intro a s s' _ p h1 h2; omega
  | succ n ih =>
    intro a s s' h p h1 h2
    simp only [forLoop] at h
    cases hb : body a s with
    | error f => simp [hb] at h
    | ok r =>
      obtain ⟨b, s1⟩ := r
      cases b with
      | false => simp [hb] at h
      | true =>
        simp only [hb] at h
        by_cases hp : p = a
        · subst hp; exact ⟨s, s1, hb⟩
        · exact ih (a + 1) s1 s' h p (by omega) (by omega)

theorem forLoop_false_pass {σ : Type} (body : Nat → σ → Except Fault (Bool × σ)) (n : Nat) :
    ∀ (a : Nat) (s s' : σ), forLoop body a n s = .ok (false, s') →
      ∃ p s1, a ≤ p ∧ p < a + n ∧ body p s1 = .ok (false, s') := by
  induction n with
  | zero => intro a s s' h; simp [forLoop] at h
  | succ n ih =>
    intro a s s' h
    simp only [forLoop] at h
    cases hb : body a s with
    | error f => simp [hb] at h
    | ok r =>
      obtain ⟨b, s1⟩ := r
      cases b with
      | false =>
        simp only [hb, Except.ok.injEq, Prod.mk.injEq, true_and] at h
        subst h
        exact ⟨a, s, le_refl _, by omega, hb⟩
      | true =>
        simp only [hb] at h
        obtain ⟨p, s2, h1, h2, h3⟩ := ih (a + 1) s1 s' h
        exact ⟨p, s2, by omega, by omega, h3⟩

/-- C7: once the loop of `parseImages` has gone through the tiles before `p < imageCount`
(leaving the filter in state `s1`), a root without the element named by the padded tag of
tile `p` makes `parseImages` end with error code -70002 and a message naming that tag, and
an element without inner `<Tags>` makes it end with code -70003 and a message naming
that tag; in both cases the final state is `s1` plus the status message of tile `p` and
that error, so nothing is asked of a collaborator for tile `p` or a later tile. -/
theorem parseImages_stops_at_missing_tile (env : Env) (root : QDomElement)
    (sec : ZeissTagsXmlSection) (s s1 : ZeissImportFilter) (imageCount : Int)
    (imageName : String) (dca : DataContainerArray) (p : Nat)
    (hc : convertInt32 (ZeissTagsXmlSection.getEntry sec env.imageCountRawId) = some imageCount)
    (hn : castString (ZeissTagsXmlSection.getEntry sec env.filenameId) = some imageName)
    (hd : s.dataContainerArray = some dca)
    (hp : (p : Int) < imageCount)
    (hreach : forLoop (parseImagesBody env root imageCount imageName (zeroPadding imageCount)
      (getDataContainer dca s.dataContainerName)) 0 p s = .ok (true, s1)) :
    (firstChildElement root (tileTag (zeroPadding imageCount) p) = none →
      parseImages env root sec s = .ok { s1 with
        errorCondition := -70002
        trace := s1.trace ++
          [Event.statusMessage ZeissImportFilter.humanLabel (importingText p imageCount),
           Event.errorMessage ZeissImportFilter.humanLabel
            ("Could not find the <ROOT><" ++ tileTag (zeroPadding imageCount) p ++
              "> element. Aborting Parsing. Is the file a Zeiss _meta.xml file") (-70002)] }) ∧
    (∀ photoEle, firstChildElement root (tileTag (zeroPadding imageCount) p) = some photoEle →
      firstChildElement photoEle Xml.Tags = none →
      parseImages env root sec s = .ok { s1 with
        errorCondition := -70003
        trace := s1.trace ++
          [Event.statusMessage ZeissImportFilter.humanLabel (importingText p imageCount),
           Event.errorMessage ZeissImportFilter.humanLabel
            ("Could not find the <ROOT><" ++ tileTag (zeroPadding imageCount) p ++
              "><Tags> element. Aborting Parsing. Is the file a Zeiss _meta.xml file")
            (-70003)] }) := by
  obtain ⟨k, hk⟩ : ∃ k : Nat, imageCount.toNat = p + (k + 1) :=
    ⟨imageCount.toNat - p - 1, by omega⟩
  rw [parseImages_of_entries env root sec s imageCount imageName dca hc hn hd, hk, forLoop_add,
    hreach]
  simp only [Nat.zero_add, forLoop, parseImagesBody]
  constructor
  · intro h
    simp [h, Except.map, ZeissImportFilter.reportError, ZeissImportFilter.setErrorCondition,
      ZeissImportFilter.notifyErrorMessage, ZeissImportFilter.notifyStatusMessage,
      missingTileText]
  · intro photoEle h1 h2
    simp [h1, h2, Except.map, ZeissImportFilter.reportError,
      ZeissImportFilter.setErrorCondition, ZeissImportFilter.notifyErrorMessage,
      ZeissImportFilter.notifyStatusMessage, missingTileTagsText]

/-- Witness for C7: two tiles announced; in one document the element `p1` is absent, in
another it is present without a `<Tags>` child. -/
theorem parseImages_stops_at_missing_tile_witness :
    (firstChildElement Sample.missingSecondTile (tileTag (zeroPadding 2) 1) = none ∧
      parseImages (Sample.env false) Sample.missingSecondTile Sample.globalSection
        (Sample.filter false) = .ok { Sample.afterFirstTile Sample.missingSecondTile with
          errorCondition := -70002
          trace := (Sample.afterFirstTile Sample.missingSecondTile).trace ++
            [Event.statusMessage ZeissImportFilter.humanLabel (importingText 1 2),
             Event.errorMessage ZeissImportFilter.humanLabel
              ("Could not find the <ROOT><" ++ tileTag (zeroPadding 2) 1 ++
                "> element. Aborting Parsing. Is the file a Zeiss _meta.xml file")
              (-70002)] }) ∧
    (firstChildElement Sample.secondTileWithoutTags (tileTag (zeroPadding 2) 1) =
        some (.mk "p1" "" []) ∧
      parseImages (Sample.env false) Sample.secondTileWithoutTags Sample.globalSection
        (Sample.filter false) = .ok { Sample.afterFirstTile Sample.secondTileWithoutTags with
          errorCondition := -70003
          trace := (Sample.afterFirstTile Sample.secondTileWithoutTags).trace ++
            [Event.statusMessage ZeissImportFilter.humanLabel (importingText 1 2),
             Event.errorMessage ZeissImportFilter.humanLabel
              ("Could not find the <ROOT><" ++ tileTag (zeroPadding 2) 1 ++
                "><Tags> element. Aborting Parsing. Is the file a Zeiss _meta.xml file")
              (-70003)] }) :=
  ⟨⟨rfl,
    (parseImages_stops_at_missing_tile (Sample.env false) Sample.missingSecondTile
      Sample.globalSection (Sample.filter false)
      (Sample.afterFirstTile Sample.missingSecondTile) 2 "set.jpg"
      [⟨"Zeiss Axio Vision Montage", []⟩] 1 (by decide) (by decide) (by decide) (by decide)
      (by decide)).1 rfl⟩,
   ⟨rfl,
    (parseImages_stops_at_missing_tile (Sample.env false) Sample.secondTileWithoutTags
      Sample.globalSection (Sample.filter false)
      (Sample.afterFirstTile Sample.secondTileWithoutTags) 2 "set.jpg"
      [⟨"Zeiss Axio Vision Montage", []⟩] 1 (by decide) (by decide) (by decide) (by decide)
      (by decide)).2 (.mk "p1" "" []) rfl rfl⟩⟩

/-- C8 (the code at the failing inputs): with a global section that lacks the image count,
`readMetaXml` ends in a null-pointer dereference (in a failed assertion where
`Q_ASSERT_X` is compiled in), and with one that has the count but lacks the file name it
ends in a null-pointer dereference in both builds; no error code is recorded. -/
theorem readMetaXml_missing_global_entry_faults :
    readMetaXml (Sample.env false) (.document Sample.noGlobalEntries) (Sample.filter false) =
        .error Fault.nullPointerDereference ∧
      readMetaXml (Sample.env true) (.document Sample.noGlobalEntries) (Sample.filter false) =
        .error Fault.assertionFailed ∧
      readMetaXml (Sample.env false) (.document Sample.noFileName) (Sample.filter false) =
        .error Fault.nullPointerDereference ∧
      readMetaXml (Sample.env true) (.document Sample.noFileName) (Sample.filter false) =
        .error Fault.nullPointerDereference := by
  decide

theorem getEntry_eraseKey (k : Int) (sec : ZeissTagsXmlSection) (k' : Int) :
    ZeissTagsXmlSection.getEntry (ZeissTagsXmlSection.eraseKey k sec) k' =
      if k' = k then none else ZeissTagsXmlSection.getEntry sec k' := by
  induction sec with
  | nil => simp [ZeissTagsXmlSection.eraseKey, ZeissTagsXmlSection.getEntry]
  | cons hd rest ih =>
    obtain ⟨k1, v1⟩ := hd
    simp only [ZeissTagsXmlSection.eraseKey]
    by_cases h1 : k1 = k
    · subst h1
      simp only [if_true, ih, ZeissTagsXmlSection.getEntry]
      by_cases h2 : k' = k1
      · simp [h2]
      · have : ¬ k1 = k' := fun e => h2 e.symm
        simp [h2, this]
    · simp only [h1, if_false, ZeissTagsXmlSection.getEntry, ih]
      by_cases h2 : k1 = k'
      · subst h2; simp [h1]
      · simp [h2]

/-- C9 (as stated, refuted): the second tile of the document lacks the pixel width and
the pixel height, yet the parse ends with error condition 0, in both builds. -/
theorem readMetaXml_second_tile_without_dims_no_error :
    ZeissTagsXmlSection.getEntry
        ((parseTagsSection (Sample.env false) (Sample.tagsElement [("5", "1")])
          (Sample.filter false)).1.getD []) (Sample.env false).imageWidthPixelId = none ∧
      outcome (readMetaXml (Sample.env false) (.document Sample.secondTileWithoutDims)
        (Sample.filter false)) = .ok (0, 0) ∧
      outcome (readMetaXml (Sample.env true) (.document Sample.secondTileWithoutDims)
        (Sample.filter true)) = .ok (0, 0) := by
  decide

/-- C9 (amended): for a tile `p ≥ 1` the pixel width and pixel height are not consulted;
the tile is processed in exactly the same way, with the same resulting error condition,
messages, sub-filter requests and data, whether or not its section holds them. -/
theorem processTile_ignores_dims_after_first (env : Env) (imageCount : Int)
    (imageName : String) (dc : Option DataContainer) (p : Nat) (pTag : String)
    (sec : ZeissTagsXmlSection) (s : ZeissImportFilter) (hp : 1 ≤ p)
    (hw : env.imageTileIndexId ≠ env.imageWidthPixelId)
    (hh : env.imageTileIndexId ≠ env.imageHeightPixelId) :
    processTile env imageCount imageName dc p pTag
        (ZeissTagsXmlSection.eraseKey env.imageWidthPixelId
          (ZeissTagsXmlSection.eraseKey env.imageHeightPixelId sec)) s =
      processTile env imageCount imageName dc p pTag sec s := by
  have hp0 : p ≠ 0 := by omega
  simp only [processTile, hp0, if_false, getEntry_eraseKey, hw, hh, addMetaData]

/-- Witness for C9 (amended): the second tile of a set, with and without its dimensions. -/
theorem processTile_ignores_dims_after_first_witness :
    (1 ≤ 1) ∧
      processTile (Sample.env false) 2 "set.jpg" (some ⟨"Zeiss Axio Vision Montage", []⟩) 1 "p1"
          (ZeissTagsXmlSection.eraseKey (Sample.env false).imageWidthPixelId
            (ZeissTagsXmlSection.eraseKey (Sample.env false).imageHeightPixelId
              [(3, ⟨3, .int32 4⟩), (4, ⟨4, .int32 3⟩), (5, ⟨5, .int32 1⟩)]))
          (Sample.filter false) =
        processTile (Sample.env false) 2 "set.jpg" (some ⟨"Zeiss Axio Vision Montage", []⟩) 1
          "p1" [(3, ⟨3, .int32 4⟩), (4, ⟨4, .int32 3⟩), (5, ⟨5, .int32 1⟩)]
          (Sample.filter false) :=
  ⟨le_refl 1, processTile_ignores_dims_after_first (Sample.env false) 2 "set.jpg"
    (some ⟨"Zeiss Axio Vision Montage", []⟩) 1 "p1"
    [(3, ⟨3, .int32 4⟩), (4, ⟨4, .int32 3⟩), (5, ⟨5, .int32 1⟩)] (Sample.filter false)
    (le_refl 1) (by decide) (by decide)⟩

theorem firstNamed_append (name : String) (cs extra : List QDomElement)
    (h : firstNamed name extra = none) : firstNamed name (cs ++ extra) = firstNamed name cs := by
  induction cs with
  | nil => simpa [firstNamed] using h
  | cons e rest ih =>
    rw [List.cons_append]
    simp only [firstNamed, ih]

theorem firstChildElement_appendChildren (root : QDomElement) (extra : List QDomElement)
    (name : String) (h : firstNamed name extra = none) :
    firstChildElement (appendChildren root extra) name = firstChildElement root name := by
  simp only [firstChildElement, appendChildren, QDomElement.children]
  exact firstNamed_append name _ extra h

theorem forLoop_congr {σ : Type} (body body' : Nat → σ → Except Fault (Bool × σ)) (n : Nat) :
    ∀ (a : Nat) (s : σ), (∀ p, a ≤ p → p < a + n → ∀ t, body p t = body' p t) →
      forLoop body a n s = forLoop body' a n s := by
  induction n with
  | zero => intro a s _; rfl
  | succ n ih =>
    intro a s h
    simp only [forLoop]
    rw [h a (le_refl a) (by omega) s]
    cases body' a s with
    | error f => rfl
    | ok r =>
      obtain ⟨b, s1⟩ := r
      cases b with
      | false => rfl
      | true => exact ih (a + 1) s1 (fun p h1 h2 t => h p (by omega) (by omega) t)

/-- C10 (as stated, refuted): the document announces one tile and carries two per-tile
sections, yet the parse returns 0 with error condition 0. -/
theorem readMetaXml_extra_tile_no_error :
    tileSectionCount Sample.extraTile = 2 ∧
      convertInt32 (ZeissTagsXmlSection.getEntry
        ((parseTagsSection (Sample.env false) (Sample.globalTags "1")
          (Sample.filter false)).1.getD []) (Sample.env false).imageCountRawId) = some 1 ∧
      outcome (readMetaXml (Sample.env false) (.document Sample.extraTile)
        (Sample.filter false)) = .ok (0, 0) := by
  decide

/-- C10 (amended): the declared image count decides which tile elements are looked for.
If the element of some tile below the declared count is absent, `parseImages` does not
end well: unless a fault cuts the run short it ends with error code -70002, -70003 or
-70004.  Elements added to the root under names that are not the tags of the tiles
below the declared count change nothing in the run. -/
theorem parseImages_count_decides (env : Env) (root : QDomElement)
    (sec : ZeissTagsXmlSection) (s : ZeissImportFilter) (imageCount : Int)
    (imageName : String) (dca : DataContainerArray)
    (hc : convertInt32 (ZeissTagsXmlSection.getEntry sec env.imageCountRawId) = some imageCount)
    (hn : castString (ZeissTagsXmlSection.getEntry sec env.filenameId) = some imageName)
    (hd : s.dataContainerArray = some dca) :
    (∀ p : Nat, (p : Int) < imageCount →
      firstChildElement root (tileTag (zeroPadding imageCount) p) = none →
      (∃ f, parseImages env root sec s = .error f) ∨
        ∃ s', parseImages env root sec s = .ok s' ∧
          (s'.errorCondition = -70002 ∨ s'.errorCondition = -70003 ∨
            s'.errorCondition = -70004)) ∧
    (∀ extra : List QDomElement,
      (∀ p : Nat, (p : Int) < imageCount →
        firstNamed (tileTag (zeroPadding imageCount) p) extra = none) →
      parseImages env (appendChildren root extra) sec s = parseImages env root sec s) := by
  constructor
  · intro p hp hmiss
    rw [parseImages_of_entries env root sec s imageCount imageName dca hc hn hd]
    cases hl : forLoop (parseImagesBody env root imageCount imageName (zeroPadding imageCount)
        (getDataContainer dca s.dataContainerName)) 0 imageCount.toNat s with
    | error f => exact Or.inl ⟨f, rfl⟩
    | ok r =>
      obtain ⟨b, s'⟩ := r
      cases b with
      | true =>
        obtain ⟨s1, s2, hb⟩ := forLoop_true_passes _ _ _ _ _ hl p (Nat.zero_le p) (by omega)
        exact absurd hmiss (parseImagesBody_true _ _ _ _ _ _ _ _ _ hb)
      | false =>
        obtain ⟨q, s1, _, _, hb⟩ := forLoop_false_pass _ _ _ _ _ hl
        exact Or.inr ⟨s', rfl, parseImagesBody_false _ _ _ _ _ _ _ _ _ hb⟩
  · intro extra hx
    rw [parseImages_of_entries env root sec s imageCount imageName dca hc hn hd,
      parseImages_of_entries env (appendChildren root extra) sec s imageCount imageName dca
        hc hn hd]
    congr 1
    apply forLoop_congr
    intro p _ hp t
    simp only [parseImagesBody, firstChildElement_appendChildren root extra _
      (hx p (by omega))]

/-- Witness for C10 (amended): with two tiles announced and `p1` absent the parse ends
with a negative code; an added element `p2` changes nothing for the complete document. -/
theorem parseImages_count_decides_witness :
    ((∃ f, parseImages (Sample.env false) Sample.missingSecondTile Sample.globalSection
        (Sample.filter false) = .error f) ∨
      ∃ s', parseImages (Sample.env false) Sample.missingSecondTile Sample.globalSection
          (Sample.filter false) = .ok s' ∧
        (s'.errorCondition = -70002 ∨ s'.errorCondition = -70003 ∨
          s'.errorCondition = -70004)) ∧
      parseImages (Sample.env false)
          (appendChildren Sample.twoTiles [Sample.fullTile "p2" "2"]) Sample.globalSection
          (Sample.filter false) =
        parseImages (Sample.env false) Sample.twoTiles Sample.globalSection
          (Sample.filter false) :=
  ⟨(parseImages_count_decides (Sample.env false) Sample.missingSecondTile
      Sample.globalSection (Sample.filter false) 2 "set.jpg"
      [⟨"Zeiss Axio Vision Montage", []⟩] (by decide) (by decide) (by decide)).1 1
      (by decide) rfl,
    (parseImages_count_decides (Sample.env false) Sample.twoTiles
      Sample.globalSection (Sample.filter false) 2 "set.jpg"
      [⟨"Zeiss Axio Vision Montage", []⟩] (by decide) (by decide) (by decide)).2
      [Sample.fullTile "p2" "2"] (by
        intro p hp
        have h2 : p < 2 := by omega
        interval_cases p <;> rfl)⟩

/-! ## The walk through the tiles -/

theorem sameSettings_refl (a : ZeissImportFilter) : sameSettings a a :=
  ⟨rfl, rfl, rfl, rfl, rfl, rfl⟩

theorem sameSettings_trans {a b c : ZeissImportFilter} (h1 : sameSettings a b)
    (h2 : sameSettings b c) : sameSettings a c := by
  unfold sameSettings at h1 h2 ⊢
  refine ⟨?_, ?_, ?_, ?_, ?_, ?_⟩
  · rw [h2.1, h1.1]
  · rw [h2.2.1, h1.2.1]
  · rw [h2.2.2.1, h1.2.2.1]
  · rw [h2.2.2.2.1, h1.2.2.2.1]
  · rw [h2.2.2.2.2.1, h1.2.2.2.2.1]
  · rw [h2.2.2.2.2.2, h1.2.2.2.2.2]

theorem steps_append (a b : List Event) : steps (a ++ b) = steps a ++ steps b := by
  simp [steps, List.filterMap_append]

theorem assignProperty_quiet (filter : SubFilter) (filtName property reported : String)
    (code : Int) (value : QVariant) (st : ZeissImportFilter × List (String × QVariant)) :
    sameSettings st.1 (assignProperty filter filtName property reported code value st).1 ∧
      (assignProperty filter filtName property reported code value st).1.dataContainerArray =
        st.1.dataContainerArray ∧
      steps (assignProperty filter filtName property reported code value st).1.trace =
        steps st.1.trace := by
  unfold assignProperty
  cases filter.setProperty property value <;>
    simp [sameSettings, ZeissImportFilter.reportError, ZeissImportFilter.setErrorCondition,
      ZeissImportFilter.notifyErrorMessage, steps_append, steps, stepOf]

theorem assignProperty_accepted (filter : SubFilter) (filtName property reported : String)
    (code : Int) (value : QVariant) (st : ZeissImportFilter × List (String × QVariant))
    (h : filter.setProperty property value = true) :
    (assignProperty filter filtName property reported code value st).2 =
      st.2 ++ [(property, value)] := by
  simp [assignProperty, h]

theorem runSubFilter_spec (filter : SubFilter) (filtName : String)
    (props : List (String × QVariant)) (t : ZeissImportFilter) :
    sameSettings t (runSubFilter filter filtName props t) ∧
      (runSubFilter filter filtName props t).dataContainerArray =
        t.dataContainerArray.map (filter.run t.inPreflight props) ∧
      steps (runSubFilter filter filtName props t).trace =
        steps t.trace ++ [Step.run filtName] := by
  unfold runSubFilter
  cases h : t.inPreflight <;>
    simp [sameSettings, h, steps_append, steps, stepOf]

theorem importImage_spec (env : Env) (imageName pTag dcName : String) (t : ZeissImportFilter)
    (reader : SubFilter) (hf : env.getFactoryForFilter "ReadImage" = some reader) :
    sameSettings t (importImage env imageName pTag dcName t) ∧
      steps (importImage env imageName pTag dcName t).trace =
        steps t.trace ++ [Step.run "ReadImage"] ∧
      (∃ props, (importImage env imageName pTag dcName t).dataContainerArray =
        t.dataContainerArray.map (reader.run t.inPreflight props)) ∧
      ((∀ n v, reader.setProperty n v = true) →
        (importImage env imageName pTag dcName t).dataContainerArray =
          t.dataContainerArray.map (reader.run t.inPreflight
            [("InputFileName", .string (env.absoluteDirPath t.inputFile ++ "/" ++
                (completeBaseName imageName ++ "_" ++ pTag ++ "." ++ fileSuffix imageName))),
             ("DataContainerName", .string dcName),
             ("CellAttributeMatrixName", .string t.imageAttributeMatrixName),
             ("ImageDataArrayName", .string (completeBaseName imageName ++ "_" ++ pTag))])) := by
  simp only [importImage, hf]
  have q1 := assignProperty_quiet reader "ReadImage" "InputFileName" "InputFileName" (-70005)
    (.string (env.absoluteDirPath t.inputFile ++ "/" ++
      (completeBaseName imageName ++ "_" ++ pTag ++ "." ++ fileSuffix imageName))) (t, [])
  have a1 := assignProperty_accepted reader "ReadImage" "InputFileName" "InputFileName" (-70005)
    (.string (env.absoluteDirPath t.inputFile ++ "/" ++
      (completeBaseName imageName ++ "_" ++ pTag ++ "." ++ fileSuffix imageName))) (t, [])
  generalize assignProperty reader "ReadImage" "InputFileName" "InputFileName" (-70005)
    (.string (env.absoluteDirPath t.inputFile ++ "/" ++
      (completeBaseName imageName ++ "_" ++ pTag ++ "." ++ fileSuffix imageName))) (t, []) = st1
    at q1 a1 ⊢
  have q2 := assignProperty_quiet reader "ReadImage" "DataContainerName" "DataContainerName"
    (-70006) (.string dcName) st1
  have a2 := assignProperty_accepted reader "ReadImage" "DataContainerName" "DataContainerName"
    (-70006) (.string dcName) st1
  generalize assignProperty reader "ReadImage" "DataContainerName" "DataContainerName"
    (-70006) (.string dcName) st1 = st2 at q2 a2 ⊢
  have q3 := assignProperty_quiet reader "ReadImage" "CellAttributeMatrixName"
    "CellAttributeMatrixName" (-70007) (.string st2.1.imageAttributeMatrixName) st2
  have a3 := assignProperty_accepted reader "ReadImage" "CellAttributeMatrixName"
    "CellAttributeMatrixName" (-70007) (.string st2.1.imageAttributeMatrixName) st2
  generalize assignProperty reader "ReadImage" "CellAttributeMatrixName"
    "CellAttributeMatrixName" (-70007) (.string st2.1.imageAttributeMatrixName) st2 = st3
    at q3 a3 ⊢
  have q4 := assignProperty_quiet reader "ReadImage" "ImageDataArrayName" "ImageDataArrayName"
    (-70008) (.string (completeBaseName imageName ++ "_" ++ pTag)) st3
  have a4 := assignProperty_accepted reader "ReadImage" "ImageDataArrayName"
    "ImageDataArrayName" (-70008) (.string (completeBaseName imageName ++ "_" ++ pTag)) st3
  generalize assignProperty reader "ReadImage" "ImageDataArrayName" "ImageDataArrayName"
    (-70008) (.string (completeBaseName imageName ++ "_" ++ pTag)) st3 = st4 at q4 a4 ⊢
  have r := runSubFilter_spec reader "ReadImage" st4.2 st4.1
  have hs14 : sameSettings t st4.1 :=
    sameSettings_trans (sameSettings_trans (sameSettings_trans q1.1 q2.1) q3.1) q4.1
  have hd14 : st4.1.dataContainerArray = t.dataContainerArray := by
    rw [q4.2.1, q3.2.1, q2.2.1, q1.2.1]
  have ht14 : steps st4.1.trace = steps t.trace := by
    rw [q4.2.2, q3.2.2, q2.2.2, q1.2.2]
  have hpre : st4.1.inPreflight = t.inPreflight := hs14.2.2.2.2.2
  refine ⟨sameSettings_trans hs14 r.1, ?_, ⟨st4.2, ?_⟩, ?_⟩
  · rw [r.2.2, ht14]
  · rw [r.2.1, hd14, hpre]
  · intro hacc
    rw [r.2.1, hd14, hpre, a4 (hacc _ _), a3 (hacc _ _), a2 (hacc _ _), a1 (hacc _ _)]
    have h2 : st2.1.imageAttributeMatrixName = t.imageAttributeMatrixName :=
      (sameSettings_trans q1.1 q2.1).2.2.1
    rw [h2]
    rfl

/-! ## Facts about the destination store -/

theorem findKey_assignKey {α : Type} (k k' : String) (v : α) (m : List (String × α)) :
    findKey k (assignKey k' v m) = if k' = k then some v else findKey k m := by
  induction m with
  | nil => simp [assignKey, findKey]
  | cons hd rest ih =>
    obtain ⟨k1, v1⟩ := hd
    simp only [assignKey]
    by_cases h1 : k1 = k'
    · subst h1
      simp only [if_true, findKey]
      split_ifs <;> rfl
    · simp only [h1, if_false, findKey, ih]
      by_cases h2 : k1 = k
      · subst h2
        have : ¬ k' = k1 := fun e => h1 e.symm
        simp [this]
      · simp [h2]

theorem findKey_removeKey {α : Type} (k k' : String) (m : List (String × α)) :
    findKey k (removeKey k' m) = if k = k' then none else findKey k m := by
  induction m with
  | nil => simp [removeKey, findKey]
  | cons hd rest ih =>
    obtain ⟨k1, v1⟩ := hd
    simp only [removeKey]
    by_cases h1 : k1 = k'
    · subst h1
      simp only [if_true, ih, findKey]
      by_cases h2 : k = k1
      · simp [h2]
      · have : ¬ k1 = k := fun e => h2 e.symm
        simp [h2, this]
    · simp only [h1, if_false, findKey, ih]
      by_cases h2 : k1 = k
      · subst h2; simp [h1]
      · simp [h2]

theorem getDataContainer_name (dca : DataContainerArray) (name : String) (dc : DataContainer)
    (h : getDataContainer dca name = some dc) : dc.name = name := by
  induction dca with
  | nil => simp [getDataContainer] at h
  | cons d rest ih =>
    simp only [getDataContainer] at h
    split_ifs at h with hd
    · injection h with h; subst h; exact hd
    · exact ih h

theorem getDataContainer_setDataContainer (dca : DataContainerArray) (name : String)
    (dc new : DataContainer) (h : getDataContainer dca name = some dc) (hn : new.name = name) :
    getDataContainer (setDataContainer dca name new) name = some new := by
  induction dca with
  | nil => simp [getDataContainer] at h
  | cons d rest ih =>
    simp only [getDataContainer] at h
    simp only [setDataContainer]
    split_ifs at h with hd
    · simp [hd, getDataContainer, hn]
    · simp [hd, getDataContainer, ih h]

/-! ## Tile tags end in a digit -/

theorem toDigitsCore_append (fuel : Nat) : ∀ (n : Nat) (ds : List Char),
    ∃ pre, Nat.toDigitsCore 10 (fuel + 1) n ds = pre ++ Nat.digitChar (n % 10) :: ds := by
  induction fuel with
  | zero =>
    intro n ds
    refine ⟨[], ?_⟩
    simp [Nat.toDigitsCore]
  | succ f ih =>
    intro n ds
    rw [Nat.toDigitsCore]
    by_cases h0 : n / 10 = 0
    · exact ⟨[], by simp [h0]⟩
    · obtain ⟨pre, hpre⟩ := ih (n / 10) (Nat.digitChar (n % 10) :: ds)
      refine ⟨pre ++ [Nat.digitChar (n / 10 % 10)], ?_⟩
      simp only [h0, if_false]
      rw [hpre]
      simp

theorem digitChar_isDigit (k : Nat) (h : k < 10) : isDigit (Nat.digitChar k) = true := by
  interval_cases k <;> decide

theorem natText_getLast (p : Nat) :
    ∃ pre, (toString p).data = pre ++ [Nat.digitChar (p % 10)] := by
  obtain ⟨pre, h⟩ := toDigitsCore_append p p []
  exact ⟨pre, by
    show (Nat.repr p).data = _
    simp only [Nat.repr, Nat.toDigits, List.asString]
    exact h⟩

theorem tileTag_data (zp p : Nat) :
    ∃ pre, (tileTag zp p).data = pre ++ [Nat.digitChar (p % 10)] := by
  obtain ⟨pre, h⟩ := natText_getLast p
  refine ⟨'p' :: (List.replicate (zp - (intText p).length) '0' ++ pre), ?_⟩
  have e : intText (p : Int) = toString p := rfl
  simp only [tileTag, rightAligned, e, String.data_append, h]
  simp

theorem arrayName_ne_temp (base : String) (zp p : Nat) :
    base ++ "_" ++ tileTag zp p ≠ k_GrayScaleTempArrayName := by
  intro h
  obtain ⟨pre, hp⟩ := tileTag_data zp p
  have hd := congrArg String.data h
  simp only [String.data_append, hp] at hd
  have hl := congrArg List.getLast? hd
  rw [← List.append_assoc, List.getLast?_append] at hl
  simp only [List.getLast?_singleton, Option.or] at hl
  have hdig := digitChar_isDigit (p % 10) (Nat.mod_lt _ (by norm_num))
  have hc : Nat.digitChar (p % 10) = 'p' := by
    have : k_GrayScaleTempArrayName.data.getLast? = some 'p' := by decide
    rw [this] at hl
    injection hl
  rw [hc] at hdig
  exact absurd hdig (by decide)

/-! ## The gray-scale step and the first-tile block -/

theorem hasArrays_elim (d : DataContainerArray) (dcName amName : String) (keys : List String)
    (h : hasArrays d dcName amName keys = true) :
    ∃ dc am, getDataContainer d dcName = some dc ∧ dc.getAttributeMatrix amName = some am ∧
      ∀ k ∈ keys, ∃ a, findKey k am.arrays = some a := by
  unfold hasArrays at h
  cases h1 : getDataContainer d dcName with
  | none => simp [h1] at h
  | some dc =>
    cases h2 : dc.getAttributeMatrix amName with
    | none => simp [h1, h2] at h
    | some am =>
      simp only [h1, h2, List.all_eq_true] at h
      exact ⟨dc, am, rfl, h2, fun k hk => Option.isSome_iff_exists.mp (h k hk)⟩

theorem hasArrays_nil_intro (d : DataContainerArray) (dcName amName : String)
    (dc : DataContainer) (am : AttributeMatrix) (h1 : getDataContainer d dcName = some dc)
    (h2 : dc.getAttributeMatrix amName = some am) : hasArrays d dcName amName [] = true := by
  simp [hasArrays, h1, h2]

theorem convertToGrayScale_spec (env : Env) (imageName pTag dcName : String)
    (t : ZeissImportFilter) (conv : SubFilter) (d : DataContainerArray)
    (hf : env.getFactoryForFilter "RGBToGray" = some conv)
    (hacc : ∀ n v, conv.setProperty n v = true)
    (hd : t.dataContainerArray = some d)
    (hne : completeBaseName imageName ++ "_" ++ pTag ≠ k_GrayScaleTempArrayName)
    (hrun : hasArrays (conv.run t.inPreflight
        [("SelectedCellArrayArrayPath", .dataArrayPath t.dataContainerName
            t.imageAttributeMatrixName (completeBaseName imageName ++ "_" ++ pTag)),
         ("ColorWeights", .floatVec3 t.colorWeights),
         ("NewCellArrayName", .string k_GrayScaleTempArrayName)] d)
        t.dataContainerName t.imageAttributeMatrixName
        [completeBaseName imageName ++ "_" ++ pTag, k_GrayScaleTempArrayName] = true) :
    ∃ t', convertToGrayScale env imageName pTag dcName t = .ok t' ∧ sameSettings t t' ∧
      steps t'.trace = steps t.trace ++ [Step.run "RGBToGray"] ∧
      ∃ d', t'.dataContainerArray = some d' ∧
        hasArrays d' t.dataContainerName t.imageAttributeMatrixName [] = true := by
  simp only [convertToGrayScale, hf]
  have q1 := assignProperty_quiet conv "RGBToGray" "SelectedCellArrayArrayPath" "InputFileName"
    (-70005) (.dataArrayPath t.dataContainerName t.imageAttributeMatrixName
      (completeBaseName imageName ++ "_" ++ pTag)) (t, [])
  have a1 := assignProperty_accepted conv "RGBToGray" "SelectedCellArrayArrayPath"
    "InputFileName" (-70005) (.dataArrayPath t.dataContainerName t.imageAttributeMatrixName
      (completeBaseName imageName ++ "_" ++ pTag)) (t, []) (hacc _ _)
  generalize assignProperty conv "RGBToGray" "SelectedCellArrayArrayPath" "InputFileName"
    (-70005) (.dataArrayPath t.dataContainerName t.imageAttributeMatrixName
      (completeBaseName imageName ++ "_" ++ pTag)) (t, []) = st1 at q1 a1 ⊢
  have q2 := assignProperty_quiet conv "RGBToGray" "ColorWeights" "DataContainerName" (-70006)
    (.floatVec3 st1.1.colorWeights) st1
  have a2 := assignProperty_accepted conv "RGBToGray" "ColorWeights" "DataContainerName"
    (-70006) (.floatVec3 st1.1.colorWeights) st1 (hacc _ _)
  generalize assignProperty conv "RGBToGray" "ColorWeights" "DataContainerName" (-70006)
    (.floatVec3 st1.1.colorWeights) st1 = st2 at q2 a2 ⊢
  have q3 := assignProperty_quiet conv "RGBToGray" "NewCellArrayName" "CellAttributeMatrixName"
    (-70007) (.string k_GrayScaleTempArrayName) st2
  have a3 := assignProperty_accepted conv "RGBToGray" "NewCellArrayName"
    "CellAttributeMatrixName" (-70007) (.string k_GrayScaleTempArrayName) st2 (hacc _ _)
  generalize assignProperty conv "RGBToGray" "NewCellArrayName" "CellAttributeMatrixName"
    (-70007) (.string k_GrayScaleTempArrayName) st2 = st3 at q3 a3 ⊢
  have r := runSubFilter_spec conv "RGBToGray" st3.2 st3.1
  have hs13 : sameSettings t st3.1 := sameSettings_trans (sameSettings_trans q1.1 q2.1) q3.1
  have hd13 : st3.1.dataContainerArray = some d := by rw [q3.2.1, q2.2.1, q1.2.1, hd]
  have ht13 : steps st3.1.trace = steps t.trace := by rw [q3.2.2, q2.2.2, q1.2.2]
  have hprops : st3.2 = [("SelectedCellArrayArrayPath", .dataArrayPath t.dataContainerName
      t.imageAttributeMatrixName (completeBaseName imageName ++ "_" ++ pTag)),
      ("ColorWeights", .floatVec3 t.colorWeights),
      ("NewCellArrayName", .string k_GrayScaleTempArrayName)] := by
    rw [a3, a2, a1, q1.1.2.2.2.2.1]
    rfl
  generalize runSubFilter conv "RGBToGray" st3.2 st3.1 = u at r ⊢
  have hsu : sameSettings t u := sameSettings_trans hs13 r.1
  have hdu : u.dataContainerArray = some (conv.run t.inPreflight
      [("SelectedCellArrayArrayPath", .dataArrayPath t.dataContainerName
        t.imageAttributeMatrixName (completeBaseName imageName ++ "_" ++ pTag)),
       ("ColorWeights", .floatVec3 t.colorWeights),
       ("NewCellArrayName", .string k_GrayScaleTempArrayName)] d) := by
    rw [r.2.1, hd13, hs13.2.2.2.2.2, hprops]
    rfl
  obtain ⟨dc1, am1, hdc1, ham1, hkeys⟩ := hasArrays_elim _ _ _ _ hrun
  obtain ⟨rgb, hrgb⟩ := hkeys _ (List.mem_cons_self _ _)
  obtain ⟨gray, hgray⟩ := hkeys k_GrayScaleTempArrayName (by simp)
  have hgray2 : findKey k_GrayScaleTempArrayName
      (removeKey (completeBaseName imageName ++ "_" ++ pTag) am1.arrays) = some gray := by
    rw [findKey_removeKey, if_neg (fun e => hne e.symm), hgray]
  have hname : dc1.name = t.dataContainerName := getDataContainer_name _ _ _ hdc1
  simp only [bind, Except.bind, hdu, deref, hsu.2.1, hsu.2.2.1, hdc1, ham1,
    AttributeMatrix.removeAttributeArray, hrgb, hgray2, pure, Except.pure]
  refine ⟨_, rfl, ?_, ?_, _, rfl, ?_⟩
  · exact ⟨hsu.1, rfl, rfl, hsu.2.2.2.1, hsu.2.2.2.2.1, hsu.2.2.2.2.2⟩
  · show steps u.trace = _
    rw [r.2.2, ht13]
  · have hget := getDataContainer_setDataContainer _ _ dc1
      (dc1.setAttributeMatrix t.imageAttributeMatrixName
        (AttributeMatrix.addAttributeArray
          { am1 with arrays := (removeKey k_GrayScaleTempArrayName
              (removeKey (completeBaseName imageName ++ "_" ++ pTag) am1.arrays)) }
          rgb.name { gray with name := rgb.name })) hdc1 hname
    unfold hasArrays
    rw [hget]
    simp [DataContainer.getAttributeMatrix, DataContainer.setAttributeMatrix,
      findKey_assignKey]

theorem hasInt32_elim (sec : ZeissTagsXmlSection) (id : Int) (h : hasInt32 sec id = true) :
    ∃ v, convertInt32 (ZeissTagsXmlSection.getEntry sec id) = some v :=
  Option.isSome_iff_exists.mp h

theorem createTileMatrices_spec (env : Env) (imageCount : Int) (dc0 : DataContainer)
    (sec : ZeissTagsXmlSection) (t : ZeissImportFilter) (dca : DataContainerArray)
    (hw : hasInt32 sec env.imageWidthPixelId = true)
    (hh : hasInt32 sec env.imageHeightPixelId = true)
    (hd : t.dataContainerArray = some dca)
    (hdc : getDataContainer dca t.dataContainerName = some dc0) :
    ∃ t', createTileMatrices env imageCount (some dc0) sec t = .ok t' ∧ sameSettings t t' ∧
      t'.trace = t.trace ∧
      ∃ d', t'.dataContainerArray = some d' ∧
        hasArrays d' t.dataContainerName t.imageAttributeMatrixName [] = true := by
  obtain ⟨w, hw'⟩ := hasInt32_elim _ _ hw
  obtain ⟨h, hh'⟩ := hasInt32_elim _ _ hh
  have hname : dc0.name = t.dataContainerName := getDataContainer_name _ _ _ hdc
  simp only [createTileMatrices, getImageDimensions, hw', hh', qAssert, deref, bind, Except.bind,
    pure, Except.pure, Option.isSome_some, Bool.not_true, Bool.and_false, Bool.false_eq_true,
    if_false, hd, Option.map_some']
  refine ⟨_, rfl, ⟨rfl, rfl, rfl, rfl, rfl, rfl⟩, rfl, _, rfl, ?_⟩
  unfold hasArrays
  simp only [DataContainer.setAttributeMatrix, DataContainer.createAndAddAttributeMatrix, hname]
  rw [getDataContainer_setDataContainer _ _ dc0 _ hdc rfl]
  simp only [DataContainer.getAttributeMatrix, findKey_assignKey]
  split_ifs <;> simp

theorem importAndConvert_spec (env : Env) (imageName : String) (dc0 : DataContainer)
    (zp p : Nat) (t t1 : ZeissImportFilter) (reader : SubFilter)
    (hname : dc0.name = t.dataContainerName)
    (hreader : env.getFactoryForFilter "ReadImage" = some reader)
    (hgray : t.convertToGrayScale = true → collaboratorsServeGrayScale env t)
    (s1 : sameSettings t t1)
    (inv1 : t.convertToGrayScale = true → ∃ d, t1.dataContainerArray = some d ∧
      hasArrays d t.dataContainerName t.imageAttributeMatrixName [] = true) :
    ∃ t', importAndConvert env imageName (some dc0) (tileTag zp p) t1 = .ok (true, t') ∧
      sameSettings t t' ∧
      steps t'.trace = steps t1.trace ++ [Step.run "ReadImage"] ++
        (if t.convertToGrayScale then [Step.run "RGBToGray"] else []) ∧
      (t.convertToGrayScale = true → ∃ d, t'.dataContainerArray = some d ∧
        hasArrays d t.dataContainerName t.imageAttributeMatrixName [] = true) := by
  have himp := importImage_spec env imageName (tileTag zp p) dc0.name t1 reader hreader
  simp only [importAndConvert, bind, Except.bind, deref, pure, Except.pure]
  generalize importImage env imageName (tileTag zp p) dc0.name t1 = t2 at himp ⊢
  obtain ⟨s2, tr2, _, acc2⟩ := himp
  have s12 : sameSettings t t2 := sameSettings_trans s1 s2
  have hg2 : t2.convertToGrayScale = t.convertToGrayScale := s12.2.2.2.1
  cases hg : t.convertToGrayScale with
  | false =>
    rw [hg] at hg2
    simp only [hg2, Bool.false_eq_true, if_false]
    refine ⟨t2, rfl, s12, ?_, fun h => absurd h (by simp)⟩
    simp [tr2]
  | true =>
    rw [hg] at hg2
    simp only [hg2, if_true]
    obtain ⟨reader', conv, hr', hc, hacc, hacc', hbr, hbc⟩ := hgray hg
    rw [hreader] at hr'
    injection hr' with hr'
    subst hr'
    obtain ⟨d1, hd1, ha1⟩ := inv1 hg
    have hd2 := acc2 hacc
    rw [hd1, Option.map_some', hname, s1.2.2.1] at hd2
    have ha2 := hbr t1.inPreflight
      (env.absoluteDirPath t1.inputFile ++ "/" ++
        (completeBaseName imageName ++ "_" ++ tileTag zp p ++ "." ++ fileSuffix imageName))
      (completeBaseName imageName ++ "_" ++ tileTag zp p) d1 ha1
    generalize reader.run t1.inPreflight
      [("InputFileName", QVariant.string (env.absoluteDirPath t1.inputFile ++ "/" ++
          (completeBaseName imageName ++ "_" ++ tileTag zp p ++ "." ++ fileSuffix imageName))),
       ("DataContainerName", QVariant.string t.dataContainerName),
       ("CellAttributeMatrixName", QVariant.string t.imageAttributeMatrixName),
       ("ImageDataArrayName", QVariant.string (completeBaseName imageName ++ "_" ++
          tileTag zp p))] d1 = d2 at hd2 ha2
    have ha3 := hbc t2.inPreflight (completeBaseName imageName ++ "_" ++ tileTag zp p) d2 ha2
    have hrun : hasArrays (conv.run t2.inPreflight
        [("SelectedCellArrayArrayPath", .dataArrayPath t2.dataContainerName
            t2.imageAttributeMatrixName (completeBaseName imageName ++ "_" ++ tileTag zp p)),
         ("ColorWeights", .floatVec3 t2.colorWeights),
         ("NewCellArrayName", .string k_GrayScaleTempArrayName)] d2)
        t2.dataContainerName t2.imageAttributeMatrixName
        [completeBaseName imageName ++ "_" ++ tileTag zp p, k_GrayScaleTempArrayName] = true := by
      rw [s12.2.1, s12.2.2.1, s12.2.2.2.2.1]
      exact ha3
    obtain ⟨t3, e3, s3, tr3, d3, hd3, ha3'⟩ := convertToGrayScale_spec env imageName
      (tileTag zp p) dc0.name t2 conv d2 hc hacc' hd2
      (arrayName_ne_temp (completeBaseName imageName) zp p) hrun
    rw [e3]
    refine ⟨t3, rfl, sameSettings_trans s12 s3, ?_, fun _ => ⟨d3, hd3, ?_⟩⟩
    · rw [tr3, tr2]
    · rw [s12.2.1, s12.2.2.1] at ha3'
      exact ha3'

theorem processTile_spec (env : Env) (imageCount : Int) (imageName : String)
    (dc0 : DataContainer) (zp p : Nat) (sec : ZeissTagsXmlSection) (t : ZeissImportFilter)
    (dca : DataContainerArray) (reader : SubFilter)
    (hi : hasInt32 sec env.imageTileIndexId = true)
    (hdims : p = 0 → hasInt32 sec env.imageWidthPixelId = true ∧
      hasInt32 sec env.imageHeightPixelId = true)
    (hdc : getDataContainer dca t.dataContainerName = some dc0)
    (hreader : env.getFactoryForFilter "ReadImage" = some reader)
    (hgray : t.convertToGrayScale = true → collaboratorsServeGrayScale env t)
    (hp0 : p = 0 → t.dataContainerArray = some dca)
    (hinv : t.convertToGrayScale = true → 0 < p → ∃ d, t.dataContainerArray = some d ∧
      hasArrays d t.dataContainerName t.imageAttributeMatrixName [] = true) :
    ∃ t', processTile env imageCount imageName (some dc0) p (tileTag zp p) sec t =
        .ok (true, t') ∧ sameSettings t t' ∧
      steps t'.trace = steps t.trace ++ [Step.run "ReadImage"] ++
        (if t.convertToGrayScale then [Step.run "RGBToGray"] else []) ∧
      (t.convertToGrayScale = true → ∃ d, t'.dataContainerArray = some d ∧
        hasArrays d t.dataContainerName t.imageAttributeMatrixName [] = true) := by
  obtain ⟨v, hv⟩ := hasInt32_elim _ _ hi
  have hname : dc0.name = t.dataContainerName := getDataContainer_name _ _ _ hdc
  have hblock : ∃ t1, (if p = 0 then createTileMatrices env imageCount (some dc0) sec t
        else pure t) = Except.ok t1 ∧ sameSettings t t1 ∧ t1.trace = t.trace ∧
      (t.convertToGrayScale = true → ∃ d, t1.dataContainerArray = some d ∧
        hasArrays d t.dataContainerName t.imageAttributeMatrixName [] = true) := by
    by_cases h0 : p = 0
    · obtain ⟨t1, e1, s1, tr1, d1, hd1, ha1⟩ := createTileMatrices_spec env imageCount dc0 sec t
        dca (hdims h0).1 (hdims h0).2 (hp0 h0) hdc
      exact ⟨t1, by rw [if_pos h0, e1], s1, tr1, fun _ => ⟨d1, hd1, ha1⟩⟩
    · exact ⟨t, by rw [if_neg h0]; rfl, sameSettings_refl t, rfl,
        fun hg => hinv hg (Nat.pos_of_ne_zero h0)⟩
  obtain ⟨t1, e1, s1, tr1, inv1⟩ := hblock
  obtain ⟨t', e', s', tr', inv'⟩ := importAndConvert_spec env imageName dc0 zp p t t1 reader
    hname hreader hgray s1 inv1
  refine ⟨t', ?_, s', by rw [tr', tr1], inv'⟩
  unfold processTile
  simp only [hv, qAssert, Option.isSome_some, Bool.not_true, Bool.and_false,
    Bool.false_eq_true, if_false, bind, Except.bind, addMetaData]
  by_cases h0 : p = 0
  · subst h0
    rw [if_pos rfl] at e1 ⊢
    rw [e1]
    exact e'
  · rw [if_neg h0] at e1 ⊢
    cases e1
    exact e'

theorem collaboratorsServeGrayScale_of_sameSettings (env : Env) (a b : ZeissImportFilter)
    (h : sameSettings a b) (hc : collaboratorsServeGrayScale env a) :
    collaboratorsServeGrayScale env b := by
  unfold collaboratorsServeGrayScale at hc ⊢
  rw [h.2.1, h.2.2.1, h.2.2.2.2.1]
  exact hc

theorem parseImagesBody_spec (env : Env) (root : QDomElement) (imageCount : Int)
    (imageName : String) (dc0 : DataContainer) (zp p : Nat) (t : ZeissImportFilter)
    (dca : DataContainerArray) (reader : SubFilter)
    (hwf : wellFormedTile env root zp p = true)
    (hdc : getDataContainer dca t.dataContainerName = some dc0)
    (hreader : env.getFactoryForFilter "ReadImage" = some reader)
    (hgray : t.convertToGrayScale = true → collaboratorsServeGrayScale env t)
    (hp0 : p = 0 → t.dataContainerArray = some dca)
    (hinv : t.convertToGrayScale = true → 0 < p → ∃ d, t.dataContainerArray = some d ∧
      hasArrays d t.dataContainerName t.imageAttributeMatrixName [] = true) :
    ∃ t', parseImagesBody env root imageCount imageName zp (some dc0) p t = .ok (true, t') ∧
      sameSettings t t' ∧
      steps t'.trace = steps t.trace ++ tileSteps t.convertToGrayScale imageCount p ∧
      (t.convertToGrayScale = true → ∃ d, t'.dataContainerArray = some d ∧
        hasArrays d t.dataContainerName t.imageAttributeMatrixName [] = true) := by
  unfold wellFormedTile tileSection at hwf
  cases h1 : firstChildElement root (tileTag zp p) with
  | none => simp [h1] at hwf
  | some photoEle =>
    cases h2 : firstChildElement photoEle Xml.Tags with
    | none => simp [h1, h2] at hwf
    | some tags =>
      cases h3 : toInt (text (firstChildElement tags Xml.Count)) with
      | none => simp [h1, h2, h3] at hwf
      | some count =>
        simp only [h1, h2, h3, Option.map_some', Bool.and_eq_true, Bool.or_eq_true,
          bne_iff_ne, ne_eq] at hwf
        obtain ⟨hi, hdims⟩ := hwf
        have hdims' : p = 0 → hasInt32 (parseTagsLoop env tags 0 count.toNat [])
            env.imageWidthPixelId = true ∧
            hasInt32 (parseTagsLoop env tags 0 count.toNat []) env.imageHeightPixelId = true := by
          intro h0
          rcases hdims with h | h
          · exact absurd h0 h
          · exact h
        obtain ⟨t', e', s', tr', inv'⟩ := processTile_spec env imageCount imageName dc0 zp p
          (parseTagsLoop env tags 0 count.toNat [])
          (t.notifyStatusMessage (importingText p imageCount)) dca reader hi hdims' hdc hreader
          hgray hp0 hinv
        refine ⟨t', ?_, s', ?_, inv'⟩
        · simp only [parseImagesBody, h1, h2, parseTagsSection, h3]
          exact e'
        · rw [tr']
          simp [ZeissImportFilter.notifyStatusMessage, steps_append, steps, stepOf, tileSteps]

theorem forLoop_invariant {σ : Type} (body : Nat → σ → Except Fault (Bool × σ))
    (Inv : Nat → σ → Prop) (n : Nat) :
    ∀ (a : Nat) (s : σ), Inv a s →
      (∀ p t, a ≤ p → p < a + n → Inv p t → ∃ t', body p t = .ok (true, t') ∧ Inv (p + 1) t') →
      ∃ s', forLoop body a n s = .ok (true, s') ∧ Inv (a + n) s' := by
  induction n with
  | zero => intro a s h _; exact ⟨s, rfl, h⟩
  | succ n ih =>
    intro a s h hstep
    obtain ⟨t', e', i'⟩ := hstep a s (le_refl a) (by omega) h
    obtain ⟨s', e2, i2⟩ := ih (a + 1) t' i'
      (fun p t h1 h2 hi => hstep p t (by omega) (by omega) hi)
    refine ⟨s', ?_, ?_⟩
    · simp only [forLoop, e']
      exact e2
    · have : a + (n + 1) = a + 1 + n := by omega
      rw [this]
      exact i2

theorem sample_addArray_hasArrays (dc am array typeName : String) (keys : List String)
    (d : DataContainerArray) (h : hasArrays d dc am keys = true) :
    hasArrays (Sample.addArray dc am array typeName d) dc am (keys ++ [array]) = true := by
  obtain ⟨c, m, hc, hm, hk⟩ := hasArrays_elim _ _ _ _ h
  have hname := getDataContainer_name _ _ _ hc
  have hget := getDataContainer_setDataContainer d dc c
    (c.setAttributeMatrix am (m.addAttributeArray array ⟨array, 0, false, typeName⟩)) hc hname
  unfold Sample.addArray hasArrays
  simp only [hc, hm]
  rw [hget]
  simp only [DataContainer.getAttributeMatrix, DataContainer.setAttributeMatrix,
    findKey_assignKey, if_true, AttributeMatrix.addAttributeArray, List.all_eq_true,
    List.mem_append, List.mem_singleton]
  intro k hkm
  rcases hkm with hkm | hkm
  · obtain ⟨a, ha⟩ := hk k hkm
    split_ifs <;> simp [ha]
  · simp [hkm]

theorem sample_collaborators_serve (asserts gray : Bool) :
    collaboratorsServeGrayScale (Sample.env asserts) (Sample.filter gray) := by
  refine ⟨Sample.reader, Sample.converter, rfl, rfl, fun _ _ => rfl, fun _ _ => rfl, ?_, ?_⟩
  · intro pre path name d h
    exact sample_addArray_hasArrays _ _ name "rgb" [] d h
  · intro pre name d h
    exact sample_addArray_hasArrays _ _ k_GrayScaleTempArrayName "gray" [name] d h

/-! ## What a failed tile leaves behind -/

theorem parseImagesBody_of_no_section (env : Env) (root : QDomElement) (imageCount : Int)
    (imageName : String) (zp : Nat) (dc : Option DataContainer) (p : Nat)
    (s : ZeissImportFilter) (h : tileSection env root zp p = none) :
    ∃ s', parseImagesBody env root imageCount imageName zp dc p s = .ok (false, s') ∧
      s'.dataContainerArray = s.dataContainerArray ∧ sameSettings s s' ∧
      (s'.errorCondition = -70002 ∨ s'.errorCondition = -70003 ∨
        s'.errorCondition = -70004) := by
  unfold tileSection at h
  cases h1 : firstChildElement root (tileTag zp p) with
  | none =>
    refine ⟨(s.notifyStatusMessage (importingText p imageCount)).reportError (-70002)
      (missingTileText (tileTag zp p)), ?_, rfl, ⟨rfl, rfl, rfl, rfl, rfl, rfl⟩, Or.inl rfl⟩
    simp only [parseImagesBody, h1]
  | some photoEle =>
    cases h2 : firstChildElement photoEle Xml.Tags with
    | none =>
      refine ⟨(s.notifyStatusMessage (importingText p imageCount)).reportError (-70003)
        (missingTileTagsText (tileTag zp p)), ?_, rfl, ⟨rfl, rfl, rfl, rfl, rfl, rfl⟩,
        Or.inr (Or.inl rfl)⟩
      simp only [parseImagesBody, h1, h2]
    | some tags =>
      cases h3 : toInt (text (firstChildElement tags Xml.Count)) with
      | none =>
        refine ⟨(((s.notifyStatusMessage (importingText p imageCount)).reportError (-70001)
          "Error Parsing 'Count' Tag in Root 'Tags' DOM element").reportError (-70004)
          (tileTagsErrorText (tileTag zp p))), ?_, rfl, ⟨rfl, rfl, rfl, rfl, rfl, rfl⟩,
          Or.inr (Or.inr rfl)⟩
        simp only [parseImagesBody, h1, h2, parseTagsSection, h3]
      | some count => simp [h1, h2, h3] at h

/-- C11 (as stated, refuted): the document announces two tiles and lacks the second; the
parse ends with error -70002, and the data container still holds the tile attribute
matrix with the image array of tile 0 and the meta-data matrix with its arrays. -/
theorem parseImages_failure_keeps_first_tile :
    (parseImages (Sample.env false) Sample.missingSecondTile Sample.globalSection
        (Sample.filter false)).toOption.map (fun s' => (s'.errorCondition,
          s'.dataContainerArray.map (fun d =>
            (hasArrays d "Zeiss Axio Vision Montage" "Tile AttributeMatrix" ["set_p0"],
             hasArrays d "Zeiss Axio Vision Montage" "Tile AttributeMatrix_MetaData"
              ["Tag3", "Tag4", "Tag5"])))) = some (-70002, some (true, true)) := by
  decide

/-- C11 (amended): when the loop of `parseImages` has gone through the tiles before
`p < imageCount` (leaving the filter in state `s1`) and tile `p` fails (its element is
missing, the element has no `<Tags>`, or the `Count` of its `<Tags>` does not parse),
`parseImages` ends with error code -70002, -70003 or -70004 and discards nothing: the
data container array is exactly the one of `s1`, attribute matrices and arrays of the
tiles before `p` included. -/
theorem parseImages_failure_discards_nothing (env : Env) (root : QDomElement)
    (sec : ZeissTagsXmlSection) (s s1 : ZeissImportFilter) (imageCount : Int)
    (imageName : String) (dca : DataContainerArray) (p : Nat)
    (hc : convertInt32 (ZeissTagsXmlSection.getEntry sec env.imageCountRawId) = some imageCount)
    (hn : castString (ZeissTagsXmlSection.getEntry sec env.filenameId) = some imageName)
    (hd : s.dataContainerArray = some dca)
    (hp : (p : Int) < imageCount)
    (hreach : forLoop (parseImagesBody env root imageCount imageName (zeroPadding imageCount)
      (getDataContainer dca s.dataContainerName)) 0 p s = .ok (true, s1))
    (hfail : tileSection env root (zeroPadding imageCount) p = none) :
    ∃ s', parseImages env root sec s = .ok s' ∧
      s'.dataContainerArray = s1.dataContainerArray ∧
      (s'.errorCondition = -70002 ∨ s'.errorCondition = -70003 ∨
        s'.errorCondition = -70004) := by
  obtain ⟨k, hk⟩ : ∃ k : Nat, imageCount.toNat = p + (k + 1) :=
    ⟨imageCount.toNat - p - 1, by omega⟩
  obtain ⟨s', hb, hdca, _, hcode⟩ := parseImagesBody_of_no_section env root imageCount
    imageName (zeroPadding imageCount) (getDataContainer dca s.dataContainerName) p s1 hfail
  refine ⟨s', ?_, hdca, hcode⟩
  rw [parseImages_of_entries env root sec s imageCount imageName dca hc hn hd, hk, forLoop_add,
    hreach]
  simp only [Nat.zero_add, forLoop, hb, Except.map]

/-- Witness for C11 (amended): two tiles announced, the second with an unreadable `Count`. -/
theorem parseImages_failure_discards_nothing_witness :
    tileSection (Sample.env false) Sample.secondTileBadCount (zeroPadding 2) 1 = none ∧
      ∃ s', parseImages (Sample.env false) Sample.secondTileBadCount Sample.globalSection
          (Sample.filter false) = .ok s' ∧
        s'.dataContainerArray =
          (Sample.afterFirstTile Sample.secondTileBadCount).dataContainerArray ∧
        (s'.errorCondition = -70002 ∨ s'.errorCondition = -70003 ∨
          s'.errorCondition = -70004) :=
  ⟨by decide,
    parseImages_failure_discards_nothing (Sample.env false) Sample.secondTileBadCount
      Sample.globalSection (Sample.filter false)
      (Sample.afterFirstTile Sample.secondTileBadCount) 2 "set.jpg"
      [⟨"Zeiss Axio Vision Montage", []⟩] 1 (by decide) (by decide) (by decide) (by decide)
      (by decide) (by decide)⟩

/-! ## Meta-data values and the matrices of the first tile -/

/-- C12 (the code at the failing input): `addMetaData` hands back the filter it was given,
whatever the matrix, section and index; after the parse of the two-tile document the
arrays of the meta-data matrix are the ones created and resized for the first tile, and
nothing was written to them for tile 0 or tile 1. -/
theorem addMetaData_writes_nothing :
    (∀ (metaName : String) (sec : ZeissTagsXmlSection) (p : Nat) (s : ZeissImportFilter),
        addMetaData metaName sec p s = s) ∧
      Sample.arraysOf "Tile AttributeMatrix_MetaData"
        (readMetaXml (Sample.env false) (.document Sample.twoTiles) (Sample.filter false)) =
        some (Sample.firstTileSection.map (fun x =>
          ((Sample.env false).nameForId x.2.zeissIdTag,
            { createDataArray (Sample.env false) x.2 false with numberOfTuples := 2 }))) :=
  ⟨fun _ _ _ _ => rfl, by decide⟩

theorem assignKey_of_not_mem {α : Type} (k : String) (v : α) (m : List (String × α))
    (h : k ∉ m.map Prod.fst) : assignKey k v m = m ++ [(k, v)] := by
  induction m with
  | nil => rfl
  | cons hd rest ih =>
    obtain ⟨k1, v1⟩ := hd
    simp only [List.map_cons, List.mem_cons, not_or] at h
    have h1 : ¬ k1 = k := fun e => h.1 e.symm
    simp only [assignKey, h1, if_false, ih h.2, List.cons_append]

theorem addMetaDataArrays_eq (env : Env) (imageCount : Int) (allocate : Bool)
    (sec : ZeissTagsXmlSection) :
    ∀ (am : AttributeMatrix),
      ((am.arrays.map Prod.fst) ++
        sec.map (fun x => env.nameForId x.2.zeissIdTag)).Nodup →
      addMetaDataArrays env imageCount allocate sec am =
        { am with arrays := am.arrays ++ sec.map (fun x =>
            (env.nameForId x.2.zeissIdTag,
              { createDataArray env x.2 allocate with numberOfTuples := sizeT imageCount })) } := by
  induction sec with
  | nil => intro am _; simp [addMetaDataArrays]
  | cons hd rest ih =>
    intro am hnd
    obtain ⟨k, entry⟩ := hd
    have hnot : env.nameForId entry.zeissIdTag ∉ am.arrays.map Prod.fst := by
      intro hmem
      rw [List.nodup_append] at hnd
      exact hnd.2.2 hmem (by simp)
    simp only [addMetaDataArrays, AttributeMatrix.addAttributeArray, createDataArray]
    rw [ih]
    · simp only [assignKey_of_not_mem _ _ _ hnot, List.map_cons, List.append_assoc,
        List.singleton_append, createDataArray]
    · simp only [assignKey_of_not_mem _ _ _ hnot, List.map_append, List.map_cons, List.map_nil,
        List.append_assoc, List.singleton_append]
      simpa using hnd

theorem append_ne_self (a b : String) (h : b ≠ "") : a ++ b ≠ a := by
  intro e
  have hl := congrArg String.length e
  rw [String.length_append] at hl
  have : b.length = 0 := by omega
  apply h
  apply String.ext
  exact List.length_eq_zero.mp this

theorem sizeT_of_nonneg (v : Int) (h0 : 0 ≤ v) (h1 : v < 2 ^ 64) : sizeT v = v.toNat := by
  unfold sizeT
  rw [Int.emod_eq_of_lt h0 h1]

/-- C13: on the first tile `parseImages` creates the tile attribute matrix with tuple
dimensions (width, height, 1) taken from that tile's width and height entries (so
width x height tuples), and the meta-data matrix with tuple dimension [imageCount] that
holds exactly one array per entry of the tile's section, each resized to `imageCount`;
every other matrix of the container is left as it was.  For a tile `p ≥ 1` the body
consists of the assertion and the two collaborator steps only: it creates no attribute
matrix and adds no meta-data array. -/
theorem parseImages_first_tile_creates_matrices (env : Env) (imageCount : Int)
    (imageName : String) (dc0 : DataContainer) (sec : ZeissTagsXmlSection)
    (t : ZeissImportFilter) (dca : DataContainerArray) (w h : Int)
    (hw : convertInt32 (ZeissTagsXmlSection.getEntry sec env.imageWidthPixelId) = some w)
    (hh : convertInt32 (ZeissTagsXmlSection.getEntry sec env.imageHeightPixelId) = some h)
    (hd : t.dataContainerArray = some dca)
    (hdc : getDataContainer dca t.dataContainerName = some dc0)
    (hsuffix : env.metaDataSuffix ≠ "")
    (hnames : (sec.map (fun x => env.nameForId x.2.zeissIdTag)).Nodup) :
    (∃ d' dc', createTileMatrices env imageCount (some dc0) sec t =
          .ok { t with dataContainerArray := some d' } ∧
        getDataContainer d' t.dataContainerName = some dc' ∧
        dc'.getAttributeMatrix t.imageAttributeMatrixName =
          some { name := t.imageAttributeMatrixName, tupleDims := [sizeT w, sizeT h, 1],
                 arrays := [] } ∧
        dc'.getAttributeMatrix (t.imageAttributeMatrixName ++ env.metaDataSuffix) =
          some { name := t.imageAttributeMatrixName ++ env.metaDataSuffix,
                 tupleDims := [sizeT imageCount],
                 arrays := sec.map (fun x => (env.nameForId x.2.zeissIdTag,
                   { createDataArray env x.2 (!t.inPreflight) with
                     numberOfTuples := sizeT imageCount })) } ∧
        ∀ k, k ≠ t.imageAttributeMatrixName →
          k ≠ t.imageAttributeMatrixName ++ env.metaDataSuffix →
          dc'.getAttributeMatrix k = dc0.getAttributeMatrix k) ∧
      (0 ≤ w → w < 2 ^ 64 → sizeT w = w.toNat) ∧ (0 ≤ h → h < 2 ^ 64 → sizeT h = h.toNat) ∧
      (∀ (dc : Option DataContainer) (pTag : String) (s : ZeissImportFilter),
        processTile env imageCount imageName dc 0 pTag sec s =
          (do
            qAssert env (hasInt32 sec env.imageTileIndexId)
            let s1 ← createTileMatrices env imageCount dc sec s
            importAndConvert env imageName dc pTag s1)) ∧
      (∀ (dc : Option DataContainer) (p : Nat) (pTag : String) (s : ZeissImportFilter),
        1 ≤ p →
        processTile env imageCount imageName dc p pTag sec s =
          (do
            qAssert env (hasInt32 sec env.imageTileIndexId)
            importAndConvert env imageName dc pTag s)) := by
  have hname : dc0.name = t.dataContainerName := getDataContainer_name _ _ _ hdc
  have hne : t.imageAttributeMatrixName ++ env.metaDataSuffix ≠ t.imageAttributeMatrixName :=
    append_ne_self _ _ hsuffix
  refine ⟨?_, sizeT_of_nonneg w, sizeT_of_nonneg h, ?_, ?_⟩
  · have hfill := addMetaDataArrays_eq env imageCount (!t.inPreflight) sec
      { name := t.imageAttributeMatrixName ++ env.metaDataSuffix,
        tupleDims := [sizeT imageCount], arrays := [] } (by simpa using hnames)
    have hx : (((dc0.createAndAddAttributeMatrix [sizeT w, sizeT h, 1]
        t.imageAttributeMatrixName).createAndAddAttributeMatrix [sizeT imageCount]
        (t.imageAttributeMatrixName ++ env.metaDataSuffix)).setAttributeMatrix
        (t.imageAttributeMatrixName ++ env.metaDataSuffix)
        { name := t.imageAttributeMatrixName ++ env.metaDataSuffix,
          tupleDims := [sizeT imageCount],
          arrays := sec.map (fun x => (env.nameForId x.2.zeissIdTag,
            { createDataArray env x.2 (!t.inPreflight) with
              numberOfTuples := sizeT imageCount })) }).name = t.dataContainerName := hname
    refine ⟨setDataContainer dca t.dataContainerName
      (((dc0.createAndAddAttributeMatrix [sizeT w, sizeT h, 1]
        t.imageAttributeMatrixName).createAndAddAttributeMatrix [sizeT imageCount]
        (t.imageAttributeMatrixName ++ env.metaDataSuffix)).setAttributeMatrix
        (t.imageAttributeMatrixName ++ env.metaDataSuffix)
        { name := t.imageAttributeMatrixName ++ env.metaDataSuffix,
          tupleDims := [sizeT imageCount],
          arrays := sec.map (fun x => (env.nameForId x.2.zeissIdTag,
            { createDataArray env x.2 (!t.inPreflight) with
              numberOfTuples := sizeT imageCount })) }),
      (((dc0.createAndAddAttributeMatrix [sizeT w, sizeT h, 1]
        t.imageAttributeMatrixName).createAndAddAttributeMatrix [sizeT imageCount]
        (t.imageAttributeMatrixName ++ env.metaDataSuffix)).setAttributeMatrix
        (t.imageAttributeMatrixName ++ env.metaDataSuffix)
        { name := t.imageAttributeMatrixName ++ env.metaDataSuffix,
          tupleDims := [sizeT imageCount],
          arrays := sec.map (fun x => (env.nameForId x.2.zeissIdTag,
            { createDataArray env x.2 (!t.inPreflight) with
              numberOfTuples := sizeT imageCount })) }),
      ?_, getDataContainer_setDataContainer dca t.dataContainerName dc0 _ hdc hx, ?_, ?_, ?_⟩
    · simp only [createTileMatrices, getImageDimensions, hw, hh, qAssert, deref, bind,
        Except.bind, pure, Except.pure, Option.isSome_some, Bool.not_true, Bool.and_false,
        Bool.false_eq_true, if_false, hd, Option.map_some', hfill, List.nil_append]
      rw [hx]
    · simp only [DataContainer.getAttributeMatrix, DataContainer.setAttributeMatrix,
        DataContainer.createAndAddAttributeMatrix, findKey_assignKey, hne, if_false, if_true]
    · simp only [DataContainer.getAttributeMatrix, DataContainer.setAttributeMatrix,
        DataContainer.createAndAddAttributeMatrix, findKey_assignKey, if_true]
    · intro k hk1 hk2
      have h1 : ¬ t.imageAttributeMatrixName = k := fun e => hk1 e.symm
      have h2 : ¬ t.imageAttributeMatrixName ++ env.metaDataSuffix = k := fun e => hk2 e.symm
      simp only [DataContainer.getAttributeMatrix, DataContainer.setAttributeMatrix,
        DataContainer.createAndAddAttributeMatrix, findKey_assignKey, h1, h2, if_false]
  · intro dc pTag s
    simp only [processTile, hasInt32, if_true, addMetaData]
  · intro dc p pTag s hp
    have hp0 : p ≠ 0 := by omega
    simp only [processTile, hasInt32, hp0, if_false, addMetaData, bind, Except.bind, pure,
      Except.pure]

/-- Witness for C13: the first tile of the sample set, 4 x 3 pixels, for a count of two. -/
theorem parseImages_first_tile_creates_matrices_witness :
    ∃ d' dc', createTileMatrices (Sample.env false) 2
          (some ⟨"Zeiss Axio Vision Montage", []⟩) Sample.firstTileSection
          (Sample.filter false) =
          .ok { Sample.filter false with dataContainerArray := some d' } ∧
        getDataContainer d' (Sample.filter false).dataContainerName = some dc' ∧
        dc'.getAttributeMatrix (Sample.filter false).imageAttributeMatrixName =
          some { name := (Sample.filter false).imageAttributeMatrixName,
                 tupleDims := [sizeT 4, sizeT 3, 1], arrays := [] } ∧
        dc'.getAttributeMatrix ((Sample.filter false).imageAttributeMatrixName ++
            (Sample.env false).metaDataSuffix) =
          some { name := (Sample.filter false).imageAttributeMatrixName ++
                   (Sample.env false).metaDataSuffix,
                 tupleDims := [sizeT 2],
                 arrays := Sample.firstTileSection.map (fun x =>
                   ((Sample.env false).nameForId x.2.zeissIdTag,
                   { createDataArray (Sample.env false) x.2
                       (!(Sample.filter false).inPreflight) with
                     numberOfTuples := sizeT 2 })) } ∧
        ∀ k, k ≠ (Sample.filter false).imageAttributeMatrixName →
          k ≠ (Sample.filter false).imageAttributeMatrixName ++
            (Sample.env false).metaDataSuffix →
          dc'.getAttributeMatrix k =
            DataContainer.getAttributeMatrix ⟨"Zeiss Axio Vision Montage", []⟩ k :=
  (parseImages_first_tile_creates_matrices (Sample.env false) 2 "set.jpg"
    ⟨"Zeiss Axio Vision Montage", []⟩ Sample.firstTileSection (Sample.filter false)
    [⟨"Zeiss Axio Vision Montage", []⟩] 4 3 (by decide) (by decide) (by decide) (by decide)
    (by decide) (by decide)).1

/-! ## The two collaborator steps in detail -/

theorem convertToGrayScale_eq (env : Env) (imageName pTag dcName : String)
    (s : ZeissImportFilter) :
    convertToGrayScale env imageName pTag dcName s =
      match env.getFactoryForFilter "RGBToGray" with
      | some filter =>
        replaceByGrayScale (completeBaseName imageName ++ "_" ++ pTag)
          (requestGrayScale filter (completeBaseName imageName ++ "_" ++ pTag) s)
      | none => .ok (s.reportError (-70009) missingFactoryText) := by
  simp only [convertToGrayScale]
  cases env.getFactoryForFilter "RGBToGray" <;> rfl

theorem replaceByGrayScale_keeps (dataArrayName : String) (u t' : ZeissImportFilter)
    (h : replaceByGrayScale dataArrayName u = .ok t') :
    t'.trace = u.trace ∧ t'.errorCondition = u.errorCondition ∧ sameSettings u t' := by
  simp only [replaceByGrayScale, bind, Except.bind, pure, Except.pure] at h
  repeat' split at h
  all_goals (cases h; try exact ⟨rfl, rfl, rfl, rfl, rfl, rfl, rfl, rfl⟩)

theorem assignProperty_errorCondition (filter : SubFilter)
    (filtName property reported : String) (code : Int) (value : QVariant)
    (st : ZeissImportFilter × List (String × QVariant)) :
    (assignProperty filter filtName property reported code value st).1.errorCondition =
      if filter.setProperty property value = false then code else st.1.errorCondition := by
  unfold assignProperty
  cases filter.setProperty property value <;> rfl

theorem assignProperty_requests (filter : SubFilter)
    (filtName property reported : String) (code : Int) (value : QVariant)
    (st : ZeissImportFilter × List (String × QVariant)) :
    requests (assignProperty filter filtName property reported code value st).1.trace =
      requests st.1.trace ++ [Request.assign filtName property] := by
  unfold assignProperty
  cases filter.setProperty property value <;>
    simp [requests, requestOf, ZeissImportFilter.reportError,
      ZeissImportFilter.setErrorCondition, ZeissImportFilter.notifyErrorMessage,
      List.filterMap_append]

theorem runSubFilter_requests (filter : SubFilter) (filtName : String)
    (props : List (String × QVariant)) (t : ZeissImportFilter) :
    requests (runSubFilter filter filtName props t).trace =
        requests t.trace ++ [Request.run filtName] ∧
      (runSubFilter filter filtName props t).errorCondition = t.errorCondition := by
  unfold runSubFilter
  cases h : t.inPreflight <;> simp [requests, requestOf, List.filterMap_append]

/-- C16: in `importImage` and in `convertToGrayScale`, whatever each property assignment
answers, the requests made of the sub-filter are always the same: every property is
assigned, in order, and the sub-filter is then run exactly once. -/
theorem property_failure_does_not_abort (env : Env) (imageName pTag dcName : String)
    (s : ZeissImportFilter) (reader conv : SubFilter)
    (hr : env.getFactoryForFilter "ReadImage" = some reader)
    (hc : env.getFactoryForFilter "RGBToGray" = some conv) :
    requests (importImage env imageName pTag dcName s).trace = requests s.trace ++
        [Request.assign "ReadImage" "InputFileName",
         Request.assign "ReadImage" "DataContainerName",
         Request.assign "ReadImage" "CellAttributeMatrixName",
         Request.assign "ReadImage" "ImageDataArrayName", Request.run "ReadImage"] ∧
      convertToGrayScale env imageName pTag dcName s =
        replaceByGrayScale (completeBaseName imageName ++ "_" ++ pTag)
          (requestGrayScale conv (completeBaseName imageName ++ "_" ++ pTag) s) ∧
      requests (requestGrayScale conv (completeBaseName imageName ++ "_" ++ pTag) s).trace =
        requests s.trace ++
          [Request.assign "RGBToGray" "SelectedCellArrayArrayPath",
           Request.assign "RGBToGray" "ColorWeights",
           Request.assign "RGBToGray" "NewCellArrayName", Request.run "RGBToGray"] ∧
      ∀ t', convertToGrayScale env imageName pTag dcName s = .ok t' →
        requests t'.trace = requests s.trace ++
          [Request.assign "RGBToGray" "SelectedCellArrayArrayPath",
           Request.assign "RGBToGray" "ColorWeights",
           Request.assign "RGBToGray" "NewCellArrayName", Request.run "RGBToGray"] := by
  have hgray : requests (requestGrayScale conv
      (completeBaseName imageName ++ "_" ++ pTag) s).trace = requests s.trace ++
        [Request.assign "RGBToGray" "SelectedCellArrayArrayPath",
         Request.assign "RGBToGray" "ColorWeights",
         Request.assign "RGBToGray" "NewCellArrayName", Request.run "RGBToGray"] := by
    simp only [requestGrayScale]
    rw [(runSubFilter_requests _ _ _ _).1, assignProperty_requests, assignProperty_requests,
      assignProperty_requests]
    simp
  have heq := convertToGrayScale_eq env imageName pTag dcName s
  rw [hc] at heq
  refine ⟨?_, heq, hgray, ?_⟩
  · simp only [importImage, hr]
    rw [(runSubFilter_requests _ _ _ _).1, assignProperty_requests, assignProperty_requests,
      assignProperty_requests, assignProperty_requests]
    simp
  · intro t' ht
    rw [heq] at ht
    rw [(replaceByGrayScale_keeps _ _ _ ht).1, hgray]

/-- Witness for C16: a reader that rejects two of its properties and a converter that
rejects one. -/
theorem property_failure_does_not_abort_witness :
    requests (importImage (Sample.envWith (some Sample.pickyReader)
        (some Sample.pickyConverter)) "set.jpg" "p0" "Zeiss Axio Vision Montage"
        (Sample.filter true)).trace = requests (Sample.filter true).trace ++
        [Request.assign "ReadImage" "InputFileName",
         Request.assign "ReadImage" "DataContainerName",
         Request.assign "ReadImage" "CellAttributeMatrixName",
         Request.assign "ReadImage" "ImageDataArrayName", Request.run "ReadImage"] ∧
      requests (requestGrayScale Sample.pickyConverter
        (completeBaseName "set.jpg" ++ "_" ++ "p0") (Sample.filter true)).trace =
        requests (Sample.filter true).trace ++
          [Request.assign "RGBToGray" "SelectedCellArrayArrayPath",
           Request.assign "RGBToGray" "ColorWeights",
           Request.assign "RGBToGray" "NewCellArrayName", Request.run "RGBToGray"] :=
  ⟨(property_failure_does_not_abort (Sample.envWith (some Sample.pickyReader)
      (some Sample.pickyConverter)) "set.jpg" "p0" "Zeiss Axio Vision Montage"
      (Sample.filter true) Sample.pickyReader Sample.pickyConverter rfl rfl).1,
   (property_failure_does_not_abort (Sample.envWith (some Sample.pickyReader)
      (some Sample.pickyConverter)) "set.jpg" "p0" "Zeiss Axio Vision Montage"
      (Sample.filter true) Sample.pickyReader Sample.pickyConverter rfl rfl).2.2.1⟩

theorem assignProperty_inPreflight (filter : SubFilter) (filtName property reported : String)
    (code : Int) (value : QVariant) (st : ZeissImportFilter × List (String × QVariant)) :
    (assignProperty filter filtName property reported code value st).1.inPreflight =
        st.1.inPreflight ∧
      (assignProperty filter filtName property reported code value st).1.colorWeights =
        st.1.colorWeights ∧
      (assignProperty filter filtName property reported code value st).1.imageAttributeMatrixName =
        st.1.imageAttributeMatrixName := by
  unfold assignProperty
  cases filter.setProperty property value <;>
    simp [ZeissImportFilter.reportError, ZeissImportFilter.setErrorCondition,
      ZeissImportFilter.notifyErrorMessage]

theorem errorTexts_append (a b : List Event) :
    errorTexts (a ++ b) = errorTexts a ++ errorTexts b := by
  simp [errorTexts]

theorem assignProperty_errorTexts (filter : SubFilter) (filtName property reported : String)
    (code : Int) (value : QVariant) (st : ZeissImportFilter × List (String × QVariant)) :
    errorTexts (assignProperty filter filtName property reported code value st).1.trace =
      errorTexts st.1.trace ++ rejectionReport filter filtName property reported code value := by
  unfold assignProperty rejectionReport
  cases filter.setProperty property value <;>
    simp [errorTexts, ZeissImportFilter.reportError, ZeissImportFilter.setErrorCondition,
      ZeissImportFilter.notifyErrorMessage]

theorem runSubFilter_errorTexts (filter : SubFilter) (filtName : String)
    (props : List (String × QVariant)) (t : ZeissImportFilter) :
    errorTexts (runSubFilter filter filtName props t).trace = errorTexts t.trace := by
  unfold runSubFilter
  cases h : t.inPreflight <;> simp [errorTexts_append, errorTexts]

/-- C17 (as stated, refuted): the reader rejects the property `InputFileName` (and
`CellAttributeMatrixName`); the error condition is 0 before `importImage` and -70007
after it.  With a converter that rejects `ColorWeights` the gray-scale step moves it
from 0 to -70006. -/
theorem importImage_rejected_property_sets_error :
    Sample.pickyReader.setProperty "InputFileName" (.string "/data/set_p0.jpg") = false ∧
      (Sample.filter true).errorCondition = 0 ∧
      (importImage (Sample.envWith (some Sample.pickyReader) (some Sample.pickyConverter))
        "set.jpg" "p0" "Zeiss Axio Vision Montage" (Sample.filter true)).errorCondition
        = -70007 ∧
      (requestGrayScale Sample.pickyConverter (completeBaseName "set.jpg" ++ "_" ++ "p0")
        (Sample.filter true)).errorCondition = -70006 := by
  decide

/-- C17 (amended): when a sub-filter rejects a property, the error condition of the
filter is set to the code of that property and one error message with that code is sent.
After `importImage` the error condition is the code of the last rejected property among
-70005, -70006, -70007, -70008, after the requests of `convertToGrayScale` the code of the
last rejected one among -70005, -70006, -70007, and it is the error condition from before
the call when nothing was rejected; the error messages added are, in the order of the
assignments, one per rejected property, with the code of that property; the swap of arrays
that ends `convertToGrayScale` touches neither the error condition nor the messages. -/
theorem rejected_property_sets_its_code (env : Env) (imageName pTag dcName : String)
    (s : ZeissImportFilter) (reader conv : SubFilter)
    (hr : env.getFactoryForFilter "ReadImage" = some reader)
    (hc : env.getFactoryForFilter "RGBToGray" = some conv) :
    (importImage env imageName pTag dcName s).errorCondition =
        (if reader.setProperty "ImageDataArrayName"
            (.string (completeBaseName imageName ++ "_" ++ pTag)) = false then -70008
         else if reader.setProperty "CellAttributeMatrixName"
            (.string s.imageAttributeMatrixName) = false then -70007
         else if reader.setProperty "DataContainerName" (.string dcName) = false then -70006
         else if reader.setProperty "InputFileName"
            (.string (env.absoluteDirPath s.inputFile ++ "/" ++
              (completeBaseName imageName ++ "_" ++ pTag ++ "." ++ fileSuffix imageName)))
            = false then -70005
         else s.errorCondition) ∧
      (requestGrayScale conv (completeBaseName imageName ++ "_" ++ pTag) s).errorCondition =
        (if conv.setProperty "NewCellArrayName" (.string k_GrayScaleTempArrayName) = false
          then -70007
         else if conv.setProperty "ColorWeights" (.floatVec3 s.colorWeights) = false
          then -70006
         else if conv.setProperty "SelectedCellArrayArrayPath"
            (.dataArrayPath s.dataContainerName s.imageAttributeMatrixName
              (completeBaseName imageName ++ "_" ++ pTag)) = false then -70005
         else s.errorCondition) ∧
      (∀ t', convertToGrayScale env imageName pTag dcName s = .ok t' →
        t'.errorCondition =
          (requestGrayScale conv (completeBaseName imageName ++ "_" ++ pTag)
            s).errorCondition ∧
        t'.trace =
          (requestGrayScale conv (completeBaseName imageName ++ "_" ++ pTag) s).trace) ∧
      errorTexts (importImage env imageName pTag dcName s).trace = errorTexts s.trace ++
        (rejectionReport reader "ReadImage" "InputFileName" "InputFileName" (-70005)
            (.string (env.absoluteDirPath s.inputFile ++ "/" ++
              (completeBaseName imageName ++ "_" ++ pTag ++ "." ++ fileSuffix imageName))) ++
          rejectionReport reader "ReadImage" "DataContainerName" "DataContainerName" (-70006)
            (.string dcName) ++
          rejectionReport reader "ReadImage" "CellAttributeMatrixName"
            "CellAttributeMatrixName" (-70007) (.string s.imageAttributeMatrixName) ++
          rejectionReport reader "ReadImage" "ImageDataArrayName" "ImageDataArrayName"
            (-70008) (.string (completeBaseName imageName ++ "_" ++ pTag))) ∧
      errorTexts (requestGrayScale conv (completeBaseName imageName ++ "_" ++ pTag) s).trace =
        errorTexts s.trace ++
        (rejectionReport conv "RGBToGray" "SelectedCellArrayArrayPath" "InputFileName"
            (-70005) (.dataArrayPath s.dataContainerName s.imageAttributeMatrixName
              (completeBaseName imageName ++ "_" ++ pTag)) ++
          rejectionReport conv "RGBToGray" "ColorWeights" "DataContainerName" (-70006)
            (.floatVec3 s.colorWeights) ++
          rejectionReport conv "RGBToGray" "NewCellArrayName" "CellAttributeMatrixName"
            (-70007) (.string k_GrayScaleTempArrayName)) := by
  have heq := convertToGrayScale_eq env imageName pTag dcName s
  rw [hc] at heq
  refine ⟨?_, ?_, ?_, ?_, ?_⟩
  · simp only [importImage, hr]
    rw [(runSubFilter_requests _ _ _ _).2, assignProperty_errorCondition,
      assignProperty_errorCondition, assignProperty_errorCondition,
      assignProperty_errorCondition]
    have h2 := (assignProperty_quiet reader "ReadImage" "DataContainerName" "DataContainerName"
      (-70006) (.string dcName)
      (assignProperty reader "ReadImage" "InputFileName" "InputFileName" (-70005)
        (.string (env.absoluteDirPath s.inputFile ++ "/" ++
          (completeBaseName imageName ++ "_" ++ pTag ++ "." ++ fileSuffix imageName)))
        (s, []))).1
    have h1 := (assignProperty_quiet reader "ReadImage" "InputFileName" "InputFileName" (-70005)
        (.string (env.absoluteDirPath s.inputFile ++ "/" ++
          (completeBaseName imageName ++ "_" ++ pTag ++ "." ++ fileSuffix imageName)))
        (s, [])).1
    rw [(sameSettings_trans h1 h2).2.2.1]
  · simp only [requestGrayScale]
    rw [(runSubFilter_requests _ _ _ _).2, assignProperty_errorCondition,
      assignProperty_errorCondition, assignProperty_errorCondition]
    have h1 := (assignProperty_quiet conv "RGBToGray" "SelectedCellArrayArrayPath"
      "InputFileName" (-70005) (.dataArrayPath s.dataContainerName s.imageAttributeMatrixName
        (completeBaseName imageName ++ "_" ++ pTag)) (s, [])).1
    rw [h1.2.2.2.2.1]
  · intro t' ht
    rw [heq] at ht
    exact ⟨(replaceByGrayScale_keeps _ _ _ ht).2.1, (replaceByGrayScale_keeps _ _ _ ht).1⟩
  · simp only [importImage, hr]
    rw [runSubFilter_errorTexts, assignProperty_errorTexts, assignProperty_errorTexts,
      assignProperty_errorTexts, assignProperty_errorTexts]
    simp only [assignProperty_inPreflight, List.append_assoc]
  · simp only [requestGrayScale]
    rw [runSubFilter_errorTexts, assignProperty_errorTexts, assignProperty_errorTexts,
      assignProperty_errorTexts]
    simp only [assignProperty_inPreflight, List.append_assoc]

/-- Witness for C17 (amended): the reader that rejects two properties sends the two
messages and ends with the code of the second; a reader that rejects `InputFileName` alone
sets -70005 again over a -70005 left by an earlier tile. -/
theorem rejected_property_sets_its_code_witness :
    (importImage (Sample.envWith (some Sample.pickyReader) (some Sample.pickyConverter))
        "set.jpg" "p0" "Zeiss Axio Vision Montage" (Sample.filter true)).errorCondition =
        (if Sample.pickyReader.setProperty "ImageDataArrayName"
            (.string (completeBaseName "set.jpg" ++ "_" ++ "p0")) = false then -70008
         else if Sample.pickyReader.setProperty "CellAttributeMatrixName"
            (.string (Sample.filter true).imageAttributeMatrixName) = false then -70007
         else if Sample.pickyReader.setProperty "DataContainerName"
            (.string "Zeiss Axio Vision Montage") = false then -70006
         else if Sample.pickyReader.setProperty "InputFileName"
            (.string ((Sample.envWith (some Sample.pickyReader)
              (some Sample.pickyConverter)).absoluteDirPath (Sample.filter true).inputFile ++
              "/" ++ (completeBaseName "set.jpg" ++ "_" ++ "p0" ++ "." ++
                fileSuffix "set.jpg"))) = false then -70005
         else (Sample.filter true).errorCondition) ∧
      errorTexts (importImage (Sample.envWith (some Sample.pickyReader)
          (some Sample.pickyConverter)) "set.jpg" "p0" "Zeiss Axio Vision Montage"
          (Sample.filter true)).trace =
        [(propertyErrorText "InputFileName" "ReadImage", -70005),
          (propertyErrorText "CellAttributeMatrixName" "ReadImage", -70007)] ∧
      (importImage (Sample.envWith (some Sample.pickyReader) (some Sample.pickyConverter))
        "set.jpg" "p0" "Zeiss Axio Vision Montage" (Sample.filter true)).errorCondition =
        -70007 ∧
      ((importImage (Sample.envWith (some Sample.inputRejectingReader) none)
          "set.jpg" "p1" "Zeiss Axio Vision Montage"
          { Sample.filter false with errorCondition := -70005 }).errorCondition = -70005 ∧
        errorTexts (importImage (Sample.envWith (some Sample.inputRejectingReader) none)
          "set.jpg" "p1" "Zeiss Axio Vision Montage"
          { Sample.filter false with errorCondition := -70005 }).trace =
          [(propertyErrorText "InputFileName" "ReadImage", -70005)]) :=
  ⟨(rejected_property_sets_its_code (Sample.envWith (some Sample.pickyReader)
      (some Sample.pickyConverter)) "set.jpg" "p0" "Zeiss Axio Vision Montage"
      (Sample.filter true) Sample.pickyReader Sample.pickyConverter rfl rfl).1,
    (rejected_property_sets_its_code (Sample.envWith (some Sample.pickyReader)
      (some Sample.pickyConverter)) "set.jpg" "p0" "Zeiss Axio Vision Montage"
      (Sample.filter true) Sample.pickyReader Sample.pickyConverter rfl rfl).2.2.2.1.trans
      (by decide),
    by decide, by decide, by decide⟩

/-- C18: when, after the converter ran, the tile matrix holds the image array (stored
under its own name) and the temporary array `gray_scale_temp`, `convertToGrayScale` ends
normally and the tile matrix then holds the converter's array, renamed, under the name of
the image array (so the RGB array is gone), holds nothing under `gray_scale_temp`, and
holds under every other name what it held before. -/
theorem convertToGrayScale_replaces_image_array (env : Env) (imageName pTag dcName : String)
    (s : ZeissImportFilter) (conv : SubFilter) (d : DataContainerArray) (dc : DataContainer)
    (am : AttributeMatrix) (rgb gray : IDataArray)
    (hc : env.getFactoryForFilter "RGBToGray" = some conv)
    (hd : (requestGrayScale conv (completeBaseName imageName ++ "_" ++ pTag)
      s).dataContainerArray = some d)
    (hdc : getDataContainer d s.dataContainerName = some dc)
    (ham : dc.getAttributeMatrix s.imageAttributeMatrixName = some am)
    (hrgb : findKey (completeBaseName imageName ++ "_" ++ pTag) am.arrays = some rgb)
    (hname : rgb.name = completeBaseName imageName ++ "_" ++ pTag)
    (hgray : findKey k_GrayScaleTempArrayName am.arrays = some gray)
    (hne : completeBaseName imageName ++ "_" ++ pTag ≠ k_GrayScaleTempArrayName) :
    ∃ t' d' dc' am', convertToGrayScale env imageName pTag dcName s = .ok t' ∧
      t'.dataContainerArray = some d' ∧
      getDataContainer d' s.dataContainerName = some dc' ∧
      dc'.getAttributeMatrix s.imageAttributeMatrixName = some am' ∧
      findKey (completeBaseName imageName ++ "_" ++ pTag) am'.arrays =
        some { gray with name := completeBaseName imageName ++ "_" ++ pTag } ∧
      findKey k_GrayScaleTempArrayName am'.arrays = none ∧
      (∀ k, k ≠ completeBaseName imageName ++ "_" ++ pTag → k ≠ k_GrayScaleTempArrayName →
        findKey k am'.arrays = findKey k am.arrays) ∧
      am'.name = am.name ∧ am'.tupleDims = am.tupleDims := by
  have heq := convertToGrayScale_eq env imageName pTag dcName s
  simp only [hc] at heq
  have hs : sameSettings s
      (requestGrayScale conv (completeBaseName imageName ++ "_" ++ pTag) s) := by
    simp only [requestGrayScale]
    exact sameSettings_trans (sameSettings_trans (sameSettings_trans
      (assignProperty_quiet _ _ _ _ _ _ _).1 (assignProperty_quiet _ _ _ _ _ _ _).1)
      (assignProperty_quiet _ _ _ _ _ _ _).1) (runSubFilter_spec _ _ _ _).1
  generalize requestGrayScale conv (completeBaseName imageName ++ "_" ++ pTag) s = u
    at heq hd hs
  have hgray2 : findKey k_GrayScaleTempArrayName
      (removeKey (completeBaseName imageName ++ "_" ++ pTag) am.arrays) = some gray := by
    rw [findKey_removeKey, if_neg (fun e => hne e.symm), hgray]
  have hdcname : dc.name = s.dataContainerName := getDataContainer_name _ _ _ hdc
  refine ⟨{ u with dataContainerArray := some (setDataContainer d s.dataContainerName
      (dc.setAttributeMatrix s.imageAttributeMatrixName
      (AttributeMatrix.addAttributeArray
        { am with arrays := (removeKey k_GrayScaleTempArrayName
            (removeKey (completeBaseName imageName ++ "_" ++ pTag) am.arrays)) }
        (completeBaseName imageName ++ "_" ++ pTag)
        { gray with name := completeBaseName imageName ++ "_" ++ pTag }))) },
    setDataContainer d s.dataContainerName
      (dc.setAttributeMatrix s.imageAttributeMatrixName
      (AttributeMatrix.addAttributeArray
        { am with arrays := (removeKey k_GrayScaleTempArrayName
            (removeKey (completeBaseName imageName ++ "_" ++ pTag) am.arrays)) }
        (completeBaseName imageName ++ "_" ++ pTag)
        { gray with name := completeBaseName imageName ++ "_" ++ pTag })),
    (dc.setAttributeMatrix s.imageAttributeMatrixName
      (AttributeMatrix.addAttributeArray
        { am with arrays := (removeKey k_GrayScaleTempArrayName
            (removeKey (completeBaseName imageName ++ "_" ++ pTag) am.arrays)) }
        (completeBaseName imageName ++ "_" ++ pTag)
        { gray with name := completeBaseName imageName ++ "_" ++ pTag })),
    (AttributeMatrix.addAttributeArray
        { am with arrays := (removeKey k_GrayScaleTempArrayName
            (removeKey (completeBaseName imageName ++ "_" ++ pTag) am.arrays)) }
        (completeBaseName imageName ++ "_" ++ pTag)
        { gray with name := completeBaseName imageName ++ "_" ++ pTag }),
    ?_, rfl, getDataContainer_setDataContainer d s.dataContainerName dc _ hdc hdcname,
    ?_, ?_, ?_, ?_, rfl, rfl⟩
  · rw [heq]
    simp only [replaceByGrayScale, bind, Except.bind, hd, deref, hs.2.1, hs.2.2.1, hdc, ham,
      AttributeMatrix.removeAttributeArray, hrgb, hgray2, pure, Except.pure, hname]
  · simp only [DataContainer.getAttributeMatrix, DataContainer.setAttributeMatrix,
      findKey_assignKey, if_true]
  · simp only [AttributeMatrix.addAttributeArray, findKey_assignKey, if_true]
  · simp only [AttributeMatrix.addAttributeArray, findKey_assignKey, findKey_removeKey, hne,
      if_false, if_true]
  · intro k h1 h2
    have h1' : ¬ completeBaseName imageName ++ "_" ++ pTag = k := fun e => h1 e.symm
    simp only [AttributeMatrix.addAttributeArray, findKey_assignKey, findKey_removeKey, h1',
      h1, h2, if_false]

/-- Witness for C18: the tile matrix holds `mask` and the image array `set_p0`; the sample
converter adds `gray_scale_temp`. -/
theorem convertToGrayScale_replaces_image_array_witness :
    ∃ t' d' dc' am', convertToGrayScale (Sample.env false) "set.jpg" "p0"
        "Zeiss Axio Vision Montage" Sample.filterWithImage = .ok t' ∧
      t'.dataContainerArray = some d' ∧
      getDataContainer d' Sample.filterWithImage.dataContainerName = some dc' ∧
      dc'.getAttributeMatrix Sample.filterWithImage.imageAttributeMatrixName = some am' ∧
      findKey (completeBaseName "set.jpg" ++ "_" ++ "p0") am'.arrays =
        some { (⟨"gray_scale_temp", 0, false, "gray"⟩ : IDataArray) with
          name := completeBaseName "set.jpg" ++ "_" ++ "p0" } ∧
      findKey k_GrayScaleTempArrayName am'.arrays = none ∧
      (∀ k, k ≠ completeBaseName "set.jpg" ++ "_" ++ "p0" → k ≠ k_GrayScaleTempArrayName →
        findKey k am'.arrays = findKey k
          (⟨"Tile AttributeMatrix", [4, 3, 1],
            [("mask", ⟨"mask", 12, false, "bool"⟩), ("set_p0", ⟨"set_p0", 12, false, "rgb"⟩),
             ("gray_scale_temp", ⟨"gray_scale_temp", 0, false, "gray"⟩)]⟩ :
              AttributeMatrix).arrays) ∧
      am'.name = "Tile AttributeMatrix" ∧ am'.tupleDims = [4, 3, 1] :=
  convertToGrayScale_replaces_image_array (Sample.env false) "set.jpg" "p0"
    "Zeiss Axio Vision Montage" Sample.filterWithImage Sample.converter
    [⟨"Zeiss Axio Vision Montage",
      [("Tile AttributeMatrix", ⟨"Tile AttributeMatrix", [4, 3, 1],
        [("mask", ⟨"mask", 12, false, "bool"⟩), ("set_p0", ⟨"set_p0", 12, false, "rgb"⟩),
         ("gray_scale_temp", ⟨"gray_scale_temp", 0, false, "gray"⟩)]⟩)]⟩]
    ⟨"Zeiss Axio Vision Montage",
      [("Tile AttributeMatrix", ⟨"Tile AttributeMatrix", [4, 3, 1],
        [("mask", ⟨"mask", 12, false, "bool"⟩), ("set_p0", ⟨"set_p0", 12, false, "rgb"⟩),
         ("gray_scale_temp", ⟨"gray_scale_temp", 0, false, "gray"⟩)]⟩)]⟩
    ⟨"Tile AttributeMatrix", [4, 3, 1],
      [("mask", ⟨"mask", 12, false, "bool"⟩), ("set_p0", ⟨"set_p0", 12, false, "rgb"⟩),
       ("gray_scale_temp", ⟨"gray_scale_temp", 0, false, "gray"⟩)]⟩
    ⟨"set_p0", 12, false, "rgb"⟩ ⟨"gray_scale_temp", 0, false, "gray"⟩
    rfl (by decide) (by decide) (by decide) (by decide) (by decide) (by decide) (by decide)

/-! ## File names -/

theorem takeWhile_reverse_dir (pre : List Char)
    (hpre : ∀ c, pre.getLast? = some c → c = '/') :
    pre.reverse.takeWhile (fun c => c != '/') = [] := by
  cases h : pre.reverse with
  | nil => rfl
  | cons c rest =>
    have hl : pre.getLast? = some c := by
      rw [List.getLast?_eq_head?_reverse, h]; rfl
    rw [hpre c hl]
    simp [List.takeWhile]

theorem fileName_of_parts (pre base ext : List Char)
    (hpre : ∀ c, pre.getLast? = some c → c = '/')
    (hb : '/' ∉ base) (he : '/' ∉ ext) :
    fileName (String.mk (pre ++ base ++ '.' :: ext)) = String.mk (base ++ '.' :: ext) := by
  unfold fileName
  have hrev : (pre ++ base ++ '.' :: ext).reverse =
      (base ++ '.' :: ext).reverse ++ pre.reverse := by
    simp [List.reverse_append]
  have hall : ∀ a ∈ (base ++ '.' :: ext).reverse, (fun c => c != '/') a = true := by
    intro a ha
    simp only [List.mem_reverse, List.mem_append, List.mem_cons] at ha
    simp only [bne_iff_ne, ne_eq]
    rintro rfl
    rcases ha with ha | ha | ha
    · exact hb ha
    · exact absurd ha (by decide)
    · exact he ha
  show String.mk ((List.takeWhile (fun c => c != '/')
    (pre ++ base ++ '.' :: ext).reverse).reverse) = _
  rw [hrev, List.takeWhile_append_of_pos hall, takeWhile_reverse_dir pre hpre]
  simp

theorem completeBaseName_fileSuffix_of_parts (pre base ext : List Char)
    (hpre : ∀ c, pre.getLast? = some c → c = '/')
    (hb : '/' ∉ base) (he : '/' ∉ ext) (hdot : '.' ∉ ext) :
    completeBaseName (String.mk (pre ++ base ++ '.' :: ext)) = String.mk base ∧
      fileSuffix (String.mk (pre ++ base ++ '.' :: ext)) = String.mk ext := by
  have hf := fileName_of_parts pre base ext hpre hb he
  have hrev : (base ++ '.' :: ext).reverse = ext.reverse ++ '.' :: base.reverse := by
    simp [List.reverse_append]
  have hall : ∀ a ∈ ext.reverse, (fun c => c != '.') a = true := by
    intro a ha
    simp only [List.mem_reverse] at ha
    simp only [bne_iff_ne, ne_eq]
    rintro rfl
    exact hdot ha
  have hcontains : (ext.reverse ++ '.' :: base.reverse).contains '.' = true := by
    simp
  constructor
  · unfold completeBaseName
    simp only [hf, hrev, hcontains, if_true]
    rw [List.dropWhile_append_of_pos hall]
    simp [List.dropWhile]
  · unfold fileSuffix
    simp only [hf, hrev, hcontains, if_true]
    rw [List.takeWhile_append_of_pos hall]
    simp [List.takeWhile]

theorem assignProperty_trace (filter : SubFilter) (filtName property reported : String)
    (code : Int) (value : QVariant) (st : ZeissImportFilter × List (String × QVariant)) :
    (assignProperty filter filtName property reported code value st).1.trace =
      st.1.trace ++ (Event.propertySet filtName property value
        (filter.setProperty property value) ::
        if filter.setProperty property value = false then
          [Event.errorMessage ZeissImportFilter.humanLabel
            (propertyErrorText reported filtName) code]
        else []) := by
  unfold assignProperty
  cases filter.setProperty property value <;>
    simp [ZeissImportFilter.reportError, ZeissImportFilter.setErrorCondition,
      ZeissImportFilter.notifyErrorMessage]

theorem runSubFilter_trace (filter : SubFilter) (filtName : String)
    (props : List (String × QVariant)) (t : ZeissImportFilter) :
    ∃ e, (runSubFilter filter filtName props t).trace = t.trace ++ [e] := by
  unfold runSubFilter
  cases t.inPreflight
  · exact ⟨_, rfl⟩
  · exact ⟨_, rfl⟩

/-- C14: for a base file name made of an optional directory part, a base part `b` and an
extension `e` after its last dot, and for every tile tag `t`, `importImage` gives the
reader the input path `dir + "/" + b + "_" + t + "." + e`, with `dir` the absolute
directory of the input XML file, and the array name `b + "_" + t`;
`convertToGrayScale` selects, takes out and replaces the array of the same name
`b + "_" + t`. -/
theorem collaborators_get_derived_names (env : Env) (imageName pTag dcName : String)
    (s : ZeissImportFilter) (reader conv : SubFilter) (dir b e : String)
    (hr : env.getFactoryForFilter "ReadImage" = some reader)
    (hc : env.getFactoryForFilter "RGBToGray" = some conv)
    (hB : imageName = dir ++ b ++ "." ++ e)
    (hdir : ∀ c, dir.data.getLast? = some c → c = '/')
    (hb : '/' ∉ b.data) (he : '/' ∉ e.data) (hdot : '.' ∉ e.data) :
    completeBaseName imageName = b ∧ fileSuffix imageName = e ∧
      Event.propertySet "ReadImage" "InputFileName"
          (.string (env.absoluteDirPath s.inputFile ++ "/" ++ b ++ "_" ++ pTag ++ "." ++ e))
          (reader.setProperty "InputFileName"
            (.string (env.absoluteDirPath s.inputFile ++ "/" ++ b ++ "_" ++ pTag ++ "." ++ e)))
        ∈ (importImage env imageName pTag dcName s).trace ∧
      Event.propertySet "ReadImage" "ImageDataArrayName" (.string (b ++ "_" ++ pTag))
          (reader.setProperty "ImageDataArrayName" (.string (b ++ "_" ++ pTag)))
        ∈ (importImage env imageName pTag dcName s).trace ∧
      convertToGrayScale env imageName pTag dcName s =
        replaceByGrayScale (b ++ "_" ++ pTag) (requestGrayScale conv (b ++ "_" ++ pTag) s) ∧
      Event.propertySet "RGBToGray" "SelectedCellArrayArrayPath"
          (.dataArrayPath s.dataContainerName s.imageAttributeMatrixName (b ++ "_" ++ pTag))
          (conv.setProperty "SelectedCellArrayArrayPath"
            (.dataArrayPath s.dataContainerName s.imageAttributeMatrixName
              (b ++ "_" ++ pTag)))
        ∈ (requestGrayScale conv (b ++ "_" ++ pTag) s).trace := by
  have hdata : imageName = String.mk (dir.data ++ b.data ++ '.' :: e.data) := by
    rw [hB]
    apply String.ext
    simp [String.data_append]
  obtain ⟨hbase, hsuf⟩ := completeBaseName_fileSuffix_of_parts dir.data b.data e.data hdir hb he
    hdot
  rw [← hdata] at hbase hsuf
  have hbase' : completeBaseName imageName = b := hbase
  have hsuf' : fileSuffix imageName = e := hsuf
  have heq := convertToGrayScale_eq env imageName pTag dcName s
  simp only [hc, hbase'] at heq
  have hpath : env.absoluteDirPath s.inputFile ++ "/" ++ (b ++ "_" ++ pTag ++ "." ++ e) =
      env.absoluteDirPath s.inputFile ++ "/" ++ b ++ "_" ++ pTag ++ "." ++ e := by
    simp only [String.append_assoc]
  refine ⟨hbase', hsuf', ?_, ?_, heq, ?_⟩
  · simp only [importImage, hr, hbase', hsuf', hpath]
    obtain ⟨ev, hev⟩ := runSubFilter_trace reader "ReadImage"
      (assignProperty reader "ReadImage" "ImageDataArrayName" "ImageDataArrayName" (-70008)
        (.string (b ++ "_" ++ pTag))
        (assignProperty reader "ReadImage" "CellAttributeMatrixName"
          "CellAttributeMatrixName" (-70007)
          (.string (assignProperty reader "ReadImage" "DataContainerName" "DataContainerName"
            (-70006) (.string dcName)
            (assignProperty reader "ReadImage" "InputFileName" "InputFileName" (-70005)
              (.string (env.absoluteDirPath s.inputFile ++ "/" ++ b ++ "_" ++ pTag ++ "." ++ e))
              (s, []))).1.imageAttributeMatrixName)
          (assignProperty reader "ReadImage" "DataContainerName" "DataContainerName"
            (-70006) (.string dcName)
            (assignProperty reader "ReadImage" "InputFileName" "InputFileName" (-70005)
              (.string (env.absoluteDirPath s.inputFile ++ "/" ++ b ++ "_" ++ pTag ++ "." ++ e))
              (s, []))))).2 _
    rw [hev]
    simp only [assignProperty_trace]
    simp
  · simp only [importImage, hr, hbase', hsuf', hpath]
    obtain ⟨ev, hev⟩ := runSubFilter_trace reader "ReadImage"
      (assignProperty reader "ReadImage" "ImageDataArrayName" "ImageDataArrayName" (-70008)
        (.string (b ++ "_" ++ pTag))
        (assignProperty reader "ReadImage" "CellAttributeMatrixName"
          "CellAttributeMatrixName" (-70007)
          (.string (assignProperty reader "ReadImage" "DataContainerName" "DataContainerName"
            (-70006) (.string dcName)
            (assignProperty reader "ReadImage" "InputFileName" "InputFileName" (-70005)
              (.string (env.absoluteDirPath s.inputFile ++ "/" ++ b ++ "_" ++ pTag ++ "." ++ e))
              (s, []))).1.imageAttributeMatrixName)
          (assignProperty reader "ReadImage" "DataContainerName" "DataContainerName"
            (-70006) (.string dcName)
            (assignProperty reader "ReadImage" "InputFileName" "InputFileName" (-70005)
              (.string (env.absoluteDirPath s.inputFile ++ "/" ++ b ++ "_" ++ pTag ++ "." ++ e))
              (s, []))))).2 _
    rw [hev]
    simp only [assignProperty_trace]
    simp
  · simp only [requestGrayScale]
    obtain ⟨ev, hev⟩ := runSubFilter_trace conv "RGBToGray"
      (assignProperty conv "RGBToGray" "NewCellArrayName" "CellAttributeMatrixName" (-70007)
        (.string k_GrayScaleTempArrayName)
        (assignProperty conv "RGBToGray" "ColorWeights" "DataContainerName" (-70006)
          (.floatVec3 (assignProperty conv "RGBToGray" "SelectedCellArrayArrayPath"
            "InputFileName" (-70005)
            (.dataArrayPath s.dataContainerName s.imageAttributeMatrixName (b ++ "_" ++ pTag))
            (s, [])).1.colorWeights)
          (assignProperty conv "RGBToGray" "SelectedCellArrayArrayPath" "InputFileName"
            (-70005)
            (.dataArrayPath s.dataContainerName s.imageAttributeMatrixName (b ++ "_" ++ pTag))
            (s, [])))).2 _
    rw [hev]
    simp only [assignProperty_trace]
    simp

/-- Witness for C14: the image set `set.jpg`, tile tag `p0`, XML file in `/data`. -/
theorem collaborators_get_derived_names_witness :
    completeBaseName "set.jpg" = "set" ∧ fileSuffix "set.jpg" = "jpg" ∧
      Event.propertySet "ReadImage" "InputFileName"
          (.string ((Sample.env false).absoluteDirPath (Sample.filter true).inputFile ++ "/" ++
            "set" ++ "_" ++ "p0" ++ "." ++ "jpg"))
          (Sample.reader.setProperty "InputFileName"
            (.string ((Sample.env false).absoluteDirPath (Sample.filter true).inputFile ++
              "/" ++ "set" ++ "_" ++ "p0" ++ "." ++ "jpg")))
        ∈ (importImage (Sample.env false) "set.jpg" "p0" "Zeiss Axio Vision Montage"
            (Sample.filter true)).trace ∧
      Event.propertySet "ReadImage" "ImageDataArrayName" (.string ("set" ++ "_" ++ "p0"))
          (Sample.reader.setProperty "ImageDataArrayName" (.string ("set" ++ "_" ++ "p0")))
        ∈ (importImage (Sample.env false) "set.jpg" "p0" "Zeiss Axio Vision Montage"
            (Sample.filter true)).trace ∧
      convertToGrayScale (Sample.env false) "set.jpg" "p0" "Zeiss Axio Vision Montage"
          (Sample.filter true) =
        replaceByGrayScale ("set" ++ "_" ++ "p0")
          (requestGrayScale Sample.converter ("set" ++ "_" ++ "p0") (Sample.filter true)) ∧
      Event.propertySet "RGBToGray" "SelectedCellArrayArrayPath"
          (.dataArrayPath (Sample.filter true).dataContainerName
            (Sample.filter true).imageAttributeMatrixName ("set" ++ "_" ++ "p0"))
          (Sample.converter.setProperty "SelectedCellArrayArrayPath"
            (.dataArrayPath (Sample.filter true).dataContainerName
              (Sample.filter true).imageAttributeMatrixName ("set" ++ "_" ++ "p0")))
        ∈ (requestGrayScale Sample.converter ("set" ++ "_" ++ "p0")
            (Sample.filter true)).trace :=
  collaborators_get_derived_names (Sample.env false) "set.jpg" "p0"
    "Zeiss Axio Vision Montage" (Sample.filter true) Sample.reader Sample.converter
    "" "set" "jpg" rfl rfl (by decide) (by intro c h; cases h) (by decide) (by decide)
    (by decide)

/-! ## Missing factories, unreadable ids, missing input file -/

/-- C15 (the code at the failing inputs): for the two-tile document with
`ConvertToGrayScale` set and no `RGBToGray` factory, the parse records -70009 at tile 0
and goes on: tile 1 is announced and the image reader is run for it.  With no
`ReadImage` factory (and no conversion) the loop announces tile 1 and reports the missing
factory a second time; with conversion asked for, the converter is still requested after
the reader could not be made, and the run ends in a null-pointer dereference. -/
theorem parseImages_goes_on_after_missing_factory :
    (parseImages (Sample.envWith (some Sample.reader) none) Sample.twoTiles
        Sample.globalSection (Sample.filter true)).toOption.map
        (fun s' => (s'.errorCondition, steps s'.trace)) =
        some (-70009, [Step.tile (importingText 0 2), Step.run "ReadImage",
          Step.tile (importingText 1 2), Step.run "ReadImage"]) ∧
      (parseImages (Sample.envWith none (some Sample.converter)) Sample.twoTiles
        Sample.globalSection (Sample.filter false)).toOption.map
        (fun s' => (s'.errorCondition, s'.trace)) =
        some (-70009,
          [Event.statusMessage ZeissImportFilter.humanLabel (importingText 0 2),
           Event.errorMessage ZeissImportFilter.humanLabel missingFactoryText (-70009),
           Event.statusMessage ZeissImportFilter.humanLabel (importingText 1 2),
           Event.errorMessage ZeissImportFilter.humanLabel missingFactoryText (-70009)]) ∧
      parseImages (Sample.envWith none (some Sample.converter)) Sample.twoTiles
        Sample.globalSection (Sample.filter true) = .error Fault.nullPointerDereference := by
  decide

/-- C20: when the input file name is empty or names no existing file, `dataCheck` ends
with error condition -387 (empty name) or -388 (no such file) and its message, and the
rest of the filter, the data container array included, is as before: no data container
is created and the XML is not read, whatever the host and the file would give. -/
theorem dataCheck_stops_on_bad_input_file (env : Env) (host : Host) (s : ZeissImportFilter)
    (h : s.inputFile = "" ∨ env.fileExists s.inputFile = false) :
    dataCheck env host s = .ok { s with
      errorCondition := if s.inputFile = "" then -387 else -388
      trace := s.trace ++ [Event.errorMessage ZeissImportFilter.humanLabel
        (if s.inputFile = "" then className ++ " needs the Input File Set and it was not."
         else "The input file does not exist.")
        (if s.inputFile = "" then -387 else -388)] } := by
  by_cases he : s.inputFile = ""
  · simp [dataCheck, he, ZeissImportFilter.setErrorCondition, ZeissImportFilter.reportError,
      ZeissImportFilter.notifyErrorMessage]
  · have hf : env.fileExists s.inputFile = false := by
      rcases h with h | h
      · exact absurd h he
      · exact h
    simp [dataCheck, he, hf, ZeissImportFilter.setErrorCondition,
      ZeissImportFilter.reportError, ZeissImportFilter.notifyErrorMessage]

/-- Witness for C20: a filter without input file name, and a named file that does not
exist. -/
theorem dataCheck_stops_on_bad_input_file_witness :
    dataCheck (Sample.env false) Sample.host { Sample.filter false with inputFile := "" } =
        .ok { Sample.filter false with
          inputFile := ""
          errorCondition := -387
          trace := [Event.errorMessage ZeissImportFilter.humanLabel
            "ZeissImportFilter needs the Input File Set and it was not." (-387)] } ∧
      dataCheck Sample.envNoFile Sample.host (Sample.filter false) =
        .ok { Sample.filter false with
          errorCondition := -388
          trace := [Event.errorMessage ZeissImportFilter.humanLabel
            "The input file does not exist." (-388)] } :=
  ⟨dataCheck_stops_on_bad_input_file (Sample.env false) Sample.host
      { Sample.filter false with inputFile := "" } (Or.inl rfl),
    dataCheck_stops_on_bad_input_file Sample.envNoFile Sample.host (Sample.filter false)
      (Or.inr rfl)⟩

/-! ## The root without `<Tags>`; the mode of the collaborators -/

theorem calls_append (a b : List Event) : calls (a ++ b) = calls a ++ calls b := by
  simp [calls]

theorem assignProperty_calls (filter : SubFilter) (filtName property reported : String)
    (code : Int) (value : QVariant) (st : ZeissImportFilter × List (String × QVariant)) :
    calls (assignProperty filter filtName property reported code value st).1.trace =
      calls st.1.trace ++ [Call.setProperty filtName property value] := by
  rw [assignProperty_trace, calls_append]
  cases filter.setProperty property value <;> simp [calls, callOf]

theorem runSubFilter_calls (filter : SubFilter) (filtName : String)
    (props : List (String × QVariant)) (t : ZeissImportFilter) :
    calls (runSubFilter filter filtName props t).trace =
      calls t.trace ++ [runCall t.inPreflight filtName] := by
  unfold runSubFilter runCall
  cases h : t.inPreflight <;> simp [calls_append, calls, callOf]

/-- C21: when the document root has no `<Tags>` child, `readMetaXml` returns -1, a
negative value, and the filter it leaves differs from the one it was given only by the
error code -70001 and by the one error message added to the trace: no tag section is
parsed and no tile is looked at. -/
theorem readMetaXml_without_root_tags (env : Env) (root : QDomElement)
    (s : ZeissImportFilter) (h : firstChildElement root Xml.Tags = none) :
    readMetaXml env (.document root) s = .ok (-1,
        { s with
          errorCondition := -70001
          trace := s.trace ++ [Event.errorMessage ZeissImportFilter.humanLabel
            "Could not find the <ROOT><Tags> element. Aborting Parsing. Is the file a Zeiss _meta.xml file"
            (-70001)] }) ∧
      (-1 : Int) < 0 := by
  refine ⟨?_, by decide⟩
  simp only [readMetaXml, h]
  rfl

theorem readMetaXml_without_root_tags_witness :
    firstChildElement Sample.noRootTags Xml.Tags = none ∧
      readMetaXml (Sample.env false) (.document Sample.noRootTags) (Sample.filter false) =
        .ok (-1,
          { Sample.filter false with
            errorCondition := -70001
            trace := (Sample.filter false).trace ++
              [Event.errorMessage ZeissImportFilter.humanLabel
                "Could not find the <ROOT><Tags> element. Aborting Parsing. Is the file a Zeiss _meta.xml file"
                (-70001)] }) :=
  ⟨rfl, (readMetaXml_without_root_tags (Sample.env false) Sample.noRootTags
    (Sample.filter false) rfl).1⟩

/-- C22: when the factory of the image reader exists, the calls `importImage` makes on
the reader are the four property assignments (input file path, data container name,
attribute matrix name, array name, in this order) followed by one run, which is
`preflight()` when the filter is in preflight and `execute()` otherwise; when the factory
of the converter exists, `convertToGrayScale` makes its three assignments followed by one
run in the filter's mode, and a call that returns leaves the trace of these calls as it
is. -/
theorem collaborators_run_in_own_mode (env : Env) (imageName pTag dcName : String)
    (s : ZeissImportFilter) (reader conv : SubFilter)
    (hr : env.getFactoryForFilter "ReadImage" = some reader)
    (hc : env.getFactoryForFilter "RGBToGray" = some conv) :
    calls (importImage env imageName pTag dcName s).trace = calls s.trace ++
        [Call.setProperty "ReadImage" "InputFileName"
            (.string (env.absoluteDirPath s.inputFile ++ "/" ++
              (completeBaseName imageName ++ "_" ++ pTag ++ "." ++ fileSuffix imageName))),
          Call.setProperty "ReadImage" "DataContainerName" (.string dcName),
          Call.setProperty "ReadImage" "CellAttributeMatrixName"
            (.string s.imageAttributeMatrixName),
          Call.setProperty "ReadImage" "ImageDataArrayName"
            (.string (completeBaseName imageName ++ "_" ++ pTag)),
          if s.inPreflight = true then Call.preflight "ReadImage"
          else Call.execute "ReadImage"] ∧
      convertToGrayScale env imageName pTag dcName s =
        replaceByGrayScale (completeBaseName imageName ++ "_" ++ pTag)
          (requestGrayScale conv (completeBaseName imageName ++ "_" ++ pTag) s) ∧
      calls (requestGrayScale conv (completeBaseName imageName ++ "_" ++ pTag) s).trace =
        calls s.trace ++
        [Call.setProperty "RGBToGray" "SelectedCellArrayArrayPath"
            (.dataArrayPath s.dataContainerName s.imageAttributeMatrixName
              (completeBaseName imageName ++ "_" ++ pTag)),
          Call.setProperty "RGBToGray" "ColorWeights" (.floatVec3 s.colorWeights),
          Call.setProperty "RGBToGray" "NewCellArrayName" (.string k_GrayScaleTempArrayName),
          if s.inPreflight = true then Call.preflight "RGBToGray"
          else Call.execute "RGBToGray"] ∧
      (∀ t, convertToGrayScale env imageName pTag dcName s = .ok t →
        t.trace =
          (requestGrayScale conv (completeBaseName imageName ++ "_" ++ pTag) s).trace) := by
  have hconv := convertToGrayScale_eq env imageName pTag dcName s
  simp only [hc] at hconv
  refine ⟨?_, hconv, ?_, ?_⟩
  · simp only [importImage, hr]
    rw [runSubFilter_calls, assignProperty_calls, assignProperty_calls, assignProperty_calls,
      assignProperty_calls]
    simp only [assignProperty_inPreflight, runCall, List.append_assoc, List.cons_append,
      List.nil_append]
  · simp only [requestGrayScale]
    rw [runSubFilter_calls, assignProperty_calls, assignProperty_calls, assignProperty_calls]
    simp only [assignProperty_inPreflight, runCall, List.append_assoc, List.cons_append,
      List.nil_append]
  · intro t ht
    rw [hconv] at ht
    exact (replaceByGrayScale_keeps _ _ _ ht).1

theorem collaborators_run_in_own_mode_witness :
    calls (importImage (Sample.env false) "set.jpg" "p0" "Zeiss Axio Vision Montage"
        (Sample.filter true)).trace =
      [Call.setProperty "ReadImage" "InputFileName" (.string "/data/set_p0.jpg"),
        Call.setProperty "ReadImage" "DataContainerName" (.string "Zeiss Axio Vision Montage"),
        Call.setProperty "ReadImage" "CellAttributeMatrixName" (.string "Tile AttributeMatrix"),
        Call.setProperty "ReadImage" "ImageDataArrayName" (.string "set_p0"),
        Call.preflight "ReadImage"] ∧
      calls (importImage (Sample.env false) "set.jpg" "p0" "Zeiss Axio Vision Montage"
        { Sample.filter true with inPreflight := false }).trace =
      [Call.setProperty "ReadImage" "InputFileName" (.string "/data/set_p0.jpg"),
        Call.setProperty "ReadImage" "DataContainerName" (.string "Zeiss Axio Vision Montage"),
        Call.setProperty "ReadImage" "CellAttributeMatrixName" (.string "Tile AttributeMatrix"),
        Call.setProperty "ReadImage" "ImageDataArrayName" (.string "set_p0"),
        Call.execute "ReadImage"] :=
  ⟨(collaborators_run_in_own_mode (Sample.env false) "set.jpg" "p0"
      "Zeiss Axio Vision Montage" (Sample.filter true) Sample.reader Sample.converter
      rfl rfl).1.trans (by decide),
    (collaborators_run_in_own_mode (Sample.env false) "set.jpg" "p0"
      "Zeiss Axio Vision Montage" { Sample.filter true with inPreflight := false }
      Sample.reader Sample.converter rfl rfl).1.trans (by decide)⟩

/-! ## The return value of `readMetaXml` and the code -389 -/

theorem readMetaXml_of_header_fails (env : Env) (device : XmlContent) (s : ZeissImportFilter)
    (h : headerFails device = true) :
    ∃ code text, (code = -70000 ∨ code = -70001) ∧
      readMetaXml env device s = .ok (-1, s.reportError code text) := by
  cases device with
  | parseError e l c => exact ⟨-70000, _, Or.inl rfl, rfl⟩
  | document root =>
    simp only [headerFails] at h
    cases ht : firstChildElement root Xml.Tags with
    | none =>
      refine ⟨-70001,
        "Could not find the <ROOT><Tags> element. Aborting Parsing. Is the file a Zeiss _meta.xml file",
        Or.inr rfl, ?_⟩
      simp only [readMetaXml, ht]
    | some tags =>
      simp only [ht] at h
      cases hc : toInt (text (firstChildElement tags Xml.Count)) with
      | none =>
        refine ⟨-70001, "Error Parsing 'Count' Tag in Root 'Tags' DOM element",
          Or.inr rfl, ?_⟩
        simp only [readMetaXml, ht, parseTagsSection, hc]
      | some count => simp [hc] at h

theorem readMetaXml_of_header_passes (env : Env) (device : XmlContent)
    (s : ZeissImportFilter) (h : headerFails device = false) :
    ∃ root rootTagsSection, device = .document root ∧
      readMetaXml env device s =
        (parseImages env root rootTagsSection s).map (fun t => ((0 : Int), t)) := by
  cases device with
  | parseError e l c => simp [headerFails] at h
  | document root =>
    simp only [headerFails] at h
    cases ht : firstChildElement root Xml.Tags with
    | none => simp [ht] at h
    | some tags =>
      simp only [ht] at h
      cases hc : toInt (text (firstChildElement tags Xml.Count)) with
      | none => simp [hc] at h
      | some count =>
        refine ⟨root, parseTagsLoop env tags 0 count.toNat [], rfl, ?_⟩
        simp only [readMetaXml, ht, parseTagsSection, hc]
        cases parseImages env root (parseTagsLoop env tags 0 count.toNat []) s <;> rfl

theorem dataCheck_reaches_readMetaXml (env : Env) (host : Host) (s : ZeissImportFilter)
    (dca dca1 : DataContainerArray)
    (hfile : s.inputFile ≠ "") (hex : env.fileExists s.inputFile = true)
    (hdca : s.dataContainerArray = some dca)
    (hcreate : host.createNonPrereqDataContainer dca s.dataContainerName = .created dca1) :
    dataCheck env host s =
      match readMetaXml env (env.readXml s.inputFile)
          { s with errorCondition := 0, dataContainerArray := some dca1 } with
      | .error f => .error f
      | .ok (success, t) =>
        if success < 0 then .ok (t.reportError (-389) "Could not parse Zeiss XML file")
        else .ok t := by
  simp [dataCheck, ZeissImportFilter.setErrorCondition, hfile, hex, hdca, hcreate]

/-- C24: once `dataCheck` has accepted the input file and the data container, its result
follows the head of the XML content alone.  When the content does not parse, the root has
no `<Tags>` child or the root `Count` is not an integer, `readMetaXml` returns -1 with the
code -70000 or -70001 recorded, and `dataCheck` records -389 over it.  In every other case
`readMetaXml` is `parseImages` on the root with the value 0 attached, so it returns 0
whatever `parseImages` recorded, and `dataCheck` ends as `parseImages` does, without a
report of -389. -/
theorem readMetaXml_value_ignores_tile_failures (env : Env) (host : Host)
    (s : ZeissImportFilter) (dca dca1 : DataContainerArray)
    (hfile : s.inputFile ≠ "") (hex : env.fileExists s.inputFile = true)
    (hdca : s.dataContainerArray = some dca)
    (hcreate : host.createNonPrereqDataContainer dca s.dataContainerName = .created dca1) :
    (headerFails (env.readXml s.inputFile) = true →
        ∃ code text, (code = -70000 ∨ code = -70001) ∧
          readMetaXml env (env.readXml s.inputFile)
              { s with errorCondition := 0, dataContainerArray := some dca1 } =
            .ok (-1, ({ s with errorCondition := 0, dataContainerArray := some dca1 } :
              ZeissImportFilter).reportError code text) ∧
          dataCheck env host s =
            .ok { s with
              errorCondition := -389
              dataContainerArray := some dca1
              trace := s.trace ++
                [Event.errorMessage ZeissImportFilter.humanLabel text code,
                  Event.errorMessage ZeissImportFilter.humanLabel
                    "Could not parse Zeiss XML file" (-389)] }) ∧
      (headerFails (env.readXml s.inputFile) = false →
        ∃ root rootTagsSection, env.readXml s.inputFile = .document root ∧
          readMetaXml env (env.readXml s.inputFile)
              { s with errorCondition := 0, dataContainerArray := some dca1 } =
            (parseImages env root rootTagsSection
              { s with errorCondition := 0, dataContainerArray := some dca1 }).map
                (fun t => ((0 : Int), t)) ∧
          dataCheck env host s =
            parseImages env root rootTagsSection
              { s with errorCondition := 0, dataContainerArray := some dca1 }) := by
  have hd := dataCheck_reaches_readMetaXml env host s dca dca1 hfile hex hdca hcreate
  constructor
  · intro h
    obtain ⟨code, text, hcode, hr⟩ := readMetaXml_of_header_fails env _
      { s with errorCondition := 0, dataContainerArray := some dca1 } h
    refine ⟨code, text, hcode, hr, ?_⟩
    rw [hd, hr]
    simp [ZeissImportFilter.reportError, ZeissImportFilter.setErrorCondition,
      ZeissImportFilter.notifyErrorMessage]
  · intro h
    obtain ⟨root, sec, hroot, hr⟩ := readMetaXml_of_header_passes env _
      { s with errorCondition := 0, dataContainerArray := some dca1 } h
    refine ⟨root, sec, hroot, hr, ?_⟩
    rw [hd, hr]
    cases parseImages env root sec
      { s with errorCondition := 0, dataContainerArray := some dca1 } <;>
      simp [Except.map]

theorem readMetaXml_value_ignores_tile_failures_witness :
    ((Sample.filter false).inputFile ≠ "" ∧
      (Sample.envReading Sample.missingSecondTile).fileExists (Sample.filter false).inputFile =
        true ∧
      headerFails ((Sample.envReading Sample.missingSecondTile).readXml
        (Sample.filter false).inputFile) = false) ∧
    (∃ root rootTagsSection,
      (Sample.envReading Sample.missingSecondTile).readXml (Sample.filter false).inputFile =
        .document root ∧
      readMetaXml (Sample.envReading Sample.missingSecondTile)
          ((Sample.envReading Sample.missingSecondTile).readXml (Sample.filter false).inputFile)
          { Sample.filter false with
            errorCondition := 0
            dataContainerArray := some Sample.twoContainers } =
        (parseImages (Sample.envReading Sample.missingSecondTile) root rootTagsSection
          { Sample.filter false with
            errorCondition := 0
            dataContainerArray := some Sample.twoContainers }).map (fun t => ((0 : Int), t)) ∧
      dataCheck (Sample.envReading Sample.missingSecondTile) Sample.host (Sample.filter false) =
        parseImages (Sample.envReading Sample.missingSecondTile) root rootTagsSection
          { Sample.filter false with
            errorCondition := 0
            dataContainerArray := some Sample.twoContainers }) ∧
    (readMetaXml (Sample.envReading Sample.missingSecondTile)
        (.document Sample.missingSecondTile) (Sample.filter false)).map
          (fun r => (r.1, r.2.errorCondition)) = .ok (0, -70002) ∧
    (dataCheck (Sample.envReading Sample.missingSecondTile) Sample.host
        (Sample.filter false)).map (fun t => t.errorCondition) = .ok (-70002) ∧
    (dataCheck (Sample.envReading Sample.badRootCount) Sample.host
        (Sample.filter false)).map (fun t => t.errorCondition) = .ok (-389) :=
  ⟨⟨by decide, rfl, rfl⟩,
    (readMetaXml_value_ignores_tile_failures (Sample.envReading Sample.missingSecondTile)
      Sample.host (Sample.filter false) [⟨"Zeiss Axio Vision Montage", []⟩]
      Sample.twoContainers
      (by decide) rfl rfl rfl).2 rfl,
    by decide, by decide, by decide⟩

/-! ## The tile tags are pairwise different -/

theorem digitChar_value (k : Nat) (h : k < 10) : (Nat.digitChar k).toNat - 48 = k := by
  interval_cases k <;> rfl

theorem digitsValue_append_singleton (ds : List Char) (c : Char) :
    digitsValue (ds ++ [c]) = 10 * digitsValue ds + (c.toNat - 48) := by
  simp [digitsValue, List.foldl_append]

theorem digitsValue_toDigitsCore (fuel : Nat) : ∀ (n : Nat) (acc : List Char), n < fuel →
    ∃ ds, Nat.toDigitsCore 10 fuel n acc = ds ++ acc ∧ digitsValue ds = n := by
  induction fuel with
  | zero => intro n acc h; omega
  | succ f ih =>
    intro n acc h
    rw [Nat.toDigitsCore]
    by_cases h0 : n / 10 = 0
    · refine ⟨[Nat.digitChar (n % 10)], by simp [h0], ?_⟩
      have hv := digitChar_value (n % 10) (Nat.mod_lt _ (by norm_num))
      simp only [digitsValue, List.foldl_cons, List.foldl_nil, hv]
      omega
    · have hlt : n / 10 < f := by omega
      obtain ⟨ds, hds, hval⟩ := ih (n / 10) (Nat.digitChar (n % 10) :: acc) hlt
      refine ⟨ds ++ [Nat.digitChar (n % 10)], ?_, ?_⟩
      · simp only [h0, if_false, hds, List.append_assoc, List.singleton_append]
      · rw [digitsValue_append_singleton, hval,
          digitChar_value (n % 10) (Nat.mod_lt _ (by norm_num))]
        omega

theorem digitsValue_toDigits (n : Nat) : digitsValue (Nat.toDigits 10 n) = n := by
  obtain ⟨ds, hds, hval⟩ := digitsValue_toDigitsCore (n + 1) n [] (by omega)
  unfold Nat.toDigits
  rw [hds, List.append_nil, hval]

theorem digitsValue_zeros (k : Nat) (l : List Char) :
    digitsValue (List.replicate k '0' ++ l) = digitsValue l := by
  induction k with
  | zero => rfl
  | succ k ih =>
    have e : digitsValue ('0' :: (List.replicate k '0' ++ l)) =
        digitsValue (List.replicate k '0' ++ l) := by
      simp [digitsValue]
    rw [List.replicate_succ, List.cons_append, e, ih]

theorem intText_data (p : Nat) : (intText (p : Int)).data = Nat.toDigits 10 p := by
  have e : intText (p : Int) = toString p := rfl
  rw [e]
  show (Nat.repr p).data = _
  simp [Nat.repr, List.asString]

theorem intText_length (p : Nat) : (intText (p : Int)).length = decimalDigits p := by
  rw [String.length, intText_data]
  rfl

theorem tileTag_digits (zp p : Nat) :
    (tileTag zp p).data =
      'p' :: (List.replicate (zp - decimalDigits p) '0' ++ Nat.toDigits 10 p) := by
  simp only [tileTag, rightAligned, String.data_append, intText_data, intText_length]
  rfl

theorem tileTag_value (zp p : Nat) : digitsValue ((tileTag zp p).data.drop 1) = p := by
  rw [tileTag_digits]
  simp only [List.drop_succ_cons, List.drop_zero]
  rw [digitsValue_zeros, digitsValue_toDigits]

theorem tileTag_length (zp p : Nat) :
    (tileTag zp p).length = 1 + ((zp - decimalDigits p) + decimalDigits p) := by
  rw [String.length, tileTag_digits]
  simp only [List.length_cons, List.length_append, List.length_replicate]
  unfold decimalDigits
  omega

theorem zeroPadding_fits (N : Int) (p : Nat) (h1 : 1 ≤ N) (hN : N ≤ 100000)
    (hp : (p : Int) < N) : decimalDigits p ≤ zeroPadding N := by
  rw [zeroPadding_cases]
  split_ifs with a b c d e
  · omega
  · exact (decimalDigits_le_iff p 1 (by norm_num)).2 (by norm_num; omega)
  · exact (decimalDigits_le_iff p 2 (by norm_num)).2 (by norm_num; omega)
  · exact (decimalDigits_le_iff p 3 (by norm_num)).2 (by norm_num; omega)
  · exact (decimalDigits_le_iff p 4 (by norm_num)).2 (by norm_num; omega)
  · exact (decimalDigits_le_iff p 5 (by norm_num)).2 (by norm_num; omega)

/-- C25: for every image count `N` of at least one, also above 99999, and all indices
`p < q < N`, the element names `parseImages` builds for the tiles `p` and `q` (the letter
`p`, then zeros up to the padding width, then the decimal digits of the index) are
different strings: the digits after the letter give the index back.  For `N` up to
100000 both names have exactly one character more than the padding width. -/
theorem tileTag_injective (N : Int) (p q : Nat) (h1 : 1 ≤ N) (hpq : p < q)
    (hq : (q : Int) < N) :
    tileTag (zeroPadding N) p ≠ tileTag (zeroPadding N) q ∧
      (tileTag (zeroPadding N) p).data =
        'p' :: (List.replicate (zeroPadding N - decimalDigits p) '0' ++ Nat.toDigits 10 p) ∧
      digitsValue ((tileTag (zeroPadding N) p).data.drop 1) = p ∧
      digitsValue ((tileTag (zeroPadding N) q).data.drop 1) = q ∧
      (N ≤ 100000 →
        (tileTag (zeroPadding N) p).length = 1 + zeroPadding N ∧
        (tileTag (zeroPadding N) q).length = 1 + zeroPadding N) := by
  refine ⟨?_, tileTag_digits _ _, tileTag_value _ _, tileTag_value _ _, ?_⟩
  · intro h
    have hv := congrArg (fun t => digitsValue (t.data.drop 1)) h
    simp only [tileTag_value] at hv
    omega
  · intro hN
    have hp : (p : Int) < N := by omega
    have fp := zeroPadding_fits N p h1 hN hp
    have fq := zeroPadding_fits N q h1 hN hq
    rw [tileTag_length, tileTag_length]
    omega

theorem tileTag_injective_witness :
    (1 : Int) ≤ 200000 ∧ 5 < 150000 ∧ ((150000 : Nat) : Int) < 200000 ∧
      tileTag (zeroPadding 200000) 5 ≠ tileTag (zeroPadding 200000) 150000 ∧
      tileTag (zeroPadding 200000) 5 = "p00005" ∧
      tileTag (zeroPadding 200000) 150000 = "p150000" :=
  ⟨by decide, by decide, by decide,
    (tileTag_injective 200000 5 150000 (by decide) (by decide) (by decide)).1,
    by decide, by decide⟩

/-! ## What the reports of the gray-scale step name -/

/-- C26: with a converter that rejects its three properties, `convertToGrayScale` returns
with three reports whose texts name `InputFileName`, `DataContainerName` and
`CellAttributeMatrixName`, the properties of the image reader, and none of them names the
property that was rejected (`SelectedCellArrayArrayPath`, `ColorWeights`,
`NewCellArrayName`); with no `RGBToGray` factory the report names the `ReadImage` filter
and not `RGBToGray`. -/
theorem convertToGrayScale_reports_name_reader_properties :
    (convertToGrayScale (Sample.envWith (some Sample.reader) (some Sample.deafConverter))
        "set.jpg" "p0" "Zeiss Axio Vision Montage" Sample.filterWithImage).map
        (fun t => (calls t.trace, errorTexts t.trace)) =
      .ok ([Call.setProperty "RGBToGray" "SelectedCellArrayArrayPath"
              (.dataArrayPath "Zeiss Axio Vision Montage" "Tile AttributeMatrix" "set_p0"),
            Call.setProperty "RGBToGray" "ColorWeights" (.floatVec3 ⟨0, 0, 0⟩),
            Call.setProperty "RGBToGray" "NewCellArrayName" (.string "gray_scale_temp"),
            Call.preflight "RGBToGray"],
        [(propertyErrorText "InputFileName" "RGBToGray", -70005),
          (propertyErrorText "DataContainerName" "RGBToGray", -70006),
          (propertyErrorText "CellAttributeMatrixName" "RGBToGray", -70007)]) ∧
      mentions (propertyErrorText "InputFileName" "RGBToGray") "InputFileName" = true ∧
      mentions (propertyErrorText "InputFileName" "RGBToGray")
        "SelectedCellArrayArrayPath" = false ∧
      mentions (propertyErrorText "DataContainerName" "RGBToGray") "ColorWeights" = false ∧
      mentions (propertyErrorText "CellAttributeMatrixName" "RGBToGray")
        "NewCellArrayName" = false ∧
      (convertToGrayScale (Sample.envWith (some Sample.reader) none)
        "set.jpg" "p0" "Zeiss Axio Vision Montage" Sample.filterWithImage).map
        (fun t => errorTexts t.trace) = .ok [(missingFactoryText, -70009)] ∧
      mentions missingFactoryText "'ReadImage'" = true ∧
      mentions missingFactoryText "RGBToGray" = false := by
  refine ⟨?_, ?_, ?_, ?_, ?_, ?_, ?_, ?_⟩ <;> decide

/-! ## The preconditions of the ITK adapter -/

theorem itk_cStr_of_no_nul (s : String) (h : ∀ c ∈ s.data, c.toNat ≠ 0) : itk.cStr s = s := by
  unfold itk.cStr
  have e : s.data.takeWhile (fun c => c.toNat != 0) = s.data := by
    rw [List.takeWhile_eq_self_iff]
    intro c hc
    simpa using h c hc
  rw [e]

theorem itk_VerifyPreconditions_eq (heap : Nat → itk.DataContainerObject)
    (f : itk.InPlaceDream3DDataToImageFilter)
    (hgeom : ∀ a, f.m_DataContainer = some a → (heap a).geometry ≠ none) :
    itk.VerifyPreconditions heap f =
      match itk.firstFailure heap f with
      | some message => .exception message
      | none => .superclass := by
  unfold itk.VerifyPreconditions itk.firstFailure itk.geometryTypeName itk.namedArray
    itk.namedMatrix
  cases ha : f.m_DataContainer with
  | none => simp
  | some a =>
    have hg := hgeom a ha
    cases hgeo : (heap a).geometry with
    | none => exact absurd hgeo hg
    | some g =>
      by_cases ht : g.geometryTypeAsString = "ImageGeometry"
      · cases hm : (heap a).container.getAttributeMatrix (itk.cStr f.m_AttributeMatrixArrayName) with
        | none =>
          have hm2 : findKey (itk.cStr f.m_AttributeMatrixArrayName) (heap a).container.matrices
              = none := hm
          simp [hgeo, ht, hm, hm2, itk.doesAttributeMatrixExist]
        | some ma =>
          have hm2 : findKey (itk.cStr f.m_AttributeMatrixArrayName) (heap a).container.matrices
              = some ma := hm
          cases hr : findKey (itk.cStr f.m_DataArrayName) ma.arrays <;>
            simp [hgeo, ht, hm, hm2, hr, itk.doesAttributeMatrixExist,
              itk.doesAttributeArrayExist]
      · simp [hgeo, ht]

/-- C27: for an adapter whose container, when set, has a geometry, `VerifyPreconditions`
ends in an exception, and not in the superclass check, exactly when the container is
unset, or the type name of its geometry is not `ImageGeometry`, or the container has no
matrix of the adapter's matrix name, or that matrix has no array of the adapter's array
name; the exception is the one of the first of these checks that fails, and with all four
passing the superclass check is reached.  `SetDataArrayPath` and `SetInput` leave the
adapter as it is when the two names, or the container pointer, are the ones already
stored, and otherwise store the new ones and call `Modified()` once. -/
theorem VerifyPreconditions_raises_iff (heap : Nat → itk.DataContainerObject)
    (f : itk.InPlaceDream3DDataToImageFilter) (path : itk.DataArrayPath) (dc : Option Nat)
    (hgeom : ∀ a, f.m_DataContainer = some a → (heap a).geometry ≠ none) :
    ((∃ message, itk.VerifyPreconditions heap f = .exception message) ↔
        (f.m_DataContainer = none ∨
          (∃ n, itk.geometryTypeName heap f = some n ∧ n ≠ "ImageGeometry") ∨
          (f.m_DataContainer ≠ none ∧ itk.namedMatrix heap f = none) ∨
          (∃ ma, itk.namedMatrix heap f = some ma ∧
            itk.doesAttributeArrayExist ma (itk.cStr f.m_DataArrayName) = false))) ∧
      (itk.VerifyPreconditions heap f =
        match itk.firstFailure heap f with
        | some message => .exception message
        | none => .superclass) ∧
      ((∀ c ∈ f.m_AttributeMatrixArrayName.data, c.toNat ≠ 0) →
        itk.cStr f.m_AttributeMatrixArrayName = f.m_AttributeMatrixArrayName) ∧
      ((∀ c ∈ f.m_DataArrayName.data, c.toNat ≠ 0) →
        itk.cStr f.m_DataArrayName = f.m_DataArrayName) ∧
      (itk.SetDataArrayPath f path =
        if f.m_AttributeMatrixArrayName = path.attributeMatrixName ∧
            f.m_DataArrayName = path.dataArrayName then f
        else { f with
          m_AttributeMatrixArrayName := path.attributeMatrixName
          m_DataArrayName := path.dataArrayName
          m_MTime := f.m_MTime + 1 }) ∧
      ((itk.SetDataArrayPath f path).m_MTime ≠ f.m_MTime ↔
        ((itk.SetDataArrayPath f path).m_AttributeMatrixArrayName ≠
            f.m_AttributeMatrixArrayName ∨
          (itk.SetDataArrayPath f path).m_DataArrayName ≠ f.m_DataArrayName)) ∧
      (itk.SetInput f dc =
        if dc = f.m_DataContainer then f
        else { f with m_DataContainer := dc, m_MTime := f.m_MTime + 1 }) ∧
      ((itk.SetInput f dc).m_MTime ≠ f.m_MTime ↔
        (itk.SetInput f dc).m_DataContainer ≠ f.m_DataContainer) := by
  have heq := itk_VerifyPreconditions_eq heap f hgeom
  refine ⟨?_, heq, itk_cStr_of_no_nul _, itk_cStr_of_no_nul _, ?_, ?_, ?_, ?_⟩
  · rw [heq]
    unfold itk.firstFailure itk.namedArray itk.geometryTypeName itk.namedMatrix
      itk.doesAttributeArrayExist
    cases ha : f.m_DataContainer with
    | none => simp
    | some a =>
      cases hgeo : (heap a).geometry with
      | none => exact absurd hgeo (hgeom a ha)
      | some g =>
        by_cases ht : g.geometryTypeAsString = "ImageGeometry"
        · cases hm : (heap a).container.getAttributeMatrix
              (itk.cStr f.m_AttributeMatrixArrayName) with
          | none => simp [hgeo, ht, hm]
          | some ma =>
            cases hr : findKey (itk.cStr f.m_DataArrayName) ma.arrays <;>
              simp [hgeo, ht, hm, hr]
        · simp [hgeo, ht]
  · unfold itk.SetDataArrayPath itk.Modified
    by_cases h1 : f.m_AttributeMatrixArrayName = path.attributeMatrixName <;>
      by_cases h2 : f.m_DataArrayName = path.dataArrayName <;> simp [h1, h2]
  · unfold itk.SetDataArrayPath itk.Modified
    by_cases h1 : f.m_AttributeMatrixArrayName = path.attributeMatrixName <;>
      by_cases h2 : f.m_DataArrayName = path.dataArrayName <;>
      simp [h1, h2, eq_comm]
  · unfold itk.SetInput itk.Modified
    by_cases h : dc = f.m_DataContainer <;> simp [h]
  · unfold itk.SetInput itk.Modified
    by_cases h : dc = f.m_DataContainer <;> simp [h]

theorem VerifyPreconditions_raises_iff_witness :
    (∀ a, (Sample.adapter (some 1) "Cells" "gray").m_DataContainer = some a →
        (Sample.heap a).geometry ≠ none) ∧
      itk.VerifyPreconditions Sample.heap (Sample.adapter (some 1) "Cells" "gray") =
        .superclass ∧
      itk.VerifyPreconditions Sample.heap (Sample.adapter none "Cells" "gray") =
        .exception "DataContainer not set!" ∧
      itk.VerifyPreconditions Sample.heap (Sample.adapter (some 2) "Nope" "nope") =
        .exception "DataContainer geometry is not ImageGeometry. It is RectGridGeometry" ∧
      itk.VerifyPreconditions Sample.heap (Sample.adapter (some 1) "Nope" "nope") =
        .exception "Matrix array (Nope) does not exist" ∧
      itk.VerifyPreconditions Sample.heap (Sample.adapter (some 1) "Cells" "nope") =
        .exception "Attribute array (nope) does not exist" ∧
      itk.VerifyPreconditions Sample.heap (Sample.adapter (some 3) "Cells" "gray") =
        .nullPointerDereference ∧
      (itk.SetInput (Sample.adapter (some 1) "Cells" "gray") (some 1)).m_MTime = 0 ∧
      (itk.SetInput (Sample.adapter (some 1) "Cells" "gray") (some 2)).m_MTime = 1 ∧
      (itk.SetDataArrayPath (Sample.adapter (some 1) "Cells" "gray")
        ⟨"Other", "Cells", "gray"⟩).m_MTime = 0 ∧
      (itk.SetDataArrayPath (Sample.adapter (some 1) "Cells" "gray")
        ⟨"Image", "Cells", "rgb"⟩).m_MTime = 1 :=
  ⟨fun a ha => by
      have h1 : 1 = a := Option.some.inj ha
      subst h1
      decide,
    (VerifyPreconditions_raises_iff Sample.heap (Sample.adapter (some 1) "Cells" "gray")
      ⟨"Image", "Cells", "gray"⟩ (some 1) (fun a ha => by
        have h1 : 1 = a := Option.some.inj ha
        subst h1
        decide)).2.1.trans (by decide),
    by decide, by decide, by decide, by decide, by decide, by decide, by decide, by decide,
    by decide⟩

/-! ## The tile grid on an exact grid -/

theorem sortedDistinct_mem (values : List Int) (v : Int) :
    v ∈ sortedDistinct values ↔ v ∈ values := by
  unfold sortedDistinct
  rw [List.mem_insertionSort, List.mem_dedup]

theorem sortedDistinct_nodup (values : List Int) : (sortedDistinct values).Nodup := by
  unfold sortedDistinct
  exact (List.perm_insertionSort _ _).nodup_iff.2 (List.nodup_dedup _)

theorem sortedDistinct_sorted (values : List Int) :
    (sortedDistinct values).Pairwise (fun a b => a < b) := by
  have h : List.Sorted (fun a b : Int => a ≤ b) (sortedDistinct values) := by
    unfold sortedDistinct
    exact List.sorted_insertionSort _ _
  exact h.lt_of_le (sortedDistinct_nodup values)

theorem closestCluster_of_far (tolerance : Int) (representatives : List Int) (v : Int)
    (h : ∀ r ∈ representatives, tolerance < |v - r|) :
    closestCluster tolerance representatives v = none := by
  unfold closestCluster
  have e : representatives.enum.filter (fun c => decide (|v - c.2| ≤ tolerance)) = [] := by
    rw [List.filter_eq_nil_iff]
    intro c hc
    have := h c.2 (List.snd_mem_of_mem_enum hc)
    simp only [decide_eq_true_eq, not_le]
    exact this
  rw [e]
  rfl

theorem foldl_placeValue_of_separated (tolerance : Int) : ∀ (l done : List Int),
    (∀ a ∈ done ++ l, ∀ b ∈ done ++ l, a ≠ b → tolerance < |a - b|) →
    (done ++ l).Nodup →
    l.foldl (placeValue tolerance) (done, done.enum.map Prod.swap) =
      (done ++ l, (done ++ l).enum.map Prod.swap) := by
  intro l
  induction l with
  | nil => intro done _ _; simp
  | cons v l ih =>
    intro done hsep hnd
    have hfar : closestCluster tolerance done v = none := by
      apply closestCluster_of_far
      intro r hr
      have hne : v ≠ r := by
        intro e
        subst e
        rw [List.nodup_append] at hnd
        exact hnd.2.2 hr (List.mem_cons_self _ _)
      exact hsep v (by simp) r (by simp [hr]) hne
    have hstep : placeValue tolerance (done, done.enum.map Prod.swap) v =
        (done ++ [v], (done ++ [v]).enum.map Prod.swap) := by
      simp only [placeValue, hfar]
      simp [List.enum_append, List.enumFrom_cons]
    rw [List.foldl_cons, hstep]
    have e : done ++ v :: l = (done ++ [v]) ++ l := by simp
    rw [e] at hsep hnd ⊢
    exact ih (done ++ [v]) hsep hnd

theorem lookup_enumFrom_swap : ∀ (l : List Int) (n : Nat) (v : Int), v ∈ l →
    ((l.enumFrom n).map Prod.swap).lookup v = some (n + l.indexOf v) := by
  intro l
  induction l with
  | nil => intro n v h; simp at h
  | cons x l ih =>
    intro n v h
    by_cases hx : v = x
    · subst hx
      simp [List.enumFrom_cons, List.lookup_cons]
    · have hmem : v ∈ l := by
        rcases List.mem_cons.1 h with h1 | h1
        · exact absurd h1 hx
        · exact h1
      have hbeq : (v == x) = false := by simpa using hx
      rw [List.enumFrom_cons, List.map_cons, List.lookup_cons]
      simp only [Prod.swap, hbeq]
      rw [ih (n + 1) v hmem, List.indexOf_cons_ne _ (Ne.symm hx)]
      congr 1
      omega

theorem clusterValues_of_separated (tolerance : Int) (values : List Int)
    (hsep : ∀ a ∈ values, ∀ b ∈ values, a ≠ b → tolerance < |a - b|) :
    clusterValues tolerance values =
      (sortedDistinct values, (sortedDistinct values).enum.map Prod.swap) := by
  have h := foldl_placeValue_of_separated tolerance (sortedDistinct values) []
    (by
      intro a ha b hb
      simp only [List.nil_append, sortedDistinct_mem] at ha hb
      exact hsep a ha b hb)
    (by simpa using sortedDistinct_nodup values)
  simpa [clusterValues] using h

theorem clusterIndex_of_separated (tolerance : Int) (values : List Int)
    (hsep : ∀ a ∈ values, ∀ b ∈ values, a ≠ b → tolerance < |a - b|) (v : Int)
    (hv : v ∈ values) :
    clusterIndex tolerance values v = ((sortedDistinct values).indexOf v : Nat) := by
  unfold clusterIndex
  rw [clusterValues_of_separated tolerance values hsep]
  have := lookup_enumFrom_swap (sortedDistinct values) 0 v ((sortedDistinct_mem _ _).2 hv)
  simp only [List.enum] at this ⊢
  rw [this]
  simp

theorem indexOf_lt_of_sorted (l : List Int) (hs : l.Pairwise (fun a b => a < b)) (a b : Int)
    (ha : a ∈ l) (hb : b ∈ l) (hab : a < b) : l.indexOf a < l.indexOf b := by
  have hia := List.indexOf_lt_length.2 ha
  have hib := List.indexOf_lt_length.2 hb
  by_contra hcon
  have hle : l.indexOf b ≤ l.indexOf a := by omega
  rcases Nat.lt_or_eq_of_le hle with hlt | heq
  · have := List.pairwise_iff_getElem.1 hs _ _ hib hia hlt
    rw [List.getElem_indexOf hib, List.getElem_indexOf hia] at this
    omega
  · have e1 := List.getElem_indexOf hia
    have e2 := List.getElem_indexOf hib
    have : a = b := by
      rw [← e1, ← e2]
      congr 1
      exact heq.symm
    omega

theorem grid_separated (tolerance S x0 : Int) (values : List Int) (hS : tolerance < S)
    (hgrid : ∀ v ∈ values, ∃ k : Int, v = x0 + k * S) :
    ∀ a ∈ values, ∀ b ∈ values, a ≠ b → tolerance < |a - b| := by
  intro a ha b hb hne
  obtain ⟨k, hk⟩ := hgrid a ha
  obtain ⟨j, hj⟩ := hgrid b hb
  have hkj : k - j ≠ 0 := by
    intro e
    apply hne
    have : k = j := by omega
    rw [hk, hj, this]
  have e : a - b = (k - j) * S := by rw [hk, hj]; ring
  rw [e, abs_mul]
  have h1 : 1 ≤ |k - j| := Int.one_le_abs hkj
  have h2 : S ≤ |S| := le_abs_self S
  have h3 : 0 ≤ |S| := abs_nonneg S
  nlinarith

theorem clusterIndex_on_grid (tolerance S x0 : Int) (values : List Int) (hS : tolerance < S)
    (hgrid : ∀ v ∈ values, ∃ k : Int, v = x0 + k * S) (a b : Int) (ha : a ∈ values)
    (hb : b ∈ values) :
    (clusterIndex tolerance values a = clusterIndex tolerance values b ↔ a = b) ∧
      (a < b → clusterIndex tolerance values a < clusterIndex tolerance values b) ∧
      (|a - b| ≤ tolerance → clusterIndex tolerance values a = clusterIndex tolerance values b) ∧
      0 ≤ clusterIndex tolerance values a ∧
      clusterIndex tolerance values a < (clusterValues tolerance values).1.length := by
  have hsep := grid_separated tolerance S x0 values hS hgrid
  have hma := (sortedDistinct_mem values a).2 ha
  have hmb := (sortedDistinct_mem values b).2 hb
  rw [clusterIndex_of_separated tolerance values hsep a ha,
    clusterIndex_of_separated tolerance values hsep b hb,
    clusterValues_of_separated tolerance values hsep]
  have hinj := List.indexOf_inj hma hmb
  refine ⟨?_, ?_, ?_, ?_, ?_⟩
  · rw [← hinj]
    exact Int.ofNat_inj
  · intro hab
    exact Int.ofNat_lt.2 (indexOf_lt_of_sorted _ (sortedDistinct_sorted values) a b hma hmb hab)
  · intro hab
    have : a = b := by
      by_contra hne
      have := hsep a ha b hb hne
      omega
    rw [this]
  · exact Int.ofNat_nonneg _
  · exact Int.ofNat_lt.2 (List.indexOf_lt_length.2 hma)

/-- C23: for tiles whose X starts and whose Y starts lie on an exact integer grid of spacing
`S`, and a tolerance below `S`, `findTileIndices` gives each tile the column index of its X
start and the row index of its Y start, where two tiles of the list have the same column
(row) index exactly when they have the same X (Y) start, a tile that starts further along
an axis has the larger index, two tiles whose starts differ by at most the tolerance have
the same index, and the indices run from 0 up to, not including, the counts. -/
theorem findTileIndices_on_grid (tolerance S x0 y0 : Int) (bounds : List BoundsType)
    (hS : tolerance < S)
    (hx : ∀ t ∈ bounds, ∃ k : Int, t.StartX = x0 + k * S)
    (hy : ∀ t ∈ bounds, ∃ k : Int, t.StartY = y0 + k * S) :
    (findTileIndices tolerance bounds).bounds = bounds.map (fun t =>
        { t with
          Row := rowIndex tolerance bounds t.StartY
          Col := columnIndex tolerance bounds t.StartX }) ∧
      ∀ a ∈ bounds, ∀ b ∈ bounds,
        (columnIndex tolerance bounds a.StartX = columnIndex tolerance bounds b.StartX ↔
          a.StartX = b.StartX) ∧
        (a.StartX < b.StartX →
          columnIndex tolerance bounds a.StartX < columnIndex tolerance bounds b.StartX) ∧
        (|a.StartX - b.StartX| ≤ tolerance →
          columnIndex tolerance bounds a.StartX = columnIndex tolerance bounds b.StartX) ∧
        0 ≤ columnIndex tolerance bounds a.StartX ∧
        columnIndex tolerance bounds a.StartX < (findTileIndices tolerance bounds).columnCount ∧
        (rowIndex tolerance bounds a.StartY = rowIndex tolerance bounds b.StartY ↔
          a.StartY = b.StartY) ∧
        (a.StartY < b.StartY →
          rowIndex tolerance bounds a.StartY < rowIndex tolerance bounds b.StartY) ∧
        (|a.StartY - b.StartY| ≤ tolerance →
          rowIndex tolerance bounds a.StartY = rowIndex tolerance bounds b.StartY) ∧
        0 ≤ rowIndex tolerance bounds a.StartY ∧
        rowIndex tolerance bounds a.StartY < (findTileIndices tolerance bounds).rowCount := by
  refine ⟨rfl, ?_⟩
  intro a ha b hb
  have gx : ∀ v ∈ bounds.map (fun t => t.StartX), ∃ k : Int, v = x0 + k * S := by
    intro v hv
    obtain ⟨t, ht, rfl⟩ := List.mem_map.1 hv
    exact hx t ht
  have gy : ∀ v ∈ bounds.map (fun t => t.StartY), ∃ k : Int, v = y0 + k * S := by
    intro v hv
    obtain ⟨t, ht, rfl⟩ := List.mem_map.1 hv
    exact hy t ht
  have cx := clusterIndex_on_grid tolerance S x0 _ hS gx a.StartX b.StartX
    (List.mem_map.2 ⟨a, ha, rfl⟩) (List.mem_map.2 ⟨b, hb, rfl⟩)
  have cy := clusterIndex_on_grid tolerance S y0 _ hS gy a.StartY b.StartY
    (List.mem_map.2 ⟨a, ha, rfl⟩) (List.mem_map.2 ⟨b, hb, rfl⟩)
  exact ⟨cx.1, cx.2.1, cx.2.2.1, cx.2.2.2.1, cx.2.2.2.2, cy.1, cy.2.1, cy.2.2.1, cy.2.2.2.1,
    cy.2.2.2.2⟩

theorem sample_mosaic_on_grid :
    (∀ t ∈ Sample.mosaic, ∃ k : Int, t.StartX = 0 + k * 1000) ∧
      (∀ t ∈ Sample.mosaic, ∃ k : Int, t.StartY = 0 + k * 1000) := by
  constructor
  · intro t ht
    simp only [Sample.mosaic, List.mem_cons, List.mem_singleton, List.not_mem_nil,
      or_false] at ht
    rcases ht with rfl | rfl | rfl | rfl
    · exact ⟨0, rfl⟩
    · exact ⟨0, rfl⟩
    · exact ⟨1, rfl⟩
    · exact ⟨1, rfl⟩
  · intro t ht
    simp only [Sample.mosaic, List.mem_cons, List.mem_singleton, List.not_mem_nil,
      or_false] at ht
    rcases ht with rfl | rfl | rfl | rfl
    · exact ⟨0, rfl⟩
    · exact ⟨1, rfl⟩
    · exact ⟨0, rfl⟩
    · exact ⟨1, rfl⟩

theorem findTileIndices_on_grid_witness :
    ((100 : Int) < 1000 ∧
      (∀ t ∈ Sample.mosaic, ∃ k : Int, t.StartX = 0 + k * 1000) ∧
      (∀ t ∈ Sample.mosaic, ∃ k : Int, t.StartY = 0 + k * 1000)) ∧
    columnIndex 100 Sample.mosaic (Sample.tileAt 0 1000).StartX <
      columnIndex 100 Sample.mosaic (Sample.tileAt 1000 0).StartX ∧
    (findTileIndices 100 Sample.mosaic).bounds.map
        (fun t => ((t.StartX, t.StartY), (t.Row, t.Col))) =
      [((0, 0), (0, 0)), ((0, 1000), (1, 0)), ((1000, 0), (0, 1)), ((1000, 1000), (1, 1))] ∧
    (findTileIndices 100 Sample.mosaic).rowCount = 2 ∧
    (findTileIndices 100 Sample.mosaic).columnCount = 2 ∧
    (findTileIndices 100 [Sample.tileAt 250 750]).bounds.map (fun t => (t.Row, t.Col)) =
      [(0, 0)] :=
  ⟨⟨by decide, sample_mosaic_on_grid.1, sample_mosaic_on_grid.2⟩,
    ((findTileIndices_on_grid 100 1000 0 0 Sample.mosaic (by decide)
      sample_mosaic_on_grid.1 sample_mosaic_on_grid.2).2
      (Sample.tileAt 0 1000) (by simp [Sample.mosaic])
      (Sample.tileAt 1000 0) (by simp [Sample.mosaic])).2.1 (by decide),
    by decide, by decide, by decide, by decide⟩

/-! ## The walk through the tiles, with the values given to the collaborators -/

theorem actions_append (a b : List Event) : actions (a ++ b) = actions a ++ actions b := by
  simp [actions]

theorem assignProperty_actions (filter : SubFilter) (filtName property reported : String)
    (code : Int) (value : QVariant) (st : ZeissImportFilter × List (String × QVariant)) :
    actions (assignProperty filter filtName property reported code value st).1.trace =
      actions st.1.trace ++ [Action.call (Call.setProperty filtName property value)] := by
  rw [assignProperty_trace, actions_append]
  cases filter.setProperty property value <;> simp [actions, actionOf]

theorem runSubFilter_actions (filter : SubFilter) (filtName : String)
    (props : List (String × QVariant)) (t : ZeissImportFilter) :
    actions (runSubFilter filter filtName props t).trace =
      actions t.trace ++ [Action.call (runCall t.inPreflight filtName)] := by
  unfold runSubFilter runCall
  cases h : t.inPreflight <;> simp [actions_append, actions, actionOf]

theorem importImage_actions (env : Env) (imageName pTag : String) (t : ZeissImportFilter)
    (reader : SubFilter) (hr : env.getFactoryForFilter "ReadImage" = some reader) :
    actions (importImage env imageName pTag t.dataContainerName t).trace =
      actions t.trace ++ readerActions env t imageName pTag := by
  simp only [importImage, hr, readerActions]
  rw [runSubFilter_actions, assignProperty_actions, assignProperty_actions,
    assignProperty_actions, assignProperty_actions]
  simp only [assignProperty_inPreflight, List.append_assoc, List.cons_append,
    List.nil_append]

theorem requestGrayScale_actions (conv : SubFilter) (imageName pTag : String)
    (t : ZeissImportFilter) :
    actions (requestGrayScale conv (completeBaseName imageName ++ "_" ++ pTag) t).trace =
      actions t.trace ++ converterActions t imageName pTag := by
  simp only [requestGrayScale, converterActions]
  rw [runSubFilter_actions, assignProperty_actions, assignProperty_actions,
    assignProperty_actions]
  simp only [assignProperty_inPreflight, List.append_assoc, List.cons_append,
    List.nil_append]

theorem convertToGrayScale_actions (env : Env) (imageName pTag dcName : String)
    (t t' : ZeissImportFilter) (conv : SubFilter)
    (hc : env.getFactoryForFilter "RGBToGray" = some conv)
    (e : convertToGrayScale env imageName pTag dcName t = .ok t') :
    actions t'.trace = actions t.trace ++ converterActions t imageName pTag := by
  have heq := convertToGrayScale_eq env imageName pTag dcName t
  simp only [hc] at heq
  rw [heq] at e
  rw [(replaceByGrayScale_keeps _ _ _ e).1, requestGrayScale_actions]

theorem readerActions_congr (env : Env) (a b : ZeissImportFilter) (h : sameSettings a b)
    (imageName pTag : String) :
    readerActions env b imageName pTag = readerActions env a imageName pTag := by
  unfold readerActions
  rw [h.1, h.2.1, h.2.2.1, h.2.2.2.2.2]

theorem converterActions_congr (a b : ZeissImportFilter) (h : sameSettings a b)
    (imageName pTag : String) :
    converterActions b imageName pTag = converterActions a imageName pTag := by
  unfold converterActions
  rw [h.2.1, h.2.2.1, h.2.2.2.2.1, h.2.2.2.2.2]

theorem tileActions_congr (env : Env) (a b : ZeissImportFilter) (h : sameSettings a b)
    (imageCount : Int) (imageName : String) (p : Nat) :
    tileActions env b imageCount imageName p = tileActions env a imageCount imageName p := by
  unfold tileActions
  rw [readerActions_congr env a b h, converterActions_congr a b h, h.2.2.2.1]

theorem importAndConvert_actions (env : Env) (imageName : String) (dc0 : DataContainer)
    (pTag : String) (t t' : ZeissImportFilter) (b : Bool) (reader : SubFilter)
    (hname : dc0.name = t.dataContainerName)
    (hreader : env.getFactoryForFilter "ReadImage" = some reader)
    (hconv : t.convertToGrayScale = true →
      ∃ conv, env.getFactoryForFilter "RGBToGray" = some conv)
    (e : importAndConvert env imageName (some dc0) pTag t = .ok (b, t')) :
    actions t'.trace = actions t.trace ++ (readerActions env t imageName pTag ++
      (if t.convertToGrayScale then converterActions t imageName pTag else [])) := by
  have himp := importImage_spec env imageName pTag dc0.name t reader hreader
  have hact := importImage_actions env imageName pTag t reader hreader
  rw [← hname] at hact
  simp only [importAndConvert, bind, Except.bind, deref, pure, Except.pure] at e
  generalize importImage env imageName pTag dc0.name t = t2 at himp hact e
  have s2 := himp.1
  cases hg : t.convertToGrayScale with
  | false =>
    have hg2 : t2.convertToGrayScale = false := by rw [s2.2.2.2.1, hg]
    simp only [hg2, Bool.false_eq_true, if_false, Except.ok.injEq, Prod.mk.injEq] at e
    rw [← e.2, hact]
    simp
  | true =>
    have hg2 : t2.convertToGrayScale = true := by rw [s2.2.2.2.1, hg]
    obtain ⟨conv, hc⟩ := hconv hg
    simp only [hg2, if_true] at e
    cases hcv : convertToGrayScale env imageName pTag dc0.name t2 with
    | error f => simp [hcv] at e
    | ok t3 =>
      simp only [hcv, Except.ok.injEq, Prod.mk.injEq] at e
      have h3 := convertToGrayScale_actions env imageName pTag dc0.name t2 t3 conv hc hcv
      rw [← e.2, h3, hact, converterActions_congr t t2 s2]
      simp

theorem createTileMatrices_keeps (env : Env) (imageCount : Int) (dc : Option DataContainer)
    (sec : ZeissTagsXmlSection) (t t1 : ZeissImportFilter)
    (e : createTileMatrices env imageCount dc sec t = .ok t1) :
    t1.trace = t.trace ∧ sameSettings t t1 := by
  simp only [createTileMatrices, bind, Except.bind, pure, Except.pure] at e
  cases hd : getImageDimensions env sec with
  | error f => simp [hd] at e
  | ok dims =>
    cases hdc : deref dc with
    | error f => simp [hd, hdc] at e
    | ok d =>
      simp only [hd, hdc, Except.ok.injEq] at e
      subst e
      exact ⟨rfl, rfl, rfl, rfl, rfl, rfl, rfl⟩

theorem processTile_actions (env : Env) (imageCount : Int) (imageName : String)
    (dc0 : DataContainer) (p : Nat) (pTag : String) (sec : ZeissTagsXmlSection)
    (t t' : ZeissImportFilter) (b : Bool) (reader : SubFilter)
    (hname : dc0.name = t.dataContainerName)
    (hreader : env.getFactoryForFilter "ReadImage" = some reader)
    (hconv : t.convertToGrayScale = true →
      ∃ conv, env.getFactoryForFilter "RGBToGray" = some conv)
    (e : processTile env imageCount imageName (some dc0) p pTag sec t = .ok (b, t')) :
    actions t'.trace = actions t.trace ++ (readerActions env t imageName pTag ++
      (if t.convertToGrayScale then converterActions t imageName pTag else [])) := by
  simp only [processTile, bind, Except.bind, addMetaData] at e
  cases hq : qAssert env
      (convertInt32 (ZeissTagsXmlSection.getEntry sec env.imageTileIndexId)).isSome with
  | error f => simp [hq] at e
  | ok u =>
    simp only [hq] at e
    by_cases h0 : p = 0
    · simp only [h0, if_true] at e
      cases hb : createTileMatrices env imageCount (some dc0) sec t with
      | error f => simp [hb] at e
      | ok t1 =>
        simp only [hb] at e
        have hk := createTileMatrices_keeps env imageCount (some dc0) sec t t1 hb
        have h := importAndConvert_actions env imageName dc0 pTag t1 t' b reader
          (by rw [hk.2.2.1]; exact hname) hreader
          (fun hg => hconv (by rw [← hk.2.2.2.2.1]; exact hg)) e
        rw [h, hk.1, readerActions_congr env t t1 hk.2, converterActions_congr t t1 hk.2,
          hk.2.2.2.2.1]
    · simp only [h0, if_false, pure, Except.pure] at e
      exact importAndConvert_actions env imageName dc0 pTag t t' b reader hname hreader
        hconv e

theorem parseImagesBody_actions (env : Env) (root : QDomElement) (imageCount : Int)
    (imageName : String) (dc0 : DataContainer) (zp p : Nat) (t t' : ZeissImportFilter)
    (reader : SubFilter)
    (hname : dc0.name = t.dataContainerName)
    (hreader : env.getFactoryForFilter "ReadImage" = some reader)
    (hconv : t.convertToGrayScale = true →
      ∃ conv, env.getFactoryForFilter "RGBToGray" = some conv)
    (e : parseImagesBody env root imageCount imageName zp (some dc0) p t = .ok (true, t')) :
    actions t'.trace = actions t.trace ++
      (Action.status (importingText p imageCount) ::
        (readerActions env t imageName (tileTag zp p) ++
          (if t.convertToGrayScale then converterActions t imageName (tileTag zp p)
           else []))) := by
  unfold parseImagesBody at e
  cases h1 : firstChildElement root (tileTag zp p) with
  | none => simp [h1] at e
  | some photoEle =>
    cases h2 : firstChildElement photoEle Xml.Tags with
    | none => simp [h1, h2] at e
    | some tags =>
      cases h3 : toInt (text (firstChildElement tags Xml.Count)) with
      | none => simp [h1, h2, parseTagsSection, h3] at e
      | some count =>
        simp only [h1, h2, parseTagsSection, h3] at e
        have h := processTile_actions env imageCount imageName dc0 p (tileTag zp p) _
          (t.notifyStatusMessage (importingText p imageCount)) t' true reader hname hreader
          hconv e
        rw [h]
        have hs : sameSettings t (t.notifyStatusMessage (importingText p imageCount)) :=
          ⟨rfl, rfl, rfl, rfl, rfl, rfl⟩
        rw [readerActions_congr env t _ hs, converterActions_congr t _ hs]
        simp [ZeissImportFilter.notifyStatusMessage, actions_append, actions, actionOf]

/-- C3: for a document whose global section gives the image count `N` and the file name,
whose tiles `0 .. N-1` are all well formed, with the image reader registered (and, when
gray-scale conversion is asked for, collaborators that serve it), `parseImages` ends
normally and the walk it made is exactly: for each tile `0, 1, .., N-1` in this order, the
status message of the tile, then the four assignments on the image reader with the input
path and the array name of that very tile followed by one run of the reader, and, if and
only if `ConvertToGrayScale` is set, the three assignments on the converter with the array
of that tile followed by one run of the converter right after it.  For `N ≤ 0` the filter
state is left as it was: nothing is asked of a collaborator and no attribute matrix is
created. -/
theorem parseImages_walks_tiles_in_order (env : Env) (root : QDomElement)
    (sec : ZeissTagsXmlSection) (s : ZeissImportFilter) (imageCount : Int)
    (imageName : String) (dca : DataContainerArray) (dc0 : DataContainer) (reader : SubFilter)
    (hc : convertInt32 (ZeissTagsXmlSection.getEntry sec env.imageCountRawId) = some imageCount)
    (hn : castString (ZeissTagsXmlSection.getEntry sec env.filenameId) = some imageName)
    (hd : s.dataContainerArray = some dca)
    (hdc : getDataContainer dca s.dataContainerName = some dc0)
    (htiles : ∀ p : Nat, (p : Int) < imageCount →
      wellFormedTile env root (zeroPadding imageCount) p = true)
    (hreader : env.getFactoryForFilter "ReadImage" = some reader)
    (hgray : s.convertToGrayScale = true → collaboratorsServeGrayScale env s) :
    ∃ s', parseImages env root sec s = .ok s' ∧
      steps s'.trace = steps s.trace ++
        (List.range imageCount.toNat).flatMap (tileSteps s.convertToGrayScale imageCount) ∧
      actions s'.trace = actions s.trace ++
        (List.range imageCount.toNat).flatMap (tileActions env s imageCount imageName) ∧
      (imageCount ≤ 0 → s' = s) := by
  rw [parseImages_of_entries env root sec s imageCount imageName dca hc hn hd, hdc]
  have hname : dc0.name = s.dataContainerName := getDataContainer_name _ _ _ hdc
  obtain ⟨s', e', i'⟩ := forLoop_invariant
    (parseImagesBody env root imageCount imageName (zeroPadding imageCount) (some dc0))
    (fun p t => sameSettings s t ∧
      steps t.trace = steps s.trace ++
        (List.range p).flatMap (tileSteps s.convertToGrayScale imageCount) ∧
      actions t.trace = actions s.trace ++
        (List.range p).flatMap (tileActions env s imageCount imageName) ∧
      (p = 0 → t = s) ∧
      (s.convertToGrayScale = true → 0 < p → ∃ d, t.dataContainerArray = some d ∧
        hasArrays d s.dataContainerName s.imageAttributeMatrixName [] = true))
    imageCount.toNat 0 s
    ⟨sameSettings_refl s, by simp, by simp, fun _ => rfl, fun _ h => absurd h (by omega)⟩
    (by
      intro p t _ hp ⟨hs, htr, hac, hp0, hinv⟩
      have hdc' : getDataContainer dca t.dataContainerName = some dc0 := by rw [hs.2.1]; exact hdc
      have hgray' : t.convertToGrayScale = true → collaboratorsServeGrayScale env t :=
        fun hg => collaboratorsServeGrayScale_of_sameSettings env s t hs
          (hgray (by rw [← hs.2.2.2.1]; exact hg))
      obtain ⟨t', e', s', tr', inv'⟩ := parseImagesBody_spec env root imageCount imageName dc0
        (zeroPadding imageCount) p t dca reader (htiles p (by omega)) hdc' hreader hgray'
        (fun h0 => by rw [hp0 h0]; exact hd)
        (fun hg h0 => by
          rw [hs.2.1, hs.2.2.1]
          exact hinv (by rw [← hs.2.2.2.1]; exact hg) h0)
      have ha' := parseImagesBody_actions env root imageCount imageName dc0
        (zeroPadding imageCount) p t t' reader (by rw [hs.2.1]; exact hname) hreader
        (fun hg => by
          obtain ⟨_, conv, _, hcv, _⟩ := hgray' hg
          exact ⟨conv, hcv⟩) e'
      refine ⟨t', e', sameSettings_trans hs s', ?_, ?_, fun h => absurd h (by omega), ?_⟩
      · rw [tr', htr, hs.2.2.2.1, List.range_succ, List.flatMap_append]
        simp
      · rw [ha', hac, List.range_succ, List.flatMap_append,
          readerActions_congr env s t hs, converterActions_congr s t hs, hs.2.2.2.1]
        simp [tileActions]
      · intro hg _
        have := inv' (by rw [hs.2.2.2.1]; exact hg)
        rw [hs.2.1, hs.2.2.1] at this
        exact this)
  refine ⟨s', by rw [e']; rfl, by simpa using i'.2.1, by simpa using i'.2.2.1, ?_⟩
  intro hle
  have h0 : imageCount.toNat = 0 := by omega
  rw [h0] at e'
  simp only [forLoop] at e'
  injection e' with e'
  injection e' with _ e'
  exact e'.symm

/-- Witness for C3: the two-tile document with gray-scale conversion asked for; the
reader is given `set_p0` and then `set_p1`. -/
theorem parseImages_walks_tiles_in_order_witness :
    ∃ s', parseImages (Sample.env false) Sample.twoTiles Sample.globalSection
        (Sample.filter true) = .ok s' ∧
      steps s'.trace = steps (Sample.filter true).trace ++
        (List.range (2 : Int).toNat).flatMap
          (tileSteps (Sample.filter true).convertToGrayScale 2) ∧
      actions s'.trace =
        [Action.status "Zeiss AxioVision Import: Importing file 0 of 2",
          .call (.setProperty "ReadImage" "InputFileName" (.string "/data/set_p0.jpg")),
          .call (.setProperty "ReadImage" "DataContainerName"
            (.string "Zeiss Axio Vision Montage")),
          .call (.setProperty "ReadImage" "CellAttributeMatrixName"
            (.string "Tile AttributeMatrix")),
          .call (.setProperty "ReadImage" "ImageDataArrayName" (.string "set_p0")),
          .call (.preflight "ReadImage"),
          .call (.setProperty "RGBToGray" "SelectedCellArrayArrayPath"
            (.dataArrayPath "Zeiss Axio Vision Montage" "Tile AttributeMatrix" "set_p0")),
          .call (.setProperty "RGBToGray" "ColorWeights" (.floatVec3 ⟨0, 0, 0⟩)),
          .call (.setProperty "RGBToGray" "NewCellArrayName" (.string "gray_scale_temp")),
          .call (.preflight "RGBToGray"),
          Action.status "Zeiss AxioVision Import: Importing file 1 of 2",
          .call (.setProperty "ReadImage" "InputFileName" (.string "/data/set_p1.jpg")),
          .call (.setProperty "ReadImage" "DataContainerName"
            (.string "Zeiss Axio Vision Montage")),
          .call (.setProperty "ReadImage" "CellAttributeMatrixName"
            (.string "Tile AttributeMatrix")),
          .call (.setProperty "ReadImage" "ImageDataArrayName" (.string "set_p1")),
          .call (.preflight "ReadImage"),
          .call (.setProperty "RGBToGray" "SelectedCellArrayArrayPath"
            (.dataArrayPath "Zeiss Axio Vision Montage" "Tile AttributeMatrix" "set_p1")),
          .call (.setProperty "RGBToGray" "ColorWeights" (.floatVec3 ⟨0, 0, 0⟩)),
          .call (.setProperty "RGBToGray" "NewCellArrayName" (.string "gray_scale_temp")),
          .call (.preflight "RGBToGray")] ∧
      ((2 : Int) ≤ 0 → s' = Sample.filter true) :=
  let ⟨s', h1, h2, h3, h4⟩ :=
    parseImages_walks_tiles_in_order (Sample.env false) Sample.twoTiles Sample.globalSection
      (Sample.filter true) 2 "set.jpg" [⟨"Zeiss Axio Vision Montage", []⟩]
      ⟨"Zeiss Axio Vision Montage", []⟩ Sample.reader (by decide) (by decide) (by decide)
      (by decide)
      (by
        intro p hp
        have h2 : p < 2 := by omega
        interval_cases p <;> decide)
      rfl (fun _ => sample_collaborators_serve false true)
  ⟨s', h1, h2, h3.trans (by decide), h4⟩

end ZeissImport
